import Mathlib

/-!
# Explicit free-list allocator (`icsmm.c`, `helpers.c`): shallow embedding

The managed region is a byte-addressed memory.  Addresses and machine words
are natural numbers; a 64-bit word is read and written little-endian over
eight consecutive bytes.  Header and footer words are packed bit-fields.
Loops of the C code (`find_next_fit`, `insertFreeList`, `extend_heap`) are
embedded with an explicit iteration budget and return `none` when the
budget is exhausted before the loop leaves.
-/

namespace Icsmm

/-! ## Constants of `helpers.h` -/

def MAXHEAP_SIZE : Nat := 20448
def MIN_BLOCK_SIZE : Nat := 32
def PAGE : Nat := 4096
def WSIZE : Nat := 8
def DSIZE : Nat := 16

/-- Modelled from the spec: the header magic tag of `icsmm.h` (the header
file is not part of the sources at hand); a fixed 32-bit value. -/
def HEADER_MAGIC : Nat := 0x0badcafe

/-- Modelled from the spec: the footer magic tag of `icsmm.h` (the header
file is not part of the sources at hand); a fixed 32-bit value. -/
def FOOTER_MAGIC : Nat := 0x0a011dab

def NULL : Nat := 0
def EINVAL : Nat := 22
def ENOMEM : Nat := 12

/-- Two to the sixty-fourth: the range of `size_t`, `uint64_t` and pointers. -/
def W64 : Nat := 18446744073709551616

/-! ## Byte-addressed memory -/

/-- Memory: every address holds one byte. -/
abbrev Mem := Nat → Nat

/-- Little-endian 64-bit load. -/
def load64 (m : Mem) (a : Nat) : Nat :=
  m a % 256 + 256 * (m (a + 1) % 256 + 256 * (m (a + 2) % 256 + 256 * (m (a + 3) % 256
    + 256 * (m (a + 4) % 256 + 256 * (m (a + 5) % 256 + 256 * (m (a + 6) % 256
    + 256 * (m (a + 7) % 256)))))))

/-- Little-endian 32-bit load: the value of `*(int*)a` read as an unsigned
number, so that `-1` is `4294967295`. -/
def load32 (m : Mem) (a : Nat) : Nat :=
  m a % 256 + 256 * (m (a + 1) % 256 + 256 * (m (a + 2) % 256 + 256 * (m (a + 3) % 256)))

/-- Little-endian 64-bit store. -/
def store64 (m : Mem) (a v : Nat) : Mem :=
  fun x => if a ≤ x ∧ x < a + 8 then v / 256 ^ (x - a) % 256 else m x

/-- Single byte store (the `char` assignment of `copy_payload`). -/
def store8 (m : Mem) (a v : Nat) : Mem :=
  fun x => if x = a then v % 256 else m x

/-! ## Header and footer words

Modelled from the spec: `ics_header` and `ics_footer` of `icsmm.h` are one
8-byte word each, packing `block_size` (bits 0..15), the magic tag
(bits 16..47) and `requested_size` (bits 48..63); `ics_free_header` is a
header followed by the `next` and the `prev` pointer. -/

/-- The `block_size` bit-field of the word at `a`. -/
def get_block_size (m : Mem) (a : Nat) : Nat := load64 m a % 65536

/-- The magic tag (`hid` or `fid`) bit-field of the word at `a`. -/
def get_id (m : Mem) (a : Nat) : Nat := load64 m a / 65536 % 4294967296

/-- The `requested_size` bit-field of the word at `a`. -/
def get_requested_size (m : Mem) (a : Nat) : Nat := load64 m a / 281474976710656 % 65536

/-- Assignment to the `block_size` bit-field of the word at `a`. -/
def set_block_size (m : Mem) (a v : Nat) : Mem :=
  store64 m a (load64 m a / 65536 * 65536 + v % 65536)

/-- Assignment to the magic tag bit-field of the word at `a`. -/
def set_id (m : Mem) (a v : Nat) : Mem :=
  store64 m a (load64 m a / 281474976710656 * 281474976710656
    + v % 4294967296 * 65536 + load64 m a % 65536)

/-- Assignment to the `requested_size` bit-field of the word at `a`. -/
def set_requested_size (m : Mem) (a v : Nat) : Mem :=
  store64 m a (v % 65536 * 281474976710656 + load64 m a % 281474976710656)

/-- The `next` pointer of the free header at `a`. -/
def get_next (m : Mem) (a : Nat) : Nat := load64 m (a + 8)

/-- The `prev` pointer of the free header at `a`. -/
def get_prev (m : Mem) (a : Nat) : Nat := load64 m (a + 16)

def set_next (m : Mem) (a v : Nat) : Mem := store64 m (a + 8) v

def set_prev (m : Mem) (a v : Nat) : Mem := store64 m (a + 16) v

/-! ## Macros of `helpers.h` -/

/-- Pointer addition on 64-bit addresses. -/
def padd (a b : Nat) : Nat := (a + b) % W64

/-- Pointer subtraction on 64-bit addresses. -/
def psub (a b : Nat) : Nat := (a + W64 - b % W64) % W64

/-- `PAYLOAD(ptr)`: payload address of the block whose header is at `ptr`. -/
def PAYLOAD (ptr : Nat) : Nat := padd ptr WSIZE

/-- `GET_HDR(ptr)`: header address for the payload pointer `ptr`. -/
def GET_HDR (ptr : Nat) : Nat := psub ptr WSIZE

/-- `GET_SIZE(ptr)`: `block_size` of the header at `ptr`, low three bits masked. -/
def GET_SIZE (m : Mem) (ptr : Nat) : Nat := get_block_size m ptr / 8 * 8

/-- `GET_FTR(ptr)`: `ptr + GET_SIZE(GET_HDR(ptr)) - DSIZE`. -/
def GET_FTR (m : Mem) (ptr : Nat) : Nat :=
  psub (padd ptr (GET_SIZE m (GET_HDR ptr))) DSIZE

/-! ## Allocator state -/

/-- The process-wide variables of `icsmm.c`, the managed memory and the page
provider.  Modelled from the spec: the provider (`ics_inc_brk`,
`ics_get_brk`, not part of the sources at hand) extends the region by one
page per successful call; `provider k` tells whether its `k`-th call
succeeds, `calls` counts the calls made so far and `brk` is the current
boundary. -/
structure State where
  mem : Mem
  brk : Nat
  provider : Nat → Bool
  calls : Nat
  first_malloc : Bool
  prologue : Nat
  freelist_head : Nat
  freelist_next : Nat
  errno : Nat

/-- `adjust_size` of `helpers.c` on `size_t`. -/
def adjust_size (size : Nat) : Nat :=
  if size ≤ DSIZE then MIN_BLOCK_SIZE
  else DSIZE * ((size + DSIZE + (DSIZE - 1)) % W64 / DSIZE) % W64

/-! ## `find_next_fit` -/

/-- The `while(1)` loop of `find_next_fit`, entered with `current`; `none`
when the budget runs out before the loop returns. -/
def find_next_fit_loop (s : State) (asize : Nat) : Nat → Nat → Option Nat
  | 0, _ => none
  | fuel + 1, current =>
    if get_block_size s.mem current ≥ asize then some current
    else
      let current1 :=
        if get_next s.mem current = NULL then s.freelist_head else get_next s.mem current
      if current1 = s.freelist_next then some NULL
      else find_next_fit_loop s asize fuel current1

/-- `find_next_fit` of `helpers.c`. -/
def find_next_fit (fuel : Nat) (s : State) (asize : Nat) : Option Nat :=
  if s.freelist_next = NULL then some NULL
  else find_next_fit_loop s asize fuel s.freelist_next

/-! ## `allocate` -/

/-- Split branch of `allocate`, first group of stores: header and footer of
the allocated block. -/
def split_alloc_tags (m : Mem) (block asize reqSize : Nat) : Mem :=
  set_requested_size
    (set_id
      (set_block_size
        (set_requested_size (set_block_size m block (asize ||| 1)) block reqSize)
        (psub (padd block asize) WSIZE) (asize ||| 1))
      (psub (padd block asize) WSIZE) FOOTER_MAGIC)
    (psub (padd block asize) WSIZE) reqSize

/-- Split branch of `allocate`, second group of stores: header of the new
free block at `nf`. -/
def split_free_header (m : Mem) (nf new_block_size : Nat) : Mem :=
  set_requested_size (set_id (set_block_size m nf new_block_size) nf HEADER_MAGIC) nf 0

/-- Split branch of `allocate`: `if(block->prev != NULL) block->prev->next =
new_free_header`. -/
def split_relink_prev (m : Mem) (block nf : Nat) : Mem :=
  if get_prev m block ≠ NULL then set_next m (get_prev m block) nf else m

/-- Split branch of `allocate`: `if(block->next != NULL) block->next->prev =
new_free_header`. -/
def split_relink_next (m : Mem) (block nf : Nat) : Mem :=
  if get_next m block ≠ NULL then set_prev m (get_next m block) nf else m

/-- Split branch of `allocate`: `new_free_header->next = block->next`. -/
def split_copy_next (m : Mem) (block nf : Nat) : Mem :=
  set_next m nf (get_next m block)

/-- Split branch of `allocate`: `new_free_header->prev = block->prev`. -/
def split_copy_prev (m : Mem) (block nf : Nat) : Mem :=
  set_prev m nf (get_prev m block)

/-- Split branch of `allocate`, last group of stores: footer of the new free
block. -/
def split_free_footer (m : Mem) (nf new_block_size : Nat) : Mem :=
  set_requested_size
    (set_id
      (set_block_size m (psub (padd nf new_block_size) WSIZE) new_block_size)
      (psub (padd nf new_block_size) WSIZE) FOOTER_MAGIC)
    (psub (padd nf new_block_size) WSIZE) 0

/-- The stores of the split branch of `allocate`, in program order;
`new_free_header` is `padd block asize` and `new_block_size` is
`psub bsize asize`. -/
def allocate_split_mem (s : State) (block asize reqSize bsize : Nat) : Mem :=
  split_free_footer
    (split_copy_prev
      (split_copy_next
        (split_relink_next
          (split_relink_prev
            (split_free_header (split_alloc_tags s.mem block asize reqSize)
              (padd block asize) (psub bsize asize))
            block (padd block asize))
          block (padd block asize))
        block (padd block asize))
      block (padd block asize))
    (padd block asize) (psub bsize asize)

/-- The split branch of `allocate`. -/
def allocate_split (s : State) (block asize reqSize bsize : Nat) : State :=
  { s with
    mem := allocate_split_mem s block asize reqSize bsize
    freelist_head := if block = s.freelist_head then padd block asize else s.freelist_head
    freelist_next := padd block asize }

/-- No-split branch of `allocate`: the header stores. -/
def nosplit_header (m : Mem) (block reqSize bsize : Nat) : Mem :=
  set_requested_size (set_block_size m block (bsize ||| 1)) block reqSize

/-- No-split branch of `allocate`: `if(block->prev != NULL) block->prev->next
= block->next`. -/
def nosplit_unlink_prev (m : Mem) (block : Nat) : Mem :=
  if get_prev m block ≠ NULL then set_next m (get_prev m block) (get_next m block) else m

/-- No-split branch of `allocate`: `if(block->next != NULL) block->next->prev
= block->prev`. -/
def nosplit_unlink_next (m : Mem) (block : Nat) : Mem :=
  if get_next m block ≠ NULL then set_prev m (get_next m block) (get_prev m block) else m

/-- No-split branch of `allocate`: the footer stores. -/
def nosplit_footer (m : Mem) (block reqSize bsize : Nat) : Mem :=
  set_requested_size
    (set_block_size m (psub (padd block bsize) WSIZE) (bsize ||| 1))
    (psub (padd block bsize) WSIZE) reqSize

/-- The stores of the no-split branch of `allocate` up to the unlinking of
the block from its list neighbours. -/
def allocate_nosplit_unlink (s : State) (block reqSize bsize : Nat) : Mem :=
  nosplit_unlink_next (nosplit_unlink_prev (nosplit_header s.mem block reqSize bsize) block) block

/-- The stores of the no-split branch of `allocate`, in program order. -/
def allocate_nosplit_mem (s : State) (block reqSize bsize : Nat) : Mem :=
  nosplit_footer (allocate_nosplit_unlink s block reqSize bsize) block reqSize bsize

/-- The value `freelist_head` takes in the no-split branch of `allocate`;
`m` is the memory after the unlinking. -/
def allocate_nosplit_head (s : State) (block : Nat) (m : Mem) : Nat :=
  if get_next m block = NULL ∧ block = s.freelist_head then NULL
  else if get_next m block ≠ NULL ∧ block = s.freelist_head then get_next m block
  else s.freelist_head

/-- The value `freelist_next` takes in the no-split branch of `allocate`. -/
def allocate_nosplit_next (s : State) (block : Nat) (m : Mem) : Nat :=
  if get_next m block = NULL then allocate_nosplit_head s block m else get_next m block

/-- The no-split branch of `allocate`. -/
def allocate_nosplit (s : State) (block reqSize bsize : Nat) : State :=
  { s with
    mem := allocate_nosplit_mem s block reqSize bsize
    freelist_head := allocate_nosplit_head s block (allocate_nosplit_unlink s block reqSize bsize)
    freelist_next := allocate_nosplit_next s block (allocate_nosplit_unlink s block reqSize bsize) }

/-- `allocate` of `helpers.c`: the state after the call and the returned
pointer (the block's header address). -/
def allocate (s : State) (bp asize reqSize : Nat) : State × Nat :=
  if psub (get_block_size s.mem bp) asize ≥ MIN_BLOCK_SIZE then
    (allocate_split s bp asize reqSize (get_block_size s.mem bp), bp)
  else (allocate_nosplit s bp reqSize (get_block_size s.mem bp), bp)

/-! ## `validate_address` -/

/-- `validate_address` of `helpers.c`: `0` when every check passes, `-1`
otherwise. -/
def validate_address (s : State) (ptr : Nat) : Int :=
  let epilogue := psub s.brk WSIZE
  let hdr := GET_HDR ptr
  let ftr := GET_FTR s.mem ptr
  if hdr ≥ epilogue ∨ ftr ≥ epilogue ∨ hdr ≤ s.prologue ∨ ftr ≤ s.prologue then -1
  else if get_id s.mem hdr ≠ HEADER_MAGIC ∨ get_id s.mem ftr ≠ FOOTER_MAGIC then -1
  else if get_block_size s.mem hdr ≠ get_block_size s.mem ftr then -1
  else if get_block_size s.mem hdr % 2 = 0 ∨ get_block_size s.mem ftr % 2 = 0 then -1
  else if get_requested_size s.mem hdr ≠ get_requested_size s.mem ftr then -1
  else 0

/-! ## `insertFreeList` and `coalesce` -/

/-- `((ics_footer*)GET_FTR(ptr))->block_size = v`: the footer is located
through the header as it reads at that moment. -/
def store_footer_size (m : Mem) (ptr v : Nat) : Mem := set_block_size m (GET_FTR m ptr) v

/-- `((ics_footer*)GET_FTR(ptr))->requested_size = v`. -/
def store_footer_req (m : Mem) (ptr v : Nat) : Mem := set_requested_size m (GET_FTR m ptr) v

/-- `dst->next = src->next`. -/
def take_next (m : Mem) (dst src : Nat) : Mem := set_next m dst (get_next m src)

/-- `dst->prev = src->prev`. -/
def take_prev (m : Mem) (dst src : Nat) : Mem := set_prev m dst (get_prev m src)

/-- `if(node->next != NULL) node->next->prev = tgt`. -/
def point_next_prev (m : Mem) (node tgt : Nat) : Mem :=
  if get_next m node ≠ NULL then set_prev m (get_next m node) tgt else m

/-- `if(node->prev != NULL) node->prev->next = tgt`. -/
def point_prev_next (m : Mem) (node tgt : Nat) : Mem :=
  if get_prev m node ≠ NULL then set_next m (get_prev m node) tgt else m

/-- The stores of `insertFreeList` into an empty list. -/
def insert_empty (m : Mem) (fh : Nat) : Mem := set_next (set_prev m fh NULL) fh NULL

/-- The stores of `insertFreeList` that splice `fh` in before `current`. -/
def insert_before (m : Mem) (fh current : Nat) : Mem :=
  set_prev (point_prev_next (set_next (take_prev m fh current) fh current) current fh) current fh

/-- The stores of `insertFreeList` that append `fh` after the tail
`current`. -/
def insert_after (m : Mem) (fh current : Nat) : Mem :=
  set_next (set_prev (set_next m current fh) fh current) fh NULL

/-- The `while(1)` loop of `insertFreeList` together with the code after it;
`none` when the budget runs out. -/
def insertFreeList_loop (s : State) (fh : Nat) : Nat → Nat → Option State
  | 0, _ => none
  | fuel + 1, current =>
    if fh < current then
      some { s with
        mem := insert_before s.mem fh current
        freelist_head := if current = s.freelist_head then fh else s.freelist_head }
    else if get_next s.mem current = NULL then
      some { s with mem := insert_after s.mem fh current }
    else insertFreeList_loop s fh fuel (get_next s.mem current)

/-- `insertFreeList` of `helpers.c`. -/
def insertFreeList (fuel : Nat) (s : State) (fh : Nat) : Option State :=
  if s.freelist_head = NULL then
    some { s with mem := insert_empty s.mem fh, freelist_head := fh, freelist_next := fh }
  else insertFreeList_loop s fh fuel s.freelist_head

/-- Case 4 of `coalesce`, the locals: `prev_free_block`. -/
def prev_free_block (m : Mem) (block : Nat) : Nat :=
  psub (GET_HDR block) (get_block_size m (psub (GET_HDR block) WSIZE))

/-- Cases 3 and 4 of `coalesce`, the locals: the right neighbour's header,
`GET_FTR(block) + WSIZE`. -/
def next_block (m : Mem) (block : Nat) : Nat := padd (GET_FTR m block) WSIZE

/-- Case 4 of `coalesce`, the merged size `size + prev_size + next_size`. -/
def case4_size (m : Mem) (block size : Nat) : Nat :=
  (size + (get_block_size m (psub (GET_HDR block) WSIZE)
    + get_block_size m (next_block m block)) % W64) % W64

/-- The stores of case 4 of `coalesce` on the memory `m` up to
`prev_free_block->next = next_free_block->next`; `pfb`, `nfb` and `size1` are
the locals computed on entry. -/
def case4_own (m : Mem) (pfb nfb size1 : Nat) : Mem :=
  take_next (store_footer_size (set_block_size m pfb size1) pfb size1) pfb nfb

/-- The stores of case 4 of `coalesce`: those of `case4_own` and then
`if(next_free_block->next != NULL) next_free_block->next->prev =
prev_free_block`. -/
def case4_stores (m : Mem) (pfb nfb size1 : Nat) : Mem :=
  point_next_prev (case4_own m pfb nfb size1) nfb pfb

/-- Case 4 of `coalesce`: both neighbours free. -/
def coalesce_case4 (s : State) (block size : Nat) : State :=
  { s with
    mem := case4_stores s.mem (prev_free_block s.mem block) (next_block s.mem block)
      (case4_size s.mem block size)
    freelist_next :=
      if s.freelist_next = next_block s.mem block then prev_free_block s.mem block
      else s.freelist_next }

/-- The stores of case 2 of `coalesce` on the memory `m`. -/
def case2_stores (m : Mem) (block pfb size1 : Nat) : Mem :=
  store_footer_size (set_block_size m pfb size1) block size1

/-- Case 2 of `coalesce`: left neighbour free, right neighbour allocated. -/
def coalesce_case2 (s : State) (block size : Nat) : State :=
  { s with
    mem := case2_stores s.mem block (prev_free_block s.mem block)
      ((size + get_block_size s.mem (psub (GET_HDR block) WSIZE)) % W64) }

/-- The stores of case 3 of `coalesce` on the memory `m` into the block
itself: merged size in header and footer, `next` and `prev` taken over from
the right neighbour `nb`. -/
def case3_own (m : Mem) (block nb size1 : Nat) : Mem :=
  take_prev
    (take_next (store_footer_size (set_block_size m (GET_HDR block) size1) block size1)
      (GET_HDR block) nb)
    (GET_HDR block) nb

/-- The stores of case 3 of `coalesce` on the memory `m`; `nb` is the right
neighbour's header and `size1` the merged size. -/
def case3_stores (m : Mem) (block nb size1 : Nat) : Mem :=
  point_prev_next (point_next_prev (case3_own m block nb size1) nb (GET_HDR block))
    nb (GET_HDR block)

/-- Case 3 of `coalesce`: left neighbour allocated, right neighbour free. -/
def coalesce_case3 (s : State) (block size : Nat) : State :=
  { s with
    mem := case3_stores s.mem block (next_block s.mem block)
      ((size + get_block_size s.mem (next_block s.mem block)) % W64)
    freelist_head :=
      if next_block s.mem block = s.freelist_head then GET_HDR block else s.freelist_head }

/-- `coalesce` of `helpers.c`; `block` is a payload pointer. -/
def coalesce (fuel : Nat) (s : State) (block : Nat) : Option State :=
  if get_block_size s.mem (psub (GET_HDR block) WSIZE) % 2 = 0 ∧
      get_block_size s.mem (next_block s.mem block) % 2 = 0 then
    some (coalesce_case4 s block (get_block_size s.mem (GET_HDR block)))
  else if get_block_size s.mem (psub (GET_HDR block) WSIZE) % 2 = 0 ∧
      get_block_size s.mem (next_block s.mem block) % 2 ≠ 0 then
    some (coalesce_case2 s block (get_block_size s.mem (GET_HDR block)))
  else if get_block_size s.mem (psub (GET_HDR block) WSIZE) % 2 ≠ 0 ∧
      get_block_size s.mem (next_block s.mem block) % 2 = 0 then
    some (coalesce_case3 s block (get_block_size s.mem (GET_HDR block)))
  else insertFreeList fuel s (GET_HDR block)

/-! ### Where the link stores of `coalesce` land

The stores of `coalesce` through list pointers read from memory
(`x->next = ...` at `x + 8`, `x->prev = ...` at `x + 16`) are the ones that
can reach a word the function does not own.  The predicates below say that
none of them contains the byte at `H`, the first byte of the header of the
block being coalesced. -/

/-- Modelled from the spec: `ics_inc_brk`, the provider's grow-by-one-page
primitive (its code is not part of the sources at hand).  On success the
boundary moves up by one page and the start of the new page is returned; on
failure nothing moves and the failure sentinel (`none`) is returned.  The
callers test the result with `*(int*)brk == -1`: on the sentinel the test is
taken to hold, on a granted page it reads the first four bytes of the page. -/
def ics_inc_brk (s : State) : State × Option Nat :=
  if s.provider s.calls then
    ({ s with brk := padd s.brk PAGE, calls := s.calls + 1 }, some s.brk)
  else ({ s with calls := s.calls + 1 }, none)

/-- Modelled from the spec: `ics_get_brk`, the provider's current boundary. -/
def ics_get_brk (s : State) : Nat := s.brk

/-- The stores of one round of `extend_heap` after a successful page
request that returned `brk`: new epilogue, footer and header of the
page-sized block. -/
def extend_heap_format (s : State) (brk : Nat) : State :=
  let epilogue := psub (ics_get_brk s) WSIZE
  let m1 := set_block_size s.mem epilogue 1
  let m2 := set_id m1 epilogue HEADER_MAGIC
  let m3 := set_requested_size m2 epilogue 1
  let new_footer := psub epilogue WSIZE
  let m4 := set_block_size m3 new_footer PAGE
  let m5 := set_id m4 new_footer FOOTER_MAGIC
  let m6 := set_requested_size m5 new_footer 0
  let new_free_header := psub brk WSIZE
  let m7 := set_block_size m6 new_free_header PAGE
  let m8 := set_id m7 new_free_header HEADER_MAGIC
  let m9 := set_requested_size m8 new_free_header 0
  { s with mem := m9 }

/-- End of a round of `extend_heap`: the search is tried again in the state
`s` reached after coalescing; `some fit` to return with, `none` to go round
again. -/
def extend_heap_retry (fuel : Nat) (asize : Nat) (s : State) : Option (State × Option Nat) :=
  (find_next_fit fuel s asize).bind fun fit =>
    if fit ≠ NULL then some (s, some fit) else some (s, none)

/-- A round of `extend_heap` after a successful page request that returned
`brk`: format the page as a free block, coalesce it, search again. -/
def extend_heap_grow (fuel : Nat) (asize : Nat) (s : State) (brk : Nat) :
    Option (State × Option Nat) :=
  (coalesce fuel (extend_heap_format s brk) (PAYLOAD (psub brk WSIZE))).bind fun s2 =>
    extend_heap_retry fuel asize s2

/-- One round of the `while(1)` loop of `extend_heap`: `none` when an inner
loop outruns `fuel`; otherwise the state after the round and either the
value the loop returns with (`some`) or `none` when the loop goes round
again. -/
def extend_heap_round (fuel : Nat) (asize : Nat) (s : State) : Option (State × Option Nat) :=
  match ics_inc_brk s with
  | (s1, none) => some (s1, some NULL)
  | (s1, some brk) =>
    if load32 s1.mem brk = 4294967295 then some (s1, some NULL)
    else extend_heap_grow fuel asize s1 brk

/-- The `while(1)` loop of `extend_heap`; `fuel` bounds the inner loops and
the first numeric argument the rounds of this loop. -/
def extend_heap_loop (fuel : Nat) (asize : Nat) : Nat → State → Option (State × Nat)
  | 0, _ => none
  | k + 1, s =>
    (extend_heap_round fuel asize s).bind fun r =>
      match r with
      | (s1, some v) => some (s1, v)
      | (s1, none) => extend_heap_loop fuel asize k s1

/-- `extend_heap` of `helpers.c`. -/
def extend_heap (fuel : Nat) (s : State) (asize : Nat) : Option (State × Nat) :=
  extend_heap_loop fuel asize fuel s

/-! ## `copy_payload` -/

/-- The `for` loop of `copy_payload`: `n` more bytes from `src` to `dst`,
lowest address first. -/
def copy_bytes (m : Mem) (src dst : Nat) : Nat → Mem
  | 0 => m
  | n + 1 => copy_bytes (store8 m dst (m src)) (padd src 1) (padd dst 1) n

/-- `copy_payload` of `helpers.c`. -/
def copy_payload (s : State) (ptr block bytes_to_copy : Nat) : State :=
  { s with mem := copy_bytes s.mem ptr (PAYLOAD block) bytes_to_copy }

/-! ## Public operations: `ics_malloc`, `ics_free`, `ics_realloc` -/

/-- The first-malloc setup of `ics_malloc` after the first page was obtained
at `start_addr`. -/
def first_malloc_setup (s : State) (start_addr : Nat) : State :=
  let m1 := set_block_size s.mem start_addr 1
  let m2 := set_id m1 start_addr FOOTER_MAGIC
  let m3 := set_requested_size m2 start_addr 1
  let end_addr := psub (ics_get_brk s) WSIZE
  let m4 := set_block_size m3 end_addr 1
  let m5 := set_id m4 end_addr HEADER_MAGIC
  let m6 := set_requested_size m5 end_addr 1
  let first_block_header := padd start_addr WSIZE
  let m7 := set_block_size m6 first_block_header (PAGE - DSIZE)
  let m8 := set_id m7 first_block_header HEADER_MAGIC
  let m9 := set_requested_size m8 first_block_header 0
  let m10 := set_next m9 first_block_header NULL
  let m11 := set_prev m10 first_block_header NULL
  let first_block_footer := psub end_addr WSIZE
  let m12 := set_block_size m11 first_block_footer (PAGE - DSIZE)
  let m13 := set_id m12 first_block_footer FOOTER_MAGIC
  let m14 := set_requested_size m13 first_block_footer 0
  { s with mem := m14, first_malloc := false, prologue := start_addr,
           freelist_head := first_block_header, freelist_next := first_block_header }

/-- The part of `ics_malloc` after the setup: adjust, search, grow, place. -/
def ics_malloc_place (fuel : Nat) (s : State) (size : Nat) : Option (State × Nat) :=
  (find_next_fit fuel s (adjust_size size)).bind fun block =>
    if block ≠ NULL then some ((allocate s block (adjust_size size) size).1, PAYLOAD block)
    else
      (extend_heap fuel s (adjust_size size)).bind fun r =>
        if r.2 = NULL then some ({ r.1 with errno := ENOMEM }, NULL)
        else some ((allocate r.1 r.2 (adjust_size size) size).1, PAYLOAD r.2)

/-- `ics_malloc` of `icsmm.c`: the state after the call and the returned
pointer; `none` when an inner loop outruns the budget. -/
def ics_malloc (fuel : Nat) (s : State) (size : Nat) : Option (State × Nat) :=
  if size = 0 then some ({ s with errno := EINVAL }, NULL)
  else if size > MAXHEAP_SIZE then some ({ s with errno := ENOMEM }, NULL)
  else if s.first_malloc then
    match ics_inc_brk s with
    | (s1, none) => some ({ s1 with errno := ENOMEM }, NULL)
    | (s1, some start_addr) =>
      if load32 s1.mem start_addr = 4294967295 then some ({ s1 with errno := ENOMEM }, NULL)
      else ics_malloc_place fuel (first_malloc_setup s1 start_addr) size
  else ics_malloc_place fuel s size

/-- The stores of `ics_free` that mark the block of `ptr` free. -/
def mark_free_mem (m : Mem) (ptr : Nat) : Mem :=
  store_footer_req
    (set_requested_size
      (store_footer_size
        (set_block_size m (GET_HDR ptr) (psub (get_block_size m (GET_HDR ptr)) 1))
        ptr (psub (get_block_size m (GET_HDR ptr)) 1))
      (GET_HDR ptr) 0)
    ptr 0

/-- The state after the stores of `ics_free` that mark the block of `ptr`
free and before the call of `coalesce`. -/
def mark_free (s : State) (ptr : Nat) : State := { s with mem := mark_free_mem s.mem ptr }

/-- `ics_free` of `icsmm.c`: the state after the call and the returned
`int`. -/
def ics_free (fuel : Nat) (s : State) (ptr : Nat) : Option (State × Int) :=
  if validate_address s ptr = -1 then some ({ s with errno := EINVAL }, -1)
  else (coalesce fuel (mark_free s ptr) ptr).bind fun s1 => some (s1, 0)

/-- The tail shared by both successful paths of `ics_realloc`: place, copy,
release the old block (the result of `ics_free` is not looked at). -/
def realloc_finish (fuel : Nat) (s : State) (ptr block asize size bytes_to_copy : Nat) :
    Option (State × Nat) :=
  (ics_free fuel (copy_payload (allocate s block asize size).1 ptr block bytes_to_copy) ptr).bind
    fun r => some (r.1, PAYLOAD block)

/-- The part of `ics_realloc` for a valid pointer and a non-zero size. -/
def ics_realloc_move (fuel : Nat) (s : State) (ptr size bytes_to_copy : Nat) :
    Option (State × Nat) :=
  (find_next_fit fuel s (adjust_size size)).bind fun block =>
    if block ≠ NULL then realloc_finish fuel s ptr block (adjust_size size) size bytes_to_copy
    else
      (extend_heap fuel s (adjust_size size)).bind fun r =>
        if r.2 = NULL then some ({ r.1 with errno := ENOMEM }, NULL)
        else realloc_finish fuel r.1 ptr r.2 (adjust_size size) size bytes_to_copy

/-- `ics_realloc` of `icsmm.c`. -/
def ics_realloc (fuel : Nat) (s : State) (ptr size : Nat) : Option (State × Nat) :=
  if validate_address s ptr = -1 then some ({ s with errno := EINVAL }, NULL)
  else if size = 0 then (ics_free fuel s ptr).bind fun r => some (r.1, NULL)
  else
    ics_realloc_move fuel s ptr size
      (if get_requested_size s.mem (GET_HDR ptr) > size then size
       else get_requested_size s.mem (GET_HDR ptr))

/-- The allocator before the first call: no page obtained, empty free list.
`base` is the address the provider hands out first, `m` the initial memory
contents and `prov` the provider's behaviour. -/
def init (m : Mem) (base : Nat) (prov : Nat → Bool) : State :=
  { mem := m, brk := base, provider := prov, calls := 0, first_malloc := true,
    prologue := 0, freelist_head := NULL, freelist_next := NULL, errno := 0 }

/-! ## Fixed scenarios used as concrete inputs -/

/-- The uninitialised allocator over zeroed memory whose provider hands out
pages from address `65536` on and never fails. -/
def fresh : State := init (fun _ => 0) 65536 (fun _ => true)

/-- The uninitialised allocator over zeroed memory whose provider grants
exactly one page (at address `65536`) and fails afterwards. -/
def fresh_one_page : State := init (fun _ => 0) 65536 (fun k => decide (k = 0))

/-- The uninitialised allocator over zeroed memory whose provider always
fails. -/
def fresh_no_page : State := init (fun _ => 0) 65536 (fun _ => false)

/-- State component of an operation's outcome (the argument state when the
budget ran out). -/
def state_of {α : Type} (d : State) : Option (State × α) → State
  | some (s, _) => s
  | none => d

/-- Returned pointer of an operation's outcome (`NULL` when the budget ran
out). -/
def ptr_of : Option (State × Nat) → Nat
  | some (_, p) => p
  | none => NULL

/-! ### The stale-cursor scenario

`ics_malloc(10)` on the fresh heap, then `ics_free` of the result (case 3 of
`coalesce`: the freed block absorbs the free remainder to its right). -/

/-- Outcome of `ics_malloc(10)` on the fresh heap. -/
def sc1 : Option (State × Nat) := ics_malloc 100 fresh 10

/-- Outcome of `ics_free` of the pointer of `sc1`. -/
def sc2 : Option (State × Int) := ics_free 100 (state_of fresh sc1) (ptr_of sc1)

/-- State after `ics_malloc(10)`, `ics_free`. -/
def after_free : State := state_of fresh sc2

/-- Outcome of a second `ics_malloc(10)` after `sc2`. -/
def sc3 : Option (State × Nat) := ics_malloc 100 after_free 10

/-- State after `ics_malloc(10)`, `ics_free`, `ics_malloc(10)`. -/
def after_second : State := state_of after_free sc3

/-- Outcome of `ics_malloc(4048)` after `sc3`. -/
def sc4 : Option (State × Nat) := ics_malloc 100 after_second 4048

/-- Outcome of `ics_malloc(4000)` after `sc3`. -/
def sc4b : Option (State × Nat) := ics_malloc 100 after_second 4000

/-- Outcome of `ics_realloc(65584, 20)` after `sc4b`. -/
def sc5r : Option (State × Nat) := ics_realloc 100 (state_of fresh sc4b) 65584 20

/-- The first `n` bytes at address `a`. -/
def bytes_at (m : Mem) (a n : Nat) : List Nat :=
  (List.range n).map (fun i => m (a + i) % 256)

/-- Outcome of `ics_malloc(48)` after `sc4b`. -/
def sc5b : Option (State × Nat) := ics_malloc 100 (state_of fresh sc4b) 48

/-! ### A sequence that ends with a misaligned pointer -/

/-- Outcome of `ics_malloc(4048)` on the fresh heap. -/
def al1 : Option (State × Nat) := ics_malloc 100 fresh 4048

/-- Outcome of `ics_malloc(40)` after `al1`. -/
def al2 : Option (State × Nat) := ics_malloc 100 (state_of fresh al1) 40

/-- Outcome of `ics_free(69632)` after `al2`. -/
def al3 : Option (State × Int) := ics_free 100 (state_of fresh al2) 69632

/-- Outcome of `ics_malloc(20)` after `al3`. -/
def al4 : Option (State × Nat) := ics_malloc 100 (state_of fresh al3) 20

/-- Outcome of `ics_malloc(3900)` after `al4`. -/
def al5 : Option (State × Nat) := ics_malloc 100 (state_of fresh al4) 3900

/-- Outcome of `ics_realloc(69744, 40)` after `al5`. -/
def al6 : Option (State × Nat) := ics_realloc 100 (state_of fresh al5) 69744 40

/-- Outcome of `ics_realloc(69696, 4000)` after `al6`. -/
def al7 : Option (State × Nat) := ics_realloc 100 (state_of fresh al6) 69696 4000

/-- Outcome of `ics_free(65552)` after `al7`. -/
def al8 : Option (State × Int) := ics_free 100 (state_of fresh al7) 65552

/-- Outcome of `ics_malloc(4016)` after `al8`. -/
def al9 : Option (State × Nat) := ics_malloc 100 (state_of fresh al8) 4016

/-! ### Three neighbours released in the order B, C, A -/

/-- Outcome of `A = ics_malloc(10)` on the fresh heap. -/
def tb1 : Option (State × Nat) := ics_malloc 100 fresh 10

/-- Outcome of `B = ics_malloc(10)` after `tb1`. -/
def tb2 : Option (State × Nat) := ics_malloc 100 (state_of fresh tb1) 10

/-- Outcome of `C = ics_malloc(10)` after `tb2`. -/
def tb3 : Option (State × Nat) := ics_malloc 100 (state_of fresh tb2) 10

/-- Outcome of `ics_free(B)` after `tb3`. -/
def tb4 : Option (State × Int) := ics_free 100 (state_of fresh tb3) (ptr_of tb2)

/-- Outcome of `ics_free(C)` after `tb4`. -/
def tb5 : Option (State × Int) := ics_free 100 (state_of fresh tb4) (ptr_of tb3)

/-- Outcome of `ics_free(A)` after `tb5`. -/
def tb6 : Option (State × Int) := ics_free 100 (state_of fresh tb5) (ptr_of tb1)

/-! ### A block released between two free neighbours -/

/-- Outcome of `D = ics_malloc(10)` after `tb3`. -/
def fn4 : Option (State × Nat) := ics_malloc 100 (state_of fresh tb3) 10

/-- Outcome of `ics_free(A)` after `fn4`. -/
def fn5 : Option (State × Int) := ics_free 100 (state_of fresh fn4) (ptr_of tb1)

/-- Outcome of `ics_free(C)` after `fn5`. -/
def fn6 : Option (State × Int) := ics_free 100 (state_of fresh fn5) (ptr_of tb3)

/-- Outcome of `ics_free(B)` after `fn6`. -/
def fn7 : Option (State × Int) := ics_free 100 (state_of fresh fn6) (ptr_of tb2)

/-! ### Two free neighbours left side by side -/

/-- Outcome of `ics_free(B)` after `tb2`. -/
def ad3 : Option (State × Int) := ics_free 100 (state_of fresh tb2) (ptr_of tb2)

/-- Outcome of `ics_malloc(4000)` after `ad3`. -/
def ad4 : Option (State × Nat) := ics_malloc 100 (state_of fresh ad3) 4000

/-- Outcome of `ics_malloc(4048)` after `ad4`. -/
def ad5 : Option (State × Nat) := ics_malloc 100 (state_of fresh ad4) 4048

/-- Outcome of `ics_free` of the pointer of `ad5`. -/
def ad6 : Option (State × Int) := ics_free 100 (state_of fresh ad5) (ptr_of ad5)

/-! ## Well-formed free lists -/

/-- The free list as a finite null-terminated doubly linked chain: `is_chain m p l`
holds when the nodes of `l` are non-null, the `prev` field of the first is `p`, the
`prev` field of every other node is its predecessor in `l`, the `next` field of
every node is its successor in `l`, and the `next` field of the last is null. -/
def is_chain (m : Mem) : Nat → List Nat → Prop
  | _, [] => True
  | p, a :: l =>
    a ≠ NULL ∧ get_prev m a = p ∧ get_next m a = l.headD NULL ∧ is_chain m a l

instance is_chain_decidable (m : Mem) : ∀ (p : Nat) (l : List Nat), Decidable (is_chain m p l)
  | _, [] => isTrue trivial
  | p, a :: l =>
    have := is_chain_decidable m a l
    inferInstanceAs
      (Decidable (a ≠ NULL ∧ get_prev m a = p ∧ get_next m a = l.headD NULL ∧ is_chain m a l))

/-- The list `l` is the free list of the state `s`: `freelist_head` is its first
node (null when `l` is empty) and the links form a chain. -/
def free_list (s : State) (l : List Nat) : Prop :=
  s.freelist_head = l.headD NULL ∧ is_chain s.mem NULL l

instance free_list_decidable (s : State) (l : List Nat) : Decidable (free_list s l) :=
  inferInstanceAs (Decidable (s.freelist_head = l.headD NULL ∧ is_chain s.mem NULL l))

/-- A stretch of a doubly linked list: the nodes of `l` are non-null, the `prev`
field of the first is `p`, consecutive nodes point at each other, and the `next`
field of the last is `q`. -/
def is_segment (m : Mem) : Nat → List Nat → Nat → Prop
  | _, [], _ => True
  | p, a :: l, q =>
    a ≠ NULL ∧ get_prev m a = p ∧ get_next m a = l.headD q ∧ is_segment m a l q

/-- The heap at the point where the first `ics_malloc` places its block: one page
at `65536` with prologue, one free block of 4080 bytes at `65544` and epilogue. -/
def fresh_setup : State := first_malloc_setup (ics_inc_brk fresh).1 65536

/-- What `extend_heap` relies on in a well-formed heap: the free list `l` is an
ascending chain from `freelist_head` with nodes at least 32 bytes apart, all below
the epilogue at `brk - 8` and with the allocation flag clear; the search cursor is
a member, or null when the list is empty; and the last block before the epilogue
is either allocated (`r = 0`, flag set in its footer at `brk - 16`) or a free block
of size `r` (by its footer) whose header `brk - 8 - r` is the last node of the
list. -/
def grow_ready (s : State) (l : List Nat) (r : Nat) : Prop :=
  free_list s l ∧ l.Pairwise (fun a b => a + 32 ≤ b) ∧
  ((l = [] ∧ s.freelist_next = NULL) ∨ s.freelist_next ∈ l) ∧
  (∀ x ∈ l, x + 40 ≤ s.brk ∧ get_block_size s.mem x % 2 = 0) ∧
  16 ≤ s.brk ∧
  ((r = 0 ∧ get_block_size s.mem (s.brk - 16) % 2 = 1) ∨
    (32 ≤ r ∧ r % 8 = 0 ∧ r + 8 ≤ s.brk ∧ get_block_size s.mem (s.brk - 16) = r ∧
      l.getLast? = some (s.brk - 8 - r)))

instance grow_ready_decidable (s : State) (l : List Nat) (r : Nat) :
    Decidable (grow_ready s l r) :=
  inferInstanceAs (Decidable (free_list s l ∧ l.Pairwise (fun a b => a + 32 ≤ b) ∧
    ((l = [] ∧ s.freelist_next = NULL) ∨ s.freelist_next ∈ l) ∧
    (∀ x ∈ l, x + 40 ≤ s.brk ∧ get_block_size s.mem x % 2 = 0) ∧
    16 ≤ s.brk ∧
    ((r = 0 ∧ get_block_size s.mem (s.brk - 16) % 2 = 1) ∨
      (32 ≤ r ∧ r % 8 = 0 ∧ r + 8 ≤ s.brk ∧ get_block_size s.mem (s.brk - 16) = r ∧
        l.getLast? = some (s.brk - 8 - r)))))

/-- Memory that is zero except for the first four bytes of the page at 69632,
which are `FF`. -/
def marked_page : Mem := store64 (fun _ => 0) 69632 4294967295

/-- The uninitialised allocator over `marked_page` with a provider that never
fails: the first page it hands out (at 65536) is zero, the second starts with
four bytes `FF`. -/
def fresh_marked : State := init marked_page 65536 (fun _ => true)

/-- The heap that the first `ics_malloc(10)` builds over `marked_page`. -/
def marked_heap : State := state_of fresh_marked (ics_malloc 3 fresh_marked 10)

end Icsmm

/-! # Theorems -/

namespace Icsmm

/-! ## Out-of-range request sizes -/

/-- C5: `ics_malloc(0)` returns `NULL` with `EINVAL` and `ics_malloc(size)`
with `size > 20448` returns `NULL` with `ENOMEM`; in both cases the only
component of the state that differs afterwards is `errno`: the provider was
not called, the boundary, the first-malloc flag, every heap byte,
`freelist_head` and `freelist_next` are what they were. -/
theorem ics_malloc_out_of_range (fuel : Nat) (s : State) :
    ics_malloc fuel s 0 = some ({ s with errno := EINVAL }, NULL) ∧
    ∀ size, size > 20448 → ics_malloc fuel s size = some ({ s with errno := ENOMEM }, NULL) := by
  refine ⟨by simp [ics_malloc], ?_⟩
  intro size h
  have h0 : size ≠ 0 := by omega
  simp [ics_malloc, h0, MAXHEAP_SIZE, h]

/-- Witness for C5 on the uninitialised allocator: size `0` and size `20449`
are both refused and the allocator stays uninitialised with an untouched
provider. -/
theorem ics_malloc_out_of_range_witness :
    20449 > 20448 ∧
    ics_malloc 7 fresh 20449 = some ({ fresh with errno := ENOMEM }, NULL) ∧
    ({ fresh with errno := ENOMEM } : State).first_malloc = true ∧
    ({ fresh with errno := ENOMEM } : State).calls = 0 :=
  ⟨by decide, (ics_malloc_out_of_range 7 fresh).2 20449 (by decide), rfl, rfl⟩

/-! ## Invalid pointers -/

/-- C4: when `validate_address` returns `-1` on `ptr`, `ics_free(ptr)`
returns `-1` and `ics_realloc(ptr, size)` returns `NULL` for every `size`,
both with `errno = EINVAL`, and nothing else of the state changes: every heap
byte, `freelist_head` and `freelist_next` are what they were. -/
theorem invalid_pointer_rejected (fuel : Nat) (s : State) (ptr : Nat)
    (h : validate_address s ptr = -1) :
    ics_free fuel s ptr = some ({ s with errno := EINVAL }, -1) ∧
    ∀ size, ics_realloc fuel s ptr size = some ({ s with errno := EINVAL }, NULL) := by
  refine ⟨by simp [ics_free, h], ?_⟩
  intro size
  simp [ics_realloc, h]

/-- Witness for C4: on the uninitialised allocator the null pointer fails
validation, so `ics_free(NULL)` and `ics_realloc(NULL, 0)` are refused with
nothing but `errno` changed. -/
theorem invalid_pointer_rejected_witness :
    validate_address fresh 0 = -1 ∧
    ics_free 5 fresh 0 = some ({ fresh with errno := EINVAL }, -1) ∧
    ics_realloc 5 fresh 0 0 = some ({ fresh with errno := EINVAL }, NULL) :=
  ⟨by decide, (invalid_pointer_rejected 5 fresh 0 (by decide)).1,
    (invalid_pointer_rejected 5 fresh 0 (by decide)).2 0⟩

/-! ## The search cursor after coalescing case 3 -/

/-- After `ics_malloc(10)` and `ics_free` of its result the free list is the
single block at `65544` of size `4080` with no successor, while the search
cursor `freelist_next` still designates `65576`, the header of the absorbed
right neighbour, whose stale header reads `4048` and whose `next` is null. -/
theorem after_free_shape :
    ptr_of sc1 = 65552 ∧ sc2.map Prod.snd = some 0 ∧
    after_free.freelist_head = 65544 ∧ after_free.freelist_next = 65576 ∧
    get_block_size after_free.mem 65544 = 4080 ∧ get_next after_free.mem 65544 = 0 ∧
    get_block_size after_free.mem 65576 = 4048 ∧ get_next after_free.mem 65576 = 0 := by
  decide

/-- The walk of `find_next_fit(5024)` in the state `after_free`, once at the
list head, never leaves it: no budget lets the loop return. -/
theorem find_loop_at_head_diverges (fuel : Nat) :
    find_next_fit_loop after_free 5024 fuel 65544 = none := by
  obtain ⟨_, _, hh, hn, hb, hx, _, _⟩ := after_free_shape
  induction fuel with
  | zero => rfl
  | succ n ih =>
    rw [find_next_fit_loop]
    simp only [hb, hx, hh, hn, NULL]
    simpa using ih

/-- C8, evaluated on the candidate sequence: after `ics_malloc(10)` and
`ics_free` of its result (which returns `0`), `ics_malloc(5000)` does not
return for any iteration budget of its loops: the walk of `find_next_fit`
starts at the stale cursor, wraps to the list head and then cycles on the
head without ever meeting the cursor again. -/
theorem ics_malloc_5000_never_returns (fuel : Nat) :
    ics_malloc fuel after_free 5000 = none := by
  obtain ⟨_, _, hh, hn, _, _, hb, hx⟩ := after_free_shape
  have hfm : after_free.first_malloc = false := by decide
  have ha : adjust_size 5000 = 5024 := by decide
  have hfind : find_next_fit fuel after_free 5024 = none := by
    unfold find_next_fit
    rw [hn]
    cases fuel with
    | zero => rfl
    | succ n =>
      simp only [NULL, find_next_fit_loop, hb, hx, hh, hn]
      simpa using find_loop_at_head_diverges n
  simp [ics_malloc, MAXHEAP_SIZE, hfm, ics_malloc_place, ha, hfind]

/-! ## Overlapping live allocations -/

set_option maxRecDepth 100000 in
/-- C1, evaluated on a failing sequence: on the fresh heap `ics_malloc(10)`,
`ics_free` of its result, `ics_malloc(10)` (returning `65584`) and
`ics_malloc(4048)` (returning `65552`) all succeed.  After the third call the
block at the free-list head (header `65544`, size `4080`, flag clear) contains
the live block of `65584` (header `65576`, size `32`).  After the fourth call
both pointers are accepted by `validate_address` and the block of `65552`
(header `65544`, size `4080`) contains the block of `65584`. -/
theorem live_blocks_overlap :
    ptr_of sc3 = 65584 ∧ ptr_of sc4 = 65552 ∧
    after_second.freelist_head = 65544 ∧
    get_block_size after_second.mem 65544 = 4080 ∧
    get_block_size after_second.mem 65576 = 33 ∧
    validate_address after_second 65584 = 0 ∧
    validate_address (state_of fresh sc4) 65584 = 0 ∧
    validate_address (state_of fresh sc4) 65552 = 0 ∧
    get_block_size (state_of fresh sc4).mem (GET_HDR 65584) = 33 ∧
    get_block_size (state_of fresh sc4).mem (GET_HDR 65552) = 4081 ∧
    GET_HDR 65552 ≤ GET_HDR 65584 ∧ GET_HDR 65584 + 32 ≤ GET_HDR 65552 + 4080 := by
  decide

/-! ## A live pointer that the validator refuses -/

set_option maxRecDepth 100000 in
/-- C2, evaluated on a failing sequence: on the fresh heap `ics_malloc(10)`,
`ics_free` of its result, `ics_malloc(10)` (returning `65584`, accepted by
`validate_address` right away), `ics_malloc(4000)` (returning `65616`) and
`ics_malloc(48)` (returning `65552`) all succeed.  The last call carves a
64-byte block at `65544` out of the free-list head and writes its footer over
the footer of the live block of `65584`, which was never released:
`validate_address(65584)` now returns `-1` and `ics_free(65584)` fails with
`EINVAL`. -/
theorem live_pointer_refused :
    ptr_of sc3 = 65584 ∧ validate_address after_second 65584 = 0 ∧
    ptr_of sc4b = 65616 ∧ validate_address (state_of fresh sc4b) 65584 = 0 ∧
    ptr_of sc5b = 65552 ∧ validate_address (state_of fresh sc5b) 65584 = -1 ∧
    (ics_free 100 (state_of fresh sc5b) 65584).map (fun r => (r.1.errno, r.2))
      = some (EINVAL, -1) := by
  decide

/-! ## Payload bytes across `ics_realloc` -/

set_option maxRecDepth 100000 in
/-- C7, evaluated on a failing sequence: on the fresh heap `ics_malloc(10)`,
`ics_free` of its result, `ics_malloc(10)` (returning `p = 65584`) and
`ics_malloc(4000)` succeed; `p` is live, accepted by `validate_address`, and
its header records requested size `10`.  `ics_realloc(p, 20)` then returns
`q = 65552`, but the first `min(10, 20) = 10` bytes at `q` after the call
differ from the ten bytes that were at `p` before the call: the new block was
carved out of the free-list head block that overlaps `p`, and its footer was
written into the payload of `p` before the copy. -/
theorem realloc_loses_payload :
    validate_address (state_of fresh sc4b) 65584 = 0 ∧
    get_requested_size (state_of fresh sc4b).mem (GET_HDR 65584) = 10 ∧
    ptr_of sc5r = 65552 ∧
    bytes_at (state_of fresh sc4b).mem 65584 10 = [0, 0, 0, 0, 0, 0, 0, 0, 0, 0] ∧
    bytes_at (state_of fresh sc5r).mem 65552 10 = [49, 0, 171, 29, 1, 10, 20, 0, 192, 15] := by
  decide

/-! ## Failed allocations -/

/-- The split branch of `allocate` leaves `errno` alone. -/
theorem allocate_split_errno (s : State) (bp asize reqSize b : Nat) :
    (allocate_split s bp asize reqSize b).errno = s.errno := by
  cases s; rfl

/-- The no-split branch of `allocate` leaves `errno` alone. -/
theorem allocate_nosplit_errno (s : State) (bp reqSize b : Nat) :
    (allocate_nosplit s bp reqSize b).errno = s.errno := by
  cases s; rfl

/-- `allocate` leaves `errno` alone. -/
theorem allocate_errno (s : State) (bp asize reqSize : Nat) :
    (allocate s bp asize reqSize).1.errno = s.errno := by
  unfold allocate
  by_cases h : psub (get_block_size s.mem bp) asize ≥ MIN_BLOCK_SIZE
  · rw [if_pos h]; exact allocate_split_errno _ _ _ _ _
  · rw [if_neg h]; exact allocate_nosplit_errno _ _ _ _

/-- With a provider whose next call fails, `extend_heap` returns `NULL`
after that one call whenever it returns at all. -/
theorem extend_heap_provider_fails (fuel : Nat) (s : State) (asize : Nat)
    (hp : s.provider s.calls = false) (r : State × Nat)
    (h : extend_heap fuel s asize = some r) :
    r = ({ s with calls := s.calls + 1 }, NULL) := by
  unfold extend_heap at h
  cases fuel with
  | zero => simp [extend_heap_loop] at h
  | succ n =>
    have hr : extend_heap_round (n + 1) asize s
        = some ({ s with calls := s.calls + 1 }, some NULL) := by
      simp [extend_heap_round, ics_inc_brk, hp]
    rw [extend_heap_loop, hr] at h
    simp only [Option.some_bind, Option.some.injEq] at h
    exact h.symm

set_option maxRecDepth 100000 in
/-- C6 fails as stated: with a provider that grants one page and then fails,
`ics_malloc(5000)` on the uninitialised allocator returns `NULL` with
`ENOMEM`, yet the boundary has moved up by a page, the allocator is
initialised and the free list holds the first page's block. -/
theorem failed_malloc_changes_state :
    (ics_malloc 100 fresh_one_page 5000).map (fun r => (r.2, r.1.errno)) = some (NULL, ENOMEM) ∧
    fresh_one_page.brk = 65536 ∧ fresh_one_page.first_malloc = true ∧
    fresh_one_page.freelist_head = NULL ∧
    (state_of fresh (ics_malloc 100 fresh_one_page 5000)).brk = 69632 ∧
    (state_of fresh (ics_malloc 100 fresh_one_page 5000)).first_malloc = false ∧
    (state_of fresh (ics_malloc 100 fresh_one_page 5000)).freelist_head = 65544 ∧
    get_block_size (state_of fresh (ics_malloc 100 fresh_one_page 5000)).mem 65544 = 4080 ∧
    get_block_size fresh_one_page.mem 65544 = 0 := by
  decide

/-- C6 as amended: if `ics_malloc(size)` returns `NULL` with `errno` at
`ENOMEM`, and no page request of the call can have succeeded (the provider's
next request fails, or the size exceeds the cap so that the provider is not
asked), and the free-list search does not yield a block whose payload pointer
wraps round to `NULL`, then the heap boundary, every heap byte, the
first-malloc flag, `freelist_head` and `freelist_next` are what they were
before the call. -/
theorem failed_malloc_unchanged (fuel : Nat) (s s1 : State) (size : Nat)
    (hp : s.provider s.calls = false ∨ size > MAXHEAP_SIZE)
    (hnw : (find_next_fit fuel s (adjust_size size)).map PAYLOAD ≠ some NULL)
    (h : ics_malloc fuel s size = some (s1, NULL))
    (_he : s1.errno = ENOMEM) :
    s1.brk = s.brk ∧ s1.mem = s.mem ∧ s1.first_malloc = s.first_malloc ∧
    s1.freelist_head = s.freelist_head ∧ s1.freelist_next = s.freelist_next := by
  unfold ics_malloc at h
  by_cases hs0 : size = 0
  · rw [if_pos hs0] at h
    simp only [Option.some.injEq, Prod.mk.injEq] at h
    rw [← h.1]; exact ⟨rfl, rfl, rfl, rfl, rfl⟩
  rw [if_neg hs0] at h
  by_cases hmax : size > MAXHEAP_SIZE
  · rw [if_pos hmax] at h
    simp only [Option.some.injEq, Prod.mk.injEq] at h
    rw [← h.1]; exact ⟨rfl, rfl, rfl, rfl, rfl⟩
  rw [if_neg hmax] at h
  have hp1 : s.provider s.calls = false := hp.resolve_right hmax
  have hinc : ics_inc_brk s = ({ s with calls := s.calls + 1 }, none) := by
    simp [ics_inc_brk, hp1]
  by_cases hfm : s.first_malloc = true
  · rw [if_pos hfm, hinc] at h
    simp only [Option.some.injEq, Prod.mk.injEq] at h
    rw [← h.1]; exact ⟨rfl, rfl, rfl, rfl, rfl⟩
  · rw [if_neg hfm] at h
    unfold ics_malloc_place at h
    obtain ⟨block, hfind, h⟩ := Option.bind_eq_some.mp h
    by_cases hb : block ≠ NULL
    · rw [if_pos hb] at h
      simp only [Option.some.injEq, Prod.mk.injEq] at h
      rw [hfind, Option.map_some', h.2] at hnw
      exact absurd rfl hnw
    · rw [if_neg hb] at h
      obtain ⟨r, hx, h⟩ := Option.bind_eq_some.mp h
      have hr := extend_heap_provider_fails fuel s (adjust_size size) hp1 r hx
      subst hr
      simp only [if_true, Option.some.injEq, Prod.mk.injEq] at h
      rw [← h.1]; exact ⟨rfl, rfl, rfl, rfl, rfl⟩

/-- Witness for C6 as amended: with a provider that always fails, the second
of two failing calls: `ics_malloc(10)` on the uninitialised allocator that
already holds `ENOMEM` from a first failed call returns `NULL` with `ENOMEM`
and leaves boundary, memory, flag and free-list variables in place. -/
theorem failed_malloc_unchanged_witness :
    (fresh_no_page.provider 1 = false ∨ 10 > MAXHEAP_SIZE) ∧
    ics_malloc 3 { fresh_no_page with calls := 1, errno := ENOMEM } 10
      = some ({ fresh_no_page with calls := 2, errno := ENOMEM }, NULL) ∧
    ({ fresh_no_page with calls := 2, errno := ENOMEM } : State).brk = fresh_no_page.brk ∧
    ({ fresh_no_page with calls := 2, errno := ENOMEM } : State).mem = fresh_no_page.mem ∧
    ({ fresh_no_page with calls := 2, errno := ENOMEM } : State).first_malloc = true :=
  have H := failed_malloc_unchanged 3 { fresh_no_page with calls := 1, errno := ENOMEM }
    { fresh_no_page with calls := 2, errno := ENOMEM } 10 (Or.inl rfl) (by decide) rfl rfl
  ⟨Or.inl rfl, rfl, H.1, H.2.1, H.2.2.1⟩

/-! ## Memory lemmas -/

theorem store64_apply_of_disjoint (m : Mem) (a v x : Nat) (h : x < a ∨ a + 8 ≤ x) :
    store64 m a v x = m x := by
  unfold store64
  rw [if_neg]
  omega

theorem load64_store64_of_disjoint (m : Mem) (a v x : Nat) (h : x + 8 ≤ a ∨ a + 8 ≤ x) :
    load64 (store64 m a v) x = load64 m x := by
  unfold load64
  rw [store64_apply_of_disjoint m a v x (by omega), store64_apply_of_disjoint m a v (x + 1) (by omega),
    store64_apply_of_disjoint m a v (x + 2) (by omega), store64_apply_of_disjoint m a v (x + 3) (by omega),
    store64_apply_of_disjoint m a v (x + 4) (by omega), store64_apply_of_disjoint m a v (x + 5) (by omega),
    store64_apply_of_disjoint m a v (x + 6) (by omega), store64_apply_of_disjoint m a v (x + 7) (by omega)]

theorem load64_store64_same (m : Mem) (a v : Nat) :
    load64 (store64 m a v) a = v % W64 := by
  unfold load64 store64 W64
  simp
  omega

theorem load64_lt (m : Mem) (a : Nat) : load64 m a < W64 := by
  unfold load64 W64
  omega

/-- The three bit-field assignments and the two link assignments are 64-bit
stores at one word: none changes a word disjoint from it. -/
theorem load64_set_block_size_of_disjoint (m : Mem) (a v x : Nat) (h : x + 8 ≤ a ∨ a + 8 ≤ x) :
    load64 (set_block_size m a v) x = load64 m x :=
  load64_store64_of_disjoint m a _ x h

theorem load64_set_id_of_disjoint (m : Mem) (a v x : Nat) (h : x + 8 ≤ a ∨ a + 8 ≤ x) :
    load64 (set_id m a v) x = load64 m x :=
  load64_store64_of_disjoint m a _ x h

theorem load64_set_requested_size_of_disjoint (m : Mem) (a v x : Nat)
    (h : x + 8 ≤ a ∨ a + 8 ≤ x) :
    load64 (set_requested_size m a v) x = load64 m x :=
  load64_store64_of_disjoint m a _ x h

theorem load64_set_next_of_disjoint (m : Mem) (a v x : Nat) (h : x + 8 ≤ a + 8 ∨ a + 16 ≤ x) :
    load64 (set_next m a v) x = load64 m x :=
  load64_store64_of_disjoint m (a + 8) _ x (by omega)

theorem load64_set_prev_of_disjoint (m : Mem) (a v x : Nat) (h : x + 8 ≤ a + 16 ∨ a + 24 ≤ x) :
    load64 (set_prev m a v) x = load64 m x :=
  load64_store64_of_disjoint m (a + 16) _ x (by omega)

theorem get_block_size_set_block_size (m : Mem) (a v : Nat) :
    get_block_size (set_block_size m a v) a = v % 65536 := by
  unfold get_block_size set_block_size
  rw [load64_store64_same]
  have := load64_lt m a
  unfold W64 at *
  omega

theorem get_block_size_set_id (m : Mem) (a v : Nat) :
    get_block_size (set_id m a v) a = get_block_size m a := by
  unfold get_block_size set_id
  rw [load64_store64_same]
  have := load64_lt m a
  unfold W64 at *
  omega

theorem get_block_size_set_requested_size (m : Mem) (a v : Nat) :
    get_block_size (set_requested_size m a v) a = get_block_size m a := by
  unfold get_block_size set_requested_size
  rw [load64_store64_same]
  have := load64_lt m a
  unfold W64 at *
  omega

/-! ## Pointer arithmetic without wrap-around -/

theorem padd_eq (a b : Nat) (h : a + b < W64) : padd a b = a + b := by
  unfold padd
  exact Nat.mod_eq_of_lt h

theorem psub_eq (a b : Nat) (hb : b ≤ a) (ha : a < W64) : psub a b = a - b := by
  unfold psub
  unfold W64 at *
  omega

/-! ## What the search returns -/

theorem lor_one_eq (n : Nat) : n ||| 1 = 2 * (n / 2) + 1 := by
  have h1 : (n ||| 1) % 2 = 1 := Nat.or_mod_two_eq_one.mpr (Or.inr rfl)
  have h2 : (n ||| 1) / 2 = n / 2 := by
    rw [Nat.or_div_two]
    simp
  omega

/-- The memory after the split branch of `allocate`. -/
theorem allocate_split_mem_eq (s : State) (bp asize reqSize b : Nat) :
    (allocate_split s bp asize reqSize b).mem = allocate_split_mem s bp asize reqSize b := by
  simp only [allocate_split]

/-- The memory after the no-split branch of `allocate`. -/
theorem allocate_nosplit_mem_eq (s : State) (bp reqSize b : Nat) :
    (allocate_nosplit s bp reqSize b).mem = allocate_nosplit_mem s bp reqSize b := by
  simp only [allocate_nosplit]

/-- Range and rounding of `adjust_size` on the sizes `ics_malloc` lets
through. -/
theorem adjust_size_bounds (S : Nat) (h2 : S ≤ 20448) :
    adjust_size S % 16 = 0 ∧ 32 ≤ adjust_size S ∧ adjust_size S ≤ 20464 ∧
      S + 16 ≤ adjust_size S := by
  unfold adjust_size DSIZE MIN_BLOCK_SIZE W64
  by_cases h : S ≤ 16
  · rw [if_pos h]; omega
  · rw [if_neg h]; omega

set_option maxRecDepth 100000 in
/-- C10, evaluated on a failing sequence: the provider's first page starts at
`65536`, a multiple of 16.  On the fresh heap `a = ics_malloc(4048)`,
`b = ics_malloc(40)`, `ics_free(b)`, `c = ics_malloc(20)`,
`d = ics_malloc(3900)`, `ics_realloc(d, 40)`, `ics_realloc(c, 4000)`,
`ics_free(a)` all succeed on pointers that earlier calls returned, and the
final `ics_malloc(4016)` returns `73656`, inside the heap (boundary `73728`)
and congruent to 8 modulo 16. -/
theorem misaligned_pointer_returned :
    fresh.brk % 16 = 0 ∧
    al1.map Prod.snd = some 65552 ∧ al2.map Prod.snd = some 69632 ∧
    al3.map Prod.snd = some 0 ∧ al4.map Prod.snd = some 69696 ∧
    al5.map Prod.snd = some 69744 ∧ al6.map Prod.snd = some 73664 ∧
    al7.map Prod.snd = some 69632 ∧ al8.map Prod.snd = some 0 ∧
    al9.map Prod.snd = some 73656 ∧ (state_of fresh al9).brk = 73728 ∧
    73656 % 16 = 8 := by
  decide

/-- Exact-arithmetic ceiling quotient: the least k with a ≤ 16 * k, as a rational ceiling. -/
theorem ceil_div_sixteen (a : Nat) : ⌈((a : ℚ)) / 16⌉₊ = (a + 15) / 16 := by
  have h16 : (0 : ℚ) < 16 := by norm_num
  apply le_antisymm
  · rw [Nat.ceil_le, div_le_iff₀ h16]
    have : a ≤ (a + 15) / 16 * 16 := by omega
    exact_mod_cast this
  · have h : (a : ℚ) / 16 ≤ (⌈((a : ℚ)) / 16⌉₊ : ℚ) := Nat.le_ceil _
    rw [div_le_iff₀ h16] at h
    have h2 : a ≤ ⌈((a : ℚ)) / 16⌉₊ * 16 := by exact_mod_cast h
    omega

/-- C11 (counterexample): the size 2^64 - 1, representable as a 64-bit size_t and
accepted uncapped by ics_realloc, is larger than 16 but adjust_size wraps around and
yields 16, which is neither 16 * ceil((r + 16) / 16), nor at least 32, nor at least
r + 16. -/
theorem adjust_size_wraps :
    W64 - 1 < W64 ∧ ¬ (W64 - 1 ≤ 16) ∧ adjust_size (W64 - 1) = 16 ∧
    adjust_size (W64 - 1) ≠ 16 * ⌈(((W64 - 1 + 16 : Nat) : ℚ)) / 16⌉₊ ∧
    ¬ (32 ≤ adjust_size (W64 - 1)) ∧ ¬ (W64 - 1 + 16 ≤ adjust_size (W64 - 1)) := by
  have h : adjust_size (W64 - 1) = 16 := by decide
  rw [ceil_div_sixteen, h]
  decide

/-- C11 (amended): for every requested size r with r + 31 < 2^64 (no wrap-around in
the 64-bit sum), adjust_size r is 32 when r ≤ 16 and 16 * ceil((r + 16) / 16) in exact
arithmetic otherwise; it is a multiple of 16, at least 32 and at least r + 16. -/
theorem adjust_size_formula (r : Nat) (h : r + 31 < W64) :
    (r ≤ 16 → adjust_size r = 32) ∧
    (16 < r → adjust_size r = 16 * ⌈(((r + 16 : Nat) : ℚ)) / 16⌉₊) ∧
    adjust_size r % 16 = 0 ∧ 32 ≤ adjust_size r ∧ r + 16 ≤ adjust_size r := by
  rw [ceil_div_sixteen]
  unfold adjust_size DSIZE MIN_BLOCK_SIZE
  unfold W64 at *
  by_cases hr : r ≤ 16
  · rw [if_pos hr]
    omega
  · rw [if_neg hr]
    have e1 : (r + 16 + (16 - 1)) % 18446744073709551616 = r + 31 := by omega
    rw [e1]
    omega

/-- C11 (witness): the amended formula at r = 4064. -/
theorem adjust_size_formula_witness :
    4064 + 31 < W64 ∧ ((4064 ≤ 16 → adjust_size 4064 = 32) ∧
    (16 < 4064 → adjust_size 4064 = 16 * ⌈(((4064 + 16 : Nat) : ℚ)) / 16⌉₊) ∧
    adjust_size 4064 % 16 = 0 ∧ 32 ≤ adjust_size 4064 ∧ 4064 + 16 ≤ adjust_size 4064) :=
  ⟨by decide, adjust_size_formula 4064 (by decide)⟩

/-! ## Coalescing scenarios -/

set_option maxRecDepth 100000 in
/-- C13: on the fresh heap, `A = ics_malloc(10)`, `B = ics_malloc(10)`,
`C = ics_malloc(10)` return `65552`, `65584`, `65616`; `ics_free(B)`,
`ics_free(C)`, `ics_free(A)` all return `0` and leave one free block of
size `4080` at `65544` as list head with null `next`, but its `prev` field
holds `4048` instead of null: case 4 of `coalesce` (release of `C`) stored the
merged size through `GET_FTR(prev_free_block)`, which is the `prev` field of
`B` and not the footer, and case 3 (release of `A`) copied that field and
stored through it at address `4056`, outside the heap. -/
theorem three_block_release_leaves_prev_link :
    ptr_of tb1 = 65552 ∧ ptr_of tb2 = 65584 ∧ ptr_of tb3 = 65616 ∧
    tb4.map Prod.snd = some 0 ∧ tb5.map Prod.snd = some 0 ∧ tb6.map Prod.snd = some 0 ∧
    get_prev (state_of fresh tb4).mem 65576 = 0 ∧
    get_prev (state_of fresh tb5).mem 65576 = 4048 ∧
    get_block_size (state_of fresh tb5).mem 65576 = 4048 ∧
    get_block_size (state_of fresh tb5).mem (65576 + 4048 - 8) = 3984 ∧
    (state_of fresh tb6).freelist_head = 65544 ∧
    get_block_size (state_of fresh tb6).mem 65544 = 4080 ∧
    get_block_size (state_of fresh tb6).mem (65544 + 4080 - 8) = 4080 ∧
    get_next (state_of fresh tb6).mem 65544 = 0 ∧
    get_prev (state_of fresh tb6).mem 65544 = 4048 ∧
    get_prev (state_of fresh tb6).mem 65544 ≠ NULL ∧
    load64 (state_of fresh tb5).mem 4056 = 0 ∧
    load64 (state_of fresh tb6).mem 4056 = 65544 := by
  decide

set_option maxRecDepth 100000 in
/-- C14: on the fresh heap four blocks `A`, `B`, `C`, `D` of 32 bytes are
allocated at `65544`, `65576`, `65608`, `65640`; `A` and `C` are released
(case 1 twice: headers and footers agree, no two free neighbours, the list
`65544, 65608, 65672` is address-ordered). `ics_free(B)` then runs case 4 of
`coalesce`: the merged block at `65544` gets `96 = 32 + 32 + 32` in its
header, but its footer, the last word at `65632`, still records `32`; the size
was stored at `65528`, in the word before the prologue at `65536`, because
`GET_FTR` was applied to the header pointer `prev_free_block`. -/
theorem case4_footer_written_elsewhere :
    ptr_of tb1 = 65552 ∧ ptr_of tb2 = 65584 ∧ ptr_of tb3 = 65616 ∧ ptr_of fn4 = 65648 ∧
    fn5.map Prod.snd = some 0 ∧ fn6.map Prod.snd = some 0 ∧ fn7.map Prod.snd = some 0 ∧
    (state_of fresh fn6).prologue = 65536 ∧
    (state_of fresh fn6).freelist_head = 65544 ∧
    get_next (state_of fresh fn6).mem 65544 = 65608 ∧
    get_next (state_of fresh fn6).mem 65608 = 65672 ∧
    get_next (state_of fresh fn6).mem 65672 = 0 ∧
    get_block_size (state_of fresh fn6).mem 65544 = 32 ∧
    get_block_size (state_of fresh fn6).mem 65568 = 32 ∧
    get_block_size (state_of fresh fn6).mem 65576 = 33 ∧
    get_block_size (state_of fresh fn6).mem 65600 = 33 ∧
    get_block_size (state_of fresh fn6).mem 65608 = 32 ∧
    get_block_size (state_of fresh fn6).mem 65632 = 32 ∧
    get_block_size (state_of fresh fn6).mem 65640 = 33 ∧
    get_block_size (state_of fresh fn6).mem 65664 = 33 ∧
    get_block_size (state_of fresh fn6).mem 65672 = 3952 ∧
    get_block_size (state_of fresh fn6).mem 69616 = 3952 ∧
    get_block_size (mark_free (state_of fresh fn6) 65584).mem (psub (GET_HDR 65584) WSIZE) % 2 = 0 ∧
    get_block_size (mark_free (state_of fresh fn6) 65584).mem
      (next_block (mark_free (state_of fresh fn6) 65584).mem 65584) % 2 = 0 ∧
    get_block_size (state_of fresh fn7).mem 65544 = 96 ∧
    get_block_size (state_of fresh fn7).mem (65544 + 96 - 8) = 32 ∧
    load64 (state_of fresh fn6).mem 65528 = 0 ∧
    load64 (state_of fresh fn7).mem 65528 = 96 := by
  decide

set_option maxRecDepth 100000 in
/-- C15: after `ics_malloc(10)` on the fresh heap the block at `65544` is
allocated and its right neighbour `65576` is free, list head and search cursor.
`ics_free(65552)` meets an allocated left neighbour (the prologue) and a free
right neighbour, so case 3 of `coalesce` runs: it returns `0`, `freelist_head`
becomes the block `65544`, but `freelist_next` is still `65576`, the absorbed
right neighbour. -/
theorem case3_cursor_stays_on_absorbed_block :
    ptr_of sc1 = 65552 ∧
    (state_of fresh sc1).freelist_head = 65576 ∧
    (state_of fresh sc1).freelist_next = 65576 ∧
    get_block_size (mark_free (state_of fresh sc1) 65552).mem (psub (GET_HDR 65552) WSIZE) % 2 = 1 ∧
    next_block (mark_free (state_of fresh sc1) 65552).mem 65552 = 65576 ∧
    get_block_size (mark_free (state_of fresh sc1) 65552).mem 65576 % 2 = 0 ∧
    sc2.map Prod.snd = some 0 ∧
    after_free.freelist_head = GET_HDR 65552 ∧
    get_block_size after_free.mem 65544 = 4080 ∧
    after_free.freelist_next = 65576 ∧
    after_free.freelist_next ≠ GET_HDR 65552 := by
  decide

set_option maxRecDepth 100000 in
/-- C16: on the fresh heap, `A = ics_malloc(10)`, `B = ics_malloc(10)`,
`ics_free(B)`, `ics_malloc(4000)`, `P = ics_malloc(4048)`, `ics_free(P)`: the
last release returns `0`, and the walk by header sizes from the first block
`65544` (allocated, 32 bytes) meets the free block `65576` of size `4048` and
right after it, at `65576 + 4048`, the free block `69624` of size `4096`;
both lie between the prologue `65536` and the epilogue at `73720`. -/
theorem adjacent_free_blocks_after_free :
    ptr_of tb1 = 65552 ∧ ptr_of tb2 = 65584 ∧ ad3.map Prod.snd = some 0 ∧
    ptr_of ad4 = 65616 ∧ ptr_of ad5 = 69632 ∧ ad6.map Prod.snd = some 0 ∧
    (state_of fresh ad6).prologue = 65536 ∧ (state_of fresh ad6).brk = 73728 ∧
    get_block_size (state_of fresh ad6).mem (65536 + 8) = 33 ∧
    get_block_size (state_of fresh ad6).mem (65544 + 32) = 4048 ∧
    get_block_size (state_of fresh ad6).mem (65576 + 4048) = 4096 ∧
    4048 % 2 = 0 ∧ 4096 % 2 = 0 ∧ 65576 + 4048 + 4096 = 73728 - 8 := by
  decide

/-! ## The next-fit search on a well-formed list -/

theorem is_chain_cons (m : Mem) (p a : Nat) (l : List Nat) :
    is_chain m p (a :: l) ↔
      a ≠ NULL ∧ get_prev m a = p ∧ get_next m a = l.headD NULL ∧ is_chain m a l :=
  Iff.rfl

/-- In a chain every node is non-null and its `next` field is its successor in the
list, null for the last node. -/
theorem is_chain_next (m : Mem) (l : List Nat) (p : Nat) (h : is_chain m p l)
    (j : Nat) (hj : j < l.length) :
    l[j] ≠ NULL ∧ get_next m l[j] = (l[j + 1]?).getD NULL := by
  induction l generalizing p j with
  | nil => simp at hj
  | cons a l ih =>
    obtain ⟨ha, _, hn, hl⟩ := (is_chain_cons m p a l).mp h
    cases j with
    | zero =>
      refine ⟨ha, ?_⟩
      rw [List.getElem_cons_zero, hn]
      cases l <;> simp
    | succ j =>
      have hj2 : j < l.length := by simpa using hj
      simpa using ih a hl j hj2

/-- Following `next` for `k` steps from the node at index `j` of a chain reaches the
node at index `j + k`, or null when `j + k` is the length. -/
theorem is_chain_iterate (m : Mem) (l : List Nat) (p : Nat) (h : is_chain m p l)
    (k j : Nat) (hj : j + k ≤ l.length) (hj0 : j < l.length) :
    (get_next m)^[k] l[j] = (l[j + k]?).getD NULL := by
  induction k generalizing j with
  | zero => simp [hj0]
  | succ k ih =>
    rw [Function.iterate_succ_apply, (is_chain_next m l p h j hj0).2]
    by_cases hk : j + 1 < l.length
    · rw [List.getElem?_eq_getElem hk, Option.getD_some, ih (j + 1) (by omega) hk]
      congr 2
      omega
    · have : k = 0 := by omega
      subst this
      have e : j + 1 = l.length := by omega
      simp [e]

/-- The nodes of a chain are pairwise distinct. -/
theorem is_chain_nodup (m : Mem) (l : List Nat) (p : Nat) (h : is_chain m p l) :
    l.Nodup := by
  rw [List.nodup_iff_injective_get]
  intro ⟨a, ha⟩ ⟨b, hb⟩ hab
  simp only [List.get_eq_getElem] at hab
  have key : ∀ a b (ha : a < l.length) (hb : b < l.length), a < b → l[a] ≠ l[b] := by
    intro a b ha hb hlt he
    have h1 := is_chain_iterate m l p h (l.length - b) a (by omega) ha
    have h2 := is_chain_iterate m l p h (l.length - b) b (by omega) hb
    rw [he, h2] at h1
    have e2 : b + (l.length - b) = l.length := by omega
    have e3 : a + (l.length - b) < l.length := by omega
    rw [e2, List.getElem?_eq_getElem e3] at h1
    simp only [List.getElem?_eq_none (le_refl _), Option.getD_none, Option.getD_some] at h1
    exact (is_chain_next m l p h _ e3).1 h1.symm
  rcases Nat.lt_trichotomy a b with hlt | heq | hgt
  · exact absurd hab (key a b ha hb hlt)
  · exact Fin.ext heq
  · exact absurd hab.symm (key b a hb ha hgt)

/-- The loop of `find_next_fit` along a duplicate-free list `r` that starts at the
cursor and on which "next, or the head after the tail" is the cyclic successor:
entered at index `k`, it returns the first fitting node at index `k` or later, or
null when there is none. -/
theorem find_next_fit_loop_cyclic (s : State) (asize : Nat) (r : List Nat) (hnd : r.Nodup)
    (hstep : ∀ k, k < r.length →
      (if get_next s.mem ((r[k]?).getD NULL) = NULL then s.freelist_head
        else get_next s.mem ((r[k]?).getD NULL)) = (r[(k + 1) % r.length]?).getD NULL)
    (hcur : (r[0]?).getD NULL = s.freelist_next) (d : Nat) :
    ∀ fuel k, k + d = r.length → d ≤ fuel → 0 < d →
      find_next_fit_loop s asize fuel ((r[k]?).getD NULL) =
        some (((r.drop k).find? (fun a => decide (asize ≤ get_block_size s.mem a))).getD NULL) := by
  induction d with
  | zero => intro fuel k _ _ h0; omega
  | succ d ih =>
    intro fuel k hk hf _
    obtain ⟨f, rfl⟩ : ∃ f, fuel = f + 1 := ⟨fuel - 1, by omega⟩
    have hkl : k < r.length := by omega
    rw [find_next_fit_loop, List.drop_eq_getElem_cons hkl, List.find?_cons]
    have e : (r[k]?).getD NULL = r[k] := by rw [List.getElem?_eq_getElem hkl]; rfl
    by_cases h1 : get_block_size s.mem ((r[k]?).getD NULL) ≥ asize
    · rw [if_pos h1]
      have h1b : decide (asize ≤ get_block_size s.mem r[k]) = true := by
        rw [e] at h1
        exact decide_eq_true h1
      rw [h1b, e]
      rfl
    · rw [if_neg h1]
      dsimp only
      have h1b : decide (asize ≤ get_block_size s.mem r[k]) = false := by
        rw [e] at h1
        exact decide_eq_false h1
      rw [h1b, hstep k hkl]
      by_cases hd : d = 0
      · have e1 : (k + 1) % r.length = 0 := by
          have : k + 1 = r.length := by omega
          rw [this, Nat.mod_self]
        rw [e1, if_pos hcur, List.drop_eq_nil_of_le (by omega)]
        rfl
      · have hk1 : k + 1 < r.length := by omega
        rw [Nat.mod_eq_of_lt hk1]
        have hne : (r[k + 1]?).getD NULL ≠ s.freelist_next := by
          rw [← hcur, List.getElem?_eq_getElem hk1, List.getElem?_eq_getElem (by omega)]
          intro he
          have := (List.Nodup.getElem_inj_iff hnd).mp (Option.some.inj (congrArg some he))
          omega
        rw [if_neg hne]
        exact ih f (k + 1) (by omega) (by omega) (by omega)

/-- C17: on a free list `l` that is a null-terminated doubly linked chain from
`freelist_head`, with `freelist_next` the node at index `i` (or null when the list
is empty), `find_next_fit(asize)` returns, as soon as the budget covers the length
of the list, the first node with `block_size ≥ asize` in the cyclic order
`l[i], …, tail, head, …, l[i-1]`, and null (nothing) when no member fits or the list
is empty.  The function computes a value only: it has no output state, so heap,
`freelist_head` and `freelist_next` are untouched. -/
theorem find_next_fit_result (s : State) (l : List Nat) (asize i fuel : Nat)
    (hl : free_list s l)
    (hc : (l = [] ∧ s.freelist_next = NULL) ∨ l[i]? = some s.freelist_next)
    (hf : l.length ≤ fuel) :
    find_next_fit fuel s asize =
      some (((l.drop i ++ l.take i).find?
        (fun a => decide (asize ≤ get_block_size s.mem a))).getD NULL) ∧
    ((∀ a ∈ l, get_block_size s.mem a < asize) → find_next_fit fuel s asize = some NULL) := by
  have main : find_next_fit fuel s asize =
      some (((l.drop i ++ l.take i).find?
        (fun a => decide (asize ≤ get_block_size s.mem a))).getD NULL) := by
    rcases hc with ⟨rfl, hn⟩ | hc
    · unfold find_next_fit
      rw [if_pos hn]
      simp
    · obtain ⟨hil, hie⟩ := List.getElem?_eq_some_iff.mp hc
      have hnext := is_chain_next s.mem l NULL hl.2
      have hnd := is_chain_nodup s.mem l NULL hl.2
      have hcn : s.freelist_next ≠ NULL := by
        rw [← hie]
        exact (hnext i hil).1
      unfold find_next_fit
      rw [if_neg hcn, ← List.rotate_eq_drop_append_take (le_of_lt hil)]
      have hlen : (l.rotate i).length = l.length := List.length_rotate l i
      have hget : ∀ k, k < l.length → ((l.rotate i)[k]?).getD NULL = l[(k + i) % l.length]?.getD NULL := by
        intro k hk
        rw [List.getElem?_rotate hk]
      have h0 : ((l.rotate i)[0]?).getD NULL = s.freelist_next := by
        rw [hget 0 (by omega), Nat.zero_add, Nat.mod_eq_of_lt hil, hc]
        rfl
      have key := find_next_fit_loop_cyclic s asize (l.rotate i) (List.nodup_rotate.mpr hnd)
        ?_ h0 l.length fuel 0 (by omega) hf (by omega)
      · rw [h0, List.drop_zero] at key
        exact key
      · intro k hk
        rw [hlen] at hk ⊢
        have hm : (k + 1) % l.length < l.length := Nat.mod_lt _ (by omega)
        have hj : (k + i) % l.length < l.length := Nat.mod_lt _ (by omega)
        rw [hget k hk, hget _ hm, List.getElem?_eq_getElem hj, Option.getD_some,
          (hnext _ hj).2]
        have e2 : ((k + 1) % l.length + i) % l.length = ((k + i) % l.length + 1) % l.length := by
          rw [Nat.add_mod, Nat.mod_mod, ← Nat.add_mod, Nat.add_mod ((k + i) % l.length) 1,
            Nat.mod_mod, ← Nat.add_mod]
          congr 1
          omega
        rw [e2]
        by_cases hlast : (k + i) % l.length + 1 < l.length
        · rw [Nat.mod_eq_of_lt hlast, List.getElem?_eq_getElem hlast, Option.getD_some,
            if_neg (hnext _ hlast).1]
        · have e3 : (k + i) % l.length + 1 = l.length := by omega
          rw [e3, Nat.mod_self, List.getElem?_eq_none (le_refl _), Option.getD_none,
            if_pos rfl, hl.1]
          cases l with
          | nil => simp
          | cons a t => simp
  refine ⟨main, ?_⟩
  intro hno
  rw [main]
  have : (l.drop i ++ l.take i).find? (fun a => decide (asize ≤ get_block_size s.mem a)) = none := by
    rw [List.find?_eq_none]
    intro a ha
    have hal : a ∈ l := by
      rcases List.mem_append.mp ha with h | h
      · exact List.mem_of_mem_drop h
      · exact List.mem_of_mem_take h
    have := hno a hal
    simp only [decide_eq_true_eq]
    omega
  rw [this]
  rfl

set_option maxRecDepth 100000 in
/-- C17 (witness): the list `65544, 65608, 65672` of the state reached by four
allocations of 10 bytes and the release of the first and the third, with the
cursor on the last node: a search for 48 bytes returns the cursor node, a search
for 4000 bytes returns nothing. -/
theorem find_next_fit_result_witness :
    (free_list (state_of fresh fn6) [65544, 65608, 65672] ∧
      (([65544, 65608, 65672] : List Nat) = [] ∧ (state_of fresh fn6).freelist_next = NULL ∨
        ([65544, 65608, 65672] : List Nat)[2]? = some (state_of fresh fn6).freelist_next) ∧
      ([65544, 65608, 65672] : List Nat).length ≤ 5) ∧
    find_next_fit 5 (state_of fresh fn6) 48 = some 65672 ∧
    find_next_fit 5 (state_of fresh fn6) 4000 = some NULL :=
  ⟨⟨by decide, by decide, by decide⟩,
    ((find_next_fit_result (state_of fresh fn6) [65544, 65608, 65672] 48 2 5
      (by decide) (by decide) (by decide)).1.trans (by decide)),
    by decide⟩

/-! ## Link fields under link stores -/

theorem get_next_set_next_same (m : Mem) (a v : Nat) (hv : v < W64) :
    get_next (set_next m a v) a = v := by
  unfold get_next set_next
  rw [load64_store64_same, Nat.mod_eq_of_lt hv]

theorem get_prev_set_prev_same (m : Mem) (a v : Nat) (hv : v < W64) :
    get_prev (set_prev m a v) a = v := by
  unfold get_prev set_prev
  rw [load64_store64_same, Nat.mod_eq_of_lt hv]

theorem get_next_set_next_of_ne (m : Mem) (a v b : Nat) (h : b + 8 ≤ a ∨ a + 8 ≤ b) :
    get_next (set_next m a v) b = get_next m b :=
  load64_set_next_of_disjoint m a v (b + 8) (by omega)

theorem get_prev_set_prev_of_ne (m : Mem) (a v b : Nat) (h : b + 8 ≤ a ∨ a + 8 ≤ b) :
    get_prev (set_prev m a v) b = get_prev m b :=
  load64_set_prev_of_disjoint m a v (b + 16) (by omega)

theorem get_next_set_prev (m : Mem) (a v b : Nat) (h : b ≤ a ∨ a + 16 ≤ b) :
    get_next (set_prev m a v) b = get_next m b :=
  load64_set_prev_of_disjoint m a v (b + 8) (by omega)

theorem get_prev_set_next (m : Mem) (a v b : Nat) (h : a ≤ b ∨ b + 16 ≤ a) :
    get_prev (set_next m a v) b = get_prev m b :=
  load64_set_next_of_disjoint m a v (b + 16) (by omega)

/-! ## Segments of the free list -/

theorem is_chain_iff_segment (m : Mem) (l : List Nat) (p : Nat) :
    is_chain m p l ↔ is_segment m p l NULL := by
  induction l generalizing p with
  | nil => exact Iff.rfl
  | cons a l ih =>
    unfold is_chain is_segment
    rw [ih a]

theorem is_segment_cons (m : Mem) (p a q : Nat) (l : List Nat) :
    is_segment m p (a :: l) q ↔
      a ≠ NULL ∧ get_prev m a = p ∧ get_next m a = l.headD q ∧ is_segment m a l q :=
  Iff.rfl

theorem is_segment_append (m : Mem) (l1 l2 : List Nat) (p q : Nat) :
    is_segment m p (l1 ++ l2) q ↔
      is_segment m p l1 (l2.headD q) ∧ is_segment m (l1.getLastD p) l2 q := by
  induction l1 generalizing p with
  | nil => simp [is_segment]
  | cons a l1 ih =>
    have e1 : (l1 ++ l2).headD q = l1.headD (l2.headD q) := by cases l1 <;> simp
    have e2 : (a :: l1).getLastD p = l1.getLastD a := by cases l1 <;> rfl
    rw [List.cons_append, is_segment_cons, is_segment_cons, ih a, e1, e2]
    simp only [and_assoc]

theorem is_segment_congr (m m2 : Mem) (l : List Nat) (p q : Nat)
    (h : ∀ a ∈ l, get_next m2 a = get_next m a ∧ get_prev m2 a = get_prev m a) :
    is_segment m2 p l q ↔ is_segment m p l q := by
  induction l generalizing p with
  | nil => exact Iff.rfl
  | cons a l ih =>
    rw [is_segment_cons, is_segment_cons, (h a (List.mem_cons_self a l)).1, (h a (List.mem_cons_self a l)).2,
      ih a (fun b hb => h b (List.mem_cons_of_mem a hb))]

/-- Every node of a chain whose first node is a 64-bit address is one. -/
theorem is_segment_lt (m : Mem) (l : List Nat) (p q : Nat) (h : is_segment m p l q)
    (h0 : l.headD 0 < W64) : ∀ a ∈ l, a < W64 := by
  induction l generalizing p with
  | nil => simp
  | cons a l ih =>
    obtain ⟨_, _, hn, hl⟩ := h
    intro b hb
    rcases List.mem_cons.mp hb with rfl | hb
    · exact h0
    · refine ih a hl ?_ b hb
      cases l with
      | nil => simp at hb
      | cons c t =>
        have := load64_lt m (a + 8)
        simp only [List.headD_cons] at hn ⊢
        unfold get_next at hn
        omega

/-! ## The link stores of `insertFreeList` -/

theorem insert_before_seen_prev (m : Mem) (fh c : Nat) (hfc : fh + 32 ≤ c ∨ c + 32 ≤ fh) :
    get_prev (set_next (take_prev m fh c) fh c) c = get_prev m c := by
  unfold take_prev
  rw [get_prev_set_next _ _ _ _ (by omega), get_prev_set_prev_of_ne _ _ _ _ (by omega)]

/-- The `prev` fields after splicing `fh` in before `c`: that of `c` is `fh`, the
others are unchanged. -/
theorem insert_before_prev (m : Mem) (fh c x : Nat) (hfc : fh + 32 ≤ c ∨ c + 32 ≤ fh)
    (hfx : fh + 32 ≤ x ∨ x + 32 ≤ fh) (hxc : x = c ∨ x + 32 ≤ c ∨ c + 32 ≤ x)
    (hxp : get_prev m c = NULL ∨ x = get_prev m c ∨ x + 32 ≤ get_prev m c ∨ get_prev m c + 32 ≤ x)
    (hW : fh < W64) :
    get_prev (insert_before m fh c) x = if x = c then fh else get_prev m x := by
  unfold insert_before point_prev_next
  rw [insert_before_seen_prev m fh c hfc]
  by_cases hx : x = c
  · rw [if_pos hx, hx, get_prev_set_prev_same _ _ _ hW]
  · rw [if_neg hx, get_prev_set_prev_of_ne _ _ _ _ (by omega)]
    by_cases hp : get_prev m c ≠ NULL
    · rw [if_pos hp, get_prev_set_next _ _ _ _ (by omega), get_prev_set_next _ _ _ _ (by omega)]
      unfold take_prev
      rw [get_prev_set_prev_of_ne _ _ _ _ (by omega)]
    · rw [if_neg hp, get_prev_set_next _ _ _ _ (by omega)]
      unfold take_prev
      rw [get_prev_set_prev_of_ne _ _ _ _ (by omega)]

/-- The `next` fields after splicing `fh` in before `c`: that of the predecessor of
`c` is `fh`, the others are unchanged. -/
theorem insert_before_next (m : Mem) (fh c x : Nat) (hfc : fh + 32 ≤ c ∨ c + 32 ≤ fh)
    (hfx : fh + 32 ≤ x ∨ x + 32 ≤ fh) (hxc : x = c ∨ x + 32 ≤ c ∨ c + 32 ≤ x)
    (hxp : get_prev m c = NULL ∨ x = get_prev m c ∨ x + 32 ≤ get_prev m c ∨ get_prev m c + 32 ≤ x)
    (hW : fh < W64) :
    get_next (insert_before m fh c) x =
      if get_prev m c ≠ NULL ∧ x = get_prev m c then fh else get_next m x := by
  unfold insert_before point_prev_next
  rw [insert_before_seen_prev m fh c hfc, get_next_set_prev _ _ _ _ (by omega)]
  by_cases hp : get_prev m c ≠ NULL
  · rw [if_pos hp]
    by_cases hx : x = get_prev m c
    · rw [if_pos ⟨hp, hx⟩, hx, get_next_set_next_same _ _ _ hW]
    · rw [if_neg (fun h => hx h.2), get_next_set_next_of_ne _ _ _ _ (by omega),
        get_next_set_next_of_ne _ _ _ _ (by omega)]
      unfold take_prev
      rw [get_next_set_prev _ _ _ _ (by omega)]
  · rw [if_neg hp, if_neg (fun h => hp h.1), get_next_set_next_of_ne _ _ _ _ (by omega)]
    unfold take_prev
    rw [get_next_set_prev _ _ _ _ (by omega)]

/-- The link fields of `fh` itself after splicing it in before `c`. -/
theorem insert_before_own (m : Mem) (fh c : Nat) (hfc : fh + 32 ≤ c ∨ c + 32 ≤ fh)
    (hfp : get_prev m c = NULL ∨ fh + 32 ≤ get_prev m c ∨ get_prev m c + 32 ≤ fh)
    (hc : c < W64) :
    get_prev (insert_before m fh c) fh = get_prev m c ∧
    get_next (insert_before m fh c) fh = c := by
  have hpW : get_prev m c < W64 := load64_lt m (c + 16)
  unfold insert_before point_prev_next
  rw [insert_before_seen_prev m fh c hfc, get_prev_set_prev_of_ne _ _ _ _ (by omega),
    get_next_set_prev _ _ _ _ (by omega)]
  by_cases hp : get_prev m c ≠ NULL
  · rw [if_pos hp, get_prev_set_next _ _ _ _ (by omega), get_prev_set_next _ _ _ _ (by omega),
      get_next_set_next_of_ne _ _ _ _ (by omega), get_next_set_next_same _ _ _ hc]
    unfold take_prev
    rw [get_prev_set_prev_same _ _ _ hpW]
    exact ⟨rfl, rfl⟩
  · rw [if_neg hp, get_prev_set_next _ _ _ _ (by omega), get_next_set_next_same _ _ _ hc]
    unfold take_prev
    rw [get_prev_set_prev_same _ _ _ hpW]
    exact ⟨rfl, rfl⟩

/-- The link fields after appending `fh` behind the tail `c`. -/
theorem insert_after_links (m : Mem) (fh c x : Nat)
    (hfx : fh + 32 ≤ x ∨ x + 32 ≤ fh) (hxc : x = c ∨ x + 32 ≤ c ∨ c + 32 ≤ x)
    (hW : fh < W64) (hc : c < W64) :
    get_prev (insert_after m fh c) x = get_prev m x ∧
    get_next (insert_after m fh c) x = (if x = c then fh else get_next m x) ∧
    get_prev (insert_after m fh c) fh = c ∧ get_next (insert_after m fh c) fh = NULL := by
  unfold insert_after
  refine ⟨?_, ?_, ?_, ?_⟩
  · rw [get_prev_set_next _ _ _ _ (by omega), get_prev_set_prev_of_ne _ _ _ _ (by omega),
      get_prev_set_next _ _ _ _ (by omega)]
  · rw [get_next_set_next_of_ne _ _ _ _ (by omega), get_next_set_prev _ _ _ _ (by omega)]
    by_cases hx : x = c
    · rw [if_pos hx, hx, get_next_set_next_same _ _ _ hW]
    · rw [if_neg hx, get_next_set_next_of_ne _ _ _ _ (by omega)]
  · rw [get_prev_set_next _ _ _ _ (by omega), get_prev_set_prev_same _ _ _ hc]
  · rw [get_next_set_next_same _ _ _ (by unfold NULL W64; omega)]

theorem list_nil_or_snoc (l : List Nat) : l = [] ∨ ∃ l0 z, l = l0 ++ [z] := by
  rcases List.eq_nil_or_concat l with h | ⟨l0, z, h⟩
  · exact Or.inl h
  · exact Or.inr ⟨l0, z, by rw [h, List.concat_eq_append]⟩

theorem pairwise_apart (l : List Nat) (h : l.Pairwise (fun a b => a + 32 ≤ b)) :
    ∀ x ∈ l, ∀ y ∈ l, x = y ∨ x + 32 ≤ y ∨ y + 32 ≤ x := by
  intro x hx y hy
  by_cases hxy : x = y
  · exact Or.inl hxy
  · have h2 : l.Pairwise (fun a b => a + 32 ≤ b ∨ b + 32 ≤ a) := h.imp (fun hab => Or.inl hab)
    exact Or.inr (h2.forall (fun a b hab => hab.symm) hx hy hxy)

theorem is_segment_ne_null (m : Mem) (l : List Nat) (p q : Nat) (h : is_segment m p l q) :
    ∀ a ∈ l, a ≠ NULL := by
  induction l generalizing p with
  | nil => simp
  | cons a l ih =>
    obtain ⟨ha, _, _, hl⟩ := h
    intro b hb
    rcases List.mem_cons.mp hb with rfl | hb
    · exact ha
    · exact ih a hl b hb

/-- Splicing `fh` in before the node `c` of a chain of well separated nodes yields
the chain with `fh` inserted before `c`. -/
theorem insert_before_chain (m : Mem) (l1 l2 : List Nat) (c fh : Nat)
    (h : is_segment m NULL (l1 ++ c :: l2) NULL)
    (hpw : (l1 ++ c :: l2).Pairwise (fun a b => a + 32 ≤ b))
    (hap : ∀ x ∈ l1 ++ c :: l2, fh + 32 ≤ x ∨ x + 32 ≤ fh)
    (h0 : fh ≠ NULL) (hW : fh < W64) (hlt : ∀ x ∈ l1 ++ c :: l2, x < W64) :
    is_segment (insert_before m fh c) NULL (l1 ++ fh :: c :: l2) NULL := by
  have hmc : c ∈ l1 ++ c :: l2 := by simp
  obtain ⟨hpw1, hpw2, hpw12⟩ := List.pairwise_append.mp hpw
  obtain ⟨h1, hc0, hcp, hcn, h2⟩ := (is_segment_append m l1 (c :: l2) NULL NULL).mp h
  have hl1c : ∀ x ∈ l1, x + 32 ≤ c := fun x hx => hpw12 x hx c (List.mem_cons_self c l2)
  have hcl2 : ∀ x ∈ l2, c + 32 ≤ x := fun x hx => (List.pairwise_cons.mp hpw2).1 x hx
  have hpm : get_prev m c = NULL ∨ get_prev m c ∈ l1 := by
    rw [hcp]
    rcases list_nil_or_snoc l1 with rfl | ⟨l0, z, rfl⟩
    · exact Or.inl rfl
    · right
      simp
  have hxp : ∀ x ∈ l1 ++ c :: l2, get_prev m c = NULL ∨ x = get_prev m c ∨
      x + 32 ≤ get_prev m c ∨ get_prev m c + 32 ≤ x := by
    intro x hx
    rcases hpm with hp | hp
    · exact Or.inl hp
    · exact Or.inr (pairwise_apart _ hpw x hx _ (List.mem_append_left _ hp))
  have FP : ∀ x ∈ l1 ++ c :: l2,
      get_prev (insert_before m fh c) x = if x = c then fh else get_prev m x :=
    fun x hx => insert_before_prev m fh c x (hap c hmc) (hap x hx)
      (pairwise_apart _ hpw x hx c hmc) (hxp x hx) hW
  have FN : ∀ x ∈ l1 ++ c :: l2, get_next (insert_before m fh c) x =
      if get_prev m c ≠ NULL ∧ x = get_prev m c then fh else get_next m x :=
    fun x hx => insert_before_next m fh c x (hap c hmc) (hap x hx)
      (pairwise_apart _ hpw x hx c hmc) (hxp x hx) hW
  have own := insert_before_own m fh c (hap c hmc)
    (hpm.elim Or.inl (fun hp => Or.inr (hap _ (List.mem_append_left _ hp)))) (hlt c hmc)
  have hcnp : ¬ (get_prev m c ≠ NULL ∧ c = get_prev m c) := by
    rintro ⟨_, he⟩
    rcases hpm with hp | hp
    · exact hc0 (he.trans hp)
    · have := hl1c _ hp
      omega
  rw [is_segment_append, is_segment_cons, is_segment_cons]
  refine ⟨?_, h0, own.1.trans hcp, own.2, hc0, ?_, ?_, ?_⟩
  · -- the stretch before `fh`
    rcases list_nil_or_snoc l1 with rfl | ⟨l0, z, rfl⟩
    · trivial
    · have hz : get_prev m c = z := by
        rw [hcp]
        simp
      have hzm : z ∈ l0 ++ [z] ++ c :: l2 := by simp
      obtain ⟨h1a, hz0, hzp, hzn, _⟩ := (is_segment_append m l0 [z] NULL _).mp h1
      rw [is_segment_append, is_segment_cons]
      have hpw0 := List.pairwise_append.mp hpw1
      refine ⟨?_, hz0, ?_, ?_, trivial⟩
      · refine (is_segment_congr m _ l0 NULL _ ?_).mpr h1a
        intro x hx
        have hxm : x ∈ l0 ++ [z] ++ c :: l2 := by simp [hx]
        have hxz : x + 32 ≤ z := hpw0.2.2 x hx z (by simp)
        have hxc : x + 32 ≤ c := hl1c x (by simp [hx])
        rw [FN x hxm, FP x hxm, if_neg (by omega), if_neg (by omega)]
        exact ⟨rfl, rfl⟩
      · have hzc : z + 32 ≤ c := hl1c z (by simp)
        rw [FP z hzm, if_neg (by omega)]
        exact hzp
      · rw [FN z hzm, if_pos ⟨by rw [hz]; exact hz0, hz.symm⟩]
        rfl
  · rw [FP c hmc, if_pos rfl]
  · rw [FN c hmc, if_neg hcnp]
    exact hcn
  · refine (is_segment_congr m _ l2 c NULL ?_).mpr h2
    intro x hx
    have hxm : x ∈ l1 ++ c :: l2 := by simp [hx]
    have hxc := hcl2 x hx
    have hxnp : ¬ (get_prev m c ≠ NULL ∧ x = get_prev m c) := by
      rintro ⟨_, he⟩
      rcases hpm with hp | hp
      · exact is_segment_ne_null m l2 c NULL h2 x hx (he.trans hp)
      · have := hl1c _ hp
        omega
    rw [FN x hxm, FP x hxm, if_neg hxnp, if_neg (by omega)]
    exact ⟨rfl, rfl⟩

/-- Appending `fh` behind the tail `c` of a chain of well separated nodes yields
the chain with `fh` at the end. -/
theorem insert_after_chain (m : Mem) (l1 : List Nat) (c fh : Nat)
    (h : is_segment m NULL (l1 ++ [c]) NULL)
    (hpw : (l1 ++ [c]).Pairwise (fun a b => a + 32 ≤ b))
    (hap : ∀ x ∈ l1 ++ [c], fh + 32 ≤ x ∨ x + 32 ≤ fh)
    (h0 : fh ≠ NULL) (hW : fh < W64) (hlt : ∀ x ∈ l1 ++ [c], x < W64) :
    is_segment (insert_after m fh c) NULL (l1 ++ [c] ++ [fh]) NULL := by
  have hmc : c ∈ l1 ++ [c] := by simp
  obtain ⟨_, _, hpw12⟩ := List.pairwise_append.mp hpw
  obtain ⟨h1, hc0, hcp, _, _⟩ := (is_segment_append m l1 [c] NULL NULL).mp h
  have L := fun x (hx : x ∈ l1 ++ [c]) => insert_after_links m fh c x (hap x hx)
    (pairwise_apart _ hpw x hx c hmc) hW (hlt c hmc)
  have e : l1 ++ [c] ++ [fh] = l1 ++ c :: [fh] := by simp
  rw [e, is_segment_append, is_segment_cons, is_segment_cons]
  refine ⟨?_, hc0, ?_, ?_, h0, (L c hmc).2.2.1, (L c hmc).2.2.2, trivial⟩
  · refine (is_segment_congr m _ l1 NULL _ ?_).mpr h1
    intro x hx
    have hxm : x ∈ l1 ++ [c] := by simp [hx]
    have hxc : x + 32 ≤ c := hpw12 x hx c (by simp)
    rw [(L x hxm).1, (L x hxm).2.1, if_neg (by omega)]
    exact ⟨rfl, rfl⟩
  · rw [(L c hmc).1]
    exact hcp
  · rw [(L c hmc).2.1, if_pos rfl]
    rfl

/-- The loop of `insertFreeList` on a chain `l` of well separated nodes, entered at
the node `c` with every node before `c` below `fh`: it returns, and the new chain
is `l` with `fh` put between the nodes below it and the nodes above it. -/
theorem insertFreeList_loop_ordered (s : State) (fh : Nat) (l : List Nat)
    (hl : is_segment s.mem NULL l NULL) (hh : s.freelist_head = l.headD NULL)
    (hpw : l.Pairwise (fun a b => a + 32 ≤ b))
    (hap : ∀ x ∈ l, fh + 32 ≤ x ∨ x + 32 ≤ fh)
    (h0 : fh ≠ NULL) (hW : fh < W64) (hlt : ∀ x ∈ l, x < W64) (l2 : List Nat) :
    ∀ (l1 : List Nat) (c fuel : Nat), l = l1 ++ c :: l2 → (∀ x ∈ l1, x + 32 ≤ fh) →
      l2.length < fuel →
      ∃ s2 k1 k2, insertFreeList_loop s fh fuel c = some s2 ∧ l = k1 ++ k2 ∧
        (∀ x ∈ k1, x + 32 ≤ fh) ∧ (∀ x ∈ k2, fh + 32 ≤ x) ∧
        is_segment s2.mem NULL (k1 ++ fh :: k2) NULL ∧
        s2.freelist_head = (k1 ++ fh :: k2).headD NULL ∧
        s2.freelist_next = s.freelist_next := by
  induction l2 with
  | nil =>
    intro l1 c fuel hl12 hk1 hf
    obtain ⟨f, rfl⟩ : ∃ f, fuel = f + 1 := ⟨fuel - 1, by omega⟩
    subst hl12
    have hmc : c ∈ l1 ++ [c] := by simp
    obtain ⟨_, _, _, hcn, _⟩ := (is_segment_append s.mem l1 [c] NULL NULL).mp hl
    rw [insertFreeList_loop]
    by_cases hlt2 : fh < c
    · rw [if_pos hlt2]
      refine ⟨_, l1, [c], rfl, rfl, hk1, ?_, insert_before_chain s.mem l1 [] c fh hl hpw hap h0 hW hlt,
        ?_, rfl⟩
      · intro x hx
        rw [List.mem_singleton] at hx
        have := hap c hmc
        omega
      · show (if c = s.freelist_head then fh else s.freelist_head) = _
        cases l1 with
        | nil =>
          rw [if_pos (by rw [hh]; rfl)]
          rfl
        | cons a t =>
          have hac : a + 32 ≤ c := (List.pairwise_append.mp hpw).2.2 a (by simp) c (by simp)
          have ha : s.freelist_head = a := by rw [hh]; rfl
          rw [if_neg (by omega), ha]
          rfl
    · have hcn2 : get_next s.mem c = NULL := hcn
      rw [if_neg hlt2, if_pos hcn2]
      refine ⟨_, l1 ++ [c], [], rfl, by simp, ?_, by simp,
        insert_after_chain s.mem l1 c fh hl hpw hap h0 hW hlt, ?_, rfl⟩
      · intro x hx
        rcases List.mem_append.mp hx with hx | hx
        · exact hk1 x hx
        · rw [List.mem_singleton] at hx
          have := hap c hmc
          omega
      · show s.freelist_head = _
        rw [hh]
        cases l1 <;> rfl
  | cons d t ih =>
    intro l1 c fuel hl12 hk1 hf
    obtain ⟨f, rfl⟩ : ∃ f, fuel = f + 1 := ⟨fuel - 1, by simp at hf; omega⟩
    subst hl12
    have hmc : c ∈ l1 ++ c :: d :: t := by simp
    obtain ⟨_, _, _, hcn, hseg⟩ := (is_segment_append s.mem l1 (c :: d :: t) NULL NULL).mp hl
    have hd0 : d ≠ NULL := hseg.1
    rw [insertFreeList_loop]
    by_cases hlt2 : fh < c
    · rw [if_pos hlt2]
      refine ⟨_, l1, c :: d :: t, rfl, rfl, hk1, ?_,
        insert_before_chain s.mem l1 (d :: t) c fh hl hpw hap h0 hW hlt, ?_, rfl⟩
      · intro x hx
        have hc := hap c hmc
        rcases List.mem_cons.mp hx with rfl | hx
        · omega
        · have := (List.pairwise_cons.mp (List.pairwise_append.mp hpw).2.1).1 x hx
          omega
      · show (if c = s.freelist_head then fh else s.freelist_head) = _
        cases l1 with
        | nil =>
          rw [if_pos (by rw [hh]; rfl)]
          rfl
        | cons a t2 =>
          have hac : a + 32 ≤ c := (List.pairwise_append.mp hpw).2.2 a (by simp) c (by simp)
          have ha : s.freelist_head = a := by rw [hh]; rfl
          rw [if_neg (by omega), ha]
          rfl
    · have hne : get_next s.mem c ≠ NULL := by
        rw [hcn]
        exact hd0
      have hcn2 : get_next s.mem c = d := hcn
      rw [if_neg hlt2, if_neg hne, hcn2]
      have hk2 : ∀ x ∈ l1 ++ [c], x + 32 ≤ fh := by
        intro x hx
        rcases List.mem_append.mp hx with hx | hx
        · exact hk1 x hx
        · rw [List.mem_singleton] at hx
          have := hap c hmc
          omega
      exact ih (l1 ++ [c]) d f (by simp) hk2 (by simp at hf; omega)

/-! ## Address-ordered insertion -/

/-- C20: let the free list `l` be a null-terminated doubly linked chain
from `freelist_head`, sorted by ascending address with consecutive nodes at least
32 bytes (a minimum block) apart, and let `fh` be a non-null 64-bit address at
least 32 bytes away from every node.  Then `insertFreeList(fh)` returns (with a
budget of at least the length of `l`), and the new free list is `k1 ++ fh :: k2`
where `l = k1 ++ k2`: the old members in their order plus `fh` exactly once,
again a chain from `freelist_head` with consistent links, ascending with the same
gaps, with the lowest address first.  When `l` was empty `fh` is `freelist_head`
and `freelist_next` with null `prev` and `next`; otherwise `freelist_next` is
unchanged. -/
theorem insertFreeList_ordered (fuel : Nat) (s : State) (l : List Nat) (fh : Nat)
    (hl : free_list s l) (hpw : l.Pairwise (fun a b => a + 32 ≤ b))
    (hap : ∀ x ∈ l, fh + 32 ≤ x ∨ x + 32 ≤ fh)
    (h0 : fh ≠ NULL) (hW : fh < W64) (hH : s.freelist_head < W64) (hf : l.length ≤ fuel) :
    ∃ s2 k1 k2, insertFreeList fuel s fh = some s2 ∧ l = k1 ++ k2 ∧
      free_list s2 (k1 ++ fh :: k2) ∧
      (k1 ++ fh :: k2).Pairwise (fun a b => a + 32 ≤ b) ∧
      (∀ x ∈ k1 ++ fh :: k2, s2.freelist_head ≤ x) ∧
      (l = [] → s2.freelist_head = fh ∧ s2.freelist_next = fh ∧
        get_prev s2.mem fh = NULL ∧ get_next s2.mem fh = NULL) ∧
      (l ≠ [] → s2.freelist_next = s.freelist_next) := by
  obtain ⟨hh, hc⟩ := hl
  have hseg := (is_chain_iff_segment s.mem l NULL).mp hc
  have hlt : ∀ x ∈ l, x < W64 := is_segment_lt s.mem l NULL NULL hseg (by
    cases l with
    | nil => unfold W64; simp
    | cons a t => rw [List.headD_cons]; rw [hh] at hH; exact hH)
  have low : ∀ (k : List Nat) (d : Nat), k.Pairwise (fun a b => a + 32 ≤ b) →
      ∀ x ∈ k, k.headD d ≤ x := by
    intro k d hk x hx
    cases k with
    | nil => simp at hx
    | cons a t =>
      rcases List.mem_cons.mp hx with rfl | hx
      · exact le_refl _
      · have := (List.pairwise_cons.mp hk).1 x hx
        rw [List.headD_cons]
        omega
  cases l with
  | nil =>
    have hnull : s.freelist_head = NULL := hh
    unfold insertFreeList
    rw [if_pos hnull]
    refine ⟨_, [], [], rfl, rfl, ⟨rfl, ?_⟩, by simp, by simp, ?_, fun h => absurd rfl h⟩
    · rw [is_chain_iff_segment]
      refine ⟨h0, ?_, ?_, trivial⟩
      · show get_prev (insert_empty s.mem fh) fh = NULL
        unfold insert_empty
        rw [get_prev_set_next _ _ _ _ (by omega), get_prev_set_prev_same _ _ _ (by unfold NULL W64; omega)]
      · show get_next (insert_empty s.mem fh) fh = NULL
        unfold insert_empty
        rw [get_next_set_next_same _ _ _ (by unfold NULL W64; omega)]
    · intro _
      refine ⟨rfl, rfl, ?_, ?_⟩
      · show get_prev (insert_empty s.mem fh) fh = NULL
        unfold insert_empty
        rw [get_prev_set_next _ _ _ _ (by omega), get_prev_set_prev_same _ _ _ (by unfold NULL W64; omega)]
      · show get_next (insert_empty s.mem fh) fh = NULL
        unfold insert_empty
        rw [get_next_set_next_same _ _ _ (by unfold NULL W64; omega)]
  | cons c l2 =>
    have hc0 : c ≠ NULL := hseg.1
    have hhc : s.freelist_head = c := hh
    unfold insertFreeList
    rw [if_neg (by rw [hhc]; exact hc0), hhc]
    obtain ⟨s2, k1, k2, hr, hk, hk1, hk2, hsg, hhd, hnx⟩ :=
      insertFreeList_loop_ordered s fh (c :: l2) hseg hh hpw hap h0 hW hlt l2 [] c fuel rfl
        (by simp) (by simp at hf; omega)
    have hpw2 : (k1 ++ fh :: k2).Pairwise (fun a b => a + 32 ≤ b) := by
      rw [hk] at hpw
      obtain ⟨p1, p2, p12⟩ := List.pairwise_append.mp hpw
      rw [List.pairwise_append, List.pairwise_cons]
      refine ⟨p1, ⟨hk2, p2⟩, ?_⟩
      intro a ha b hb
      rcases List.mem_cons.mp hb with rfl | hb
      · exact hk1 a ha
      · exact p12 a ha b hb
    refine ⟨s2, k1, k2, hr, hk, ⟨hhd, (is_chain_iff_segment _ _ _).mpr hsg⟩, hpw2, ?_,
      fun h => absurd h (by simp), fun _ => hnx⟩
    rw [hhd]
    exact low _ NULL hpw2

set_option maxRecDepth 100000 in
/-- C20 (witness): in the state reached by four allocations of 10 bytes and the
release of the first and the third the free list is `65544, 65608, 65672`; the
header `65576` of the second block is at least 32 bytes away from all three. -/
theorem insertFreeList_ordered_witness :
    (free_list (state_of fresh fn6) [65544, 65608, 65672] ∧
      ([65544, 65608, 65672] : List Nat).Pairwise (fun a b => a + 32 ≤ b) ∧
      (∀ x ∈ ([65544, 65608, 65672] : List Nat), 65576 + 32 ≤ x ∨ x + 32 ≤ 65576) ∧
      65576 ≠ NULL ∧ 65576 < W64 ∧ (state_of fresh fn6).freelist_head < W64 ∧
      ([65544, 65608, 65672] : List Nat).length ≤ 5) ∧
    ∃ s2 k1 k2, insertFreeList 5 (state_of fresh fn6) 65576 = some s2 ∧
      [65544, 65608, 65672] = k1 ++ k2 ∧
      free_list s2 (k1 ++ 65576 :: k2) ∧
      (k1 ++ 65576 :: k2).Pairwise (fun a b => a + 32 ≤ b) ∧
      (∀ x ∈ k1 ++ 65576 :: k2, s2.freelist_head ≤ x) ∧
      (([65544, 65608, 65672] : List Nat) = [] → s2.freelist_head = 65576 ∧
        s2.freelist_next = 65576 ∧
        get_prev s2.mem 65576 = NULL ∧ get_next s2.mem 65576 = NULL) ∧
      (([65544, 65608, 65672] : List Nat) ≠ [] →
        s2.freelist_next = (state_of fresh fn6).freelist_next) :=
  ⟨⟨by decide, by decide, by decide, by decide, by decide, by decide, by decide⟩,
    insertFreeList_ordered 5 (state_of fresh fn6) [65544, 65608, 65672] 65576
      (by decide) (by decide) (by decide) (by decide) (by decide) (by decide) (by decide)⟩

/-! ## Reading a field after a store to another word

Every getter reads one 8-byte word (`get_next` the word at `a + 8`, `get_prev` the
word at `a + 16`) and every setter stores one: a store to a disjoint word does not
change what is read. -/

theorem get_block_size_set_block_size_off (m : Mem) (a v x : Nat) (h : x + 8 ≤ a ∨ a + 8 ≤ x) :
    get_block_size (set_block_size m a v) x = get_block_size m x := by
  unfold get_block_size
  rw [load64_set_block_size_of_disjoint m a v x (by omega)]

theorem get_block_size_set_id_off (m : Mem) (a v x : Nat) (h : x + 8 ≤ a ∨ a + 8 ≤ x) :
    get_block_size (set_id m a v) x = get_block_size m x := by
  unfold get_block_size
  rw [load64_set_id_of_disjoint m a v x (by omega)]

theorem get_block_size_set_requested_size_off (m : Mem) (a v x : Nat) (h : x + 8 ≤ a ∨ a + 8 ≤ x) :
    get_block_size (set_requested_size m a v) x = get_block_size m x := by
  unfold get_block_size
  rw [load64_set_requested_size_of_disjoint m a v x (by omega)]

theorem get_block_size_set_next_off (m : Mem) (a v x : Nat) (h : x + 8 ≤ a + 8 ∨ a + 16 ≤ x) :
    get_block_size (set_next m a v) x = get_block_size m x := by
  unfold get_block_size
  rw [load64_set_next_of_disjoint m a v x (by omega)]

theorem get_block_size_set_prev_off (m : Mem) (a v x : Nat) (h : x + 8 ≤ a + 16 ∨ a + 24 ≤ x) :
    get_block_size (set_prev m a v) x = get_block_size m x := by
  unfold get_block_size
  rw [load64_set_prev_of_disjoint m a v x (by omega)]

theorem get_id_set_block_size_off (m : Mem) (a v x : Nat) (h : x + 8 ≤ a ∨ a + 8 ≤ x) :
    get_id (set_block_size m a v) x = get_id m x := by
  unfold get_id
  rw [load64_set_block_size_of_disjoint m a v x (by omega)]

theorem get_id_set_id_off (m : Mem) (a v x : Nat) (h : x + 8 ≤ a ∨ a + 8 ≤ x) :
    get_id (set_id m a v) x = get_id m x := by
  unfold get_id
  rw [load64_set_id_of_disjoint m a v x (by omega)]

theorem get_id_set_requested_size_off (m : Mem) (a v x : Nat) (h : x + 8 ≤ a ∨ a + 8 ≤ x) :
    get_id (set_requested_size m a v) x = get_id m x := by
  unfold get_id
  rw [load64_set_requested_size_of_disjoint m a v x (by omega)]

theorem get_id_set_next_off (m : Mem) (a v x : Nat) (h : x + 8 ≤ a + 8 ∨ a + 16 ≤ x) :
    get_id (set_next m a v) x = get_id m x := by
  unfold get_id
  rw [load64_set_next_of_disjoint m a v x (by omega)]

theorem get_id_set_prev_off (m : Mem) (a v x : Nat) (h : x + 8 ≤ a + 16 ∨ a + 24 ≤ x) :
    get_id (set_prev m a v) x = get_id m x := by
  unfold get_id
  rw [load64_set_prev_of_disjoint m a v x (by omega)]

theorem get_requested_size_set_block_size_off (m : Mem) (a v x : Nat) (h : x + 8 ≤ a ∨ a + 8 ≤ x) :
    get_requested_size (set_block_size m a v) x = get_requested_size m x := by
  unfold get_requested_size
  rw [load64_set_block_size_of_disjoint m a v x (by omega)]

theorem get_requested_size_set_id_off (m : Mem) (a v x : Nat) (h : x + 8 ≤ a ∨ a + 8 ≤ x) :
    get_requested_size (set_id m a v) x = get_requested_size m x := by
  unfold get_requested_size
  rw [load64_set_id_of_disjoint m a v x (by omega)]

theorem get_requested_size_set_requested_size_off (m : Mem) (a v x : Nat) (h : x + 8 ≤ a ∨ a + 8 ≤ x) :
    get_requested_size (set_requested_size m a v) x = get_requested_size m x := by
  unfold get_requested_size
  rw [load64_set_requested_size_of_disjoint m a v x (by omega)]

theorem get_requested_size_set_next_off (m : Mem) (a v x : Nat) (h : x + 8 ≤ a + 8 ∨ a + 16 ≤ x) :
    get_requested_size (set_next m a v) x = get_requested_size m x := by
  unfold get_requested_size
  rw [load64_set_next_of_disjoint m a v x (by omega)]

theorem get_requested_size_set_prev_off (m : Mem) (a v x : Nat) (h : x + 8 ≤ a + 16 ∨ a + 24 ≤ x) :
    get_requested_size (set_prev m a v) x = get_requested_size m x := by
  unfold get_requested_size
  rw [load64_set_prev_of_disjoint m a v x (by omega)]

theorem get_next_set_block_size_off (m : Mem) (a v x : Nat) (h : x + 16 ≤ a ∨ a + 8 ≤ x + 8) :
    get_next (set_block_size m a v) x = get_next m x :=
  load64_set_block_size_of_disjoint m a v (x + 8) (by omega)

theorem get_next_set_id_off (m : Mem) (a v x : Nat) (h : x + 16 ≤ a ∨ a + 8 ≤ x + 8) :
    get_next (set_id m a v) x = get_next m x :=
  load64_set_id_of_disjoint m a v (x + 8) (by omega)

theorem get_next_set_requested_size_off (m : Mem) (a v x : Nat) (h : x + 16 ≤ a ∨ a + 8 ≤ x + 8) :
    get_next (set_requested_size m a v) x = get_next m x :=
  load64_set_requested_size_of_disjoint m a v (x + 8) (by omega)

theorem get_next_set_next_off (m : Mem) (a v x : Nat) (h : x + 16 ≤ a + 8 ∨ a + 16 ≤ x + 8) :
    get_next (set_next m a v) x = get_next m x :=
  load64_set_next_of_disjoint m a v (x + 8) (by omega)

theorem get_next_set_prev_off (m : Mem) (a v x : Nat) (h : x + 16 ≤ a + 16 ∨ a + 24 ≤ x + 8) :
    get_next (set_prev m a v) x = get_next m x :=
  load64_set_prev_of_disjoint m a v (x + 8) (by omega)

theorem get_prev_set_block_size_off (m : Mem) (a v x : Nat) (h : x + 24 ≤ a ∨ a + 8 ≤ x + 16) :
    get_prev (set_block_size m a v) x = get_prev m x :=
  load64_set_block_size_of_disjoint m a v (x + 16) (by omega)

theorem get_prev_set_id_off (m : Mem) (a v x : Nat) (h : x + 24 ≤ a ∨ a + 8 ≤ x + 16) :
    get_prev (set_id m a v) x = get_prev m x :=
  load64_set_id_of_disjoint m a v (x + 16) (by omega)

theorem get_prev_set_requested_size_off (m : Mem) (a v x : Nat) (h : x + 24 ≤ a ∨ a + 8 ≤ x + 16) :
    get_prev (set_requested_size m a v) x = get_prev m x :=
  load64_set_requested_size_of_disjoint m a v (x + 16) (by omega)

theorem get_prev_set_next_off (m : Mem) (a v x : Nat) (h : x + 24 ≤ a + 8 ∨ a + 16 ≤ x + 16) :
    get_prev (set_next m a v) x = get_prev m x :=
  load64_set_next_of_disjoint m a v (x + 16) (by omega)

theorem get_prev_set_prev_off (m : Mem) (a v x : Nat) (h : x + 24 ≤ a + 16 ∨ a + 24 ≤ x + 16) :
    get_prev (set_prev m a v) x = get_prev m x :=
  load64_set_prev_of_disjoint m a v (x + 16) (by omega)

/-! ## Reading a field after a store to the same word -/

theorem get_id_set_block_size (m : Mem) (a v : Nat) :
    get_id (set_block_size m a v) a = get_id m a := by
  unfold get_id set_block_size
  rw [load64_store64_same]
  have := load64_lt m a
  unfold W64 at *
  omega

theorem get_requested_size_set_block_size (m : Mem) (a v : Nat) :
    get_requested_size (set_block_size m a v) a = get_requested_size m a := by
  unfold get_requested_size set_block_size
  rw [load64_store64_same]
  have := load64_lt m a
  unfold W64 at *
  omega

theorem get_id_set_id (m : Mem) (a v : Nat) :
    get_id (set_id m a v) a = v % 4294967296 := by
  unfold get_id set_id
  rw [load64_store64_same]
  have := load64_lt m a
  unfold W64 at *
  omega

theorem get_requested_size_set_id (m : Mem) (a v : Nat) :
    get_requested_size (set_id m a v) a = get_requested_size m a := by
  unfold get_requested_size set_id
  rw [load64_store64_same]
  have := load64_lt m a
  unfold W64 at *
  omega

theorem get_id_set_requested_size (m : Mem) (a v : Nat) :
    get_id (set_requested_size m a v) a = get_id m a := by
  unfold get_id set_requested_size
  rw [load64_store64_same]
  have := load64_lt m a
  unfold W64 at *
  omega

theorem get_requested_size_set_requested_size (m : Mem) (a v : Nat) :
    get_requested_size (set_requested_size m a v) a = v % 65536 := by
  unfold get_requested_size set_requested_size
  rw [load64_store64_same]
  have := load64_lt m a
  unfold W64 at *
  omega

/-! ## Reading a field after a store to the same word, the address given up to equality -/

theorem get_block_size_set_block_size_at (m : Mem) (a v x : Nat) (h : x = a) :
    get_block_size (set_block_size m a v) x = v % 65536 := by
  rw [h]
  exact get_block_size_set_block_size m a v

theorem get_block_size_set_id_at (m : Mem) (a v x : Nat) (h : x = a) :
    get_block_size (set_id m a v) x = get_block_size m a := by
  rw [h]
  exact get_block_size_set_id m a v

theorem get_block_size_set_requested_size_at (m : Mem) (a v x : Nat) (h : x = a) :
    get_block_size (set_requested_size m a v) x = get_block_size m a := by
  rw [h]
  exact get_block_size_set_requested_size m a v

theorem get_id_set_block_size_at (m : Mem) (a v x : Nat) (h : x = a) :
    get_id (set_block_size m a v) x = get_id m a := by
  rw [h]
  exact get_id_set_block_size m a v

theorem get_id_set_id_at (m : Mem) (a v x : Nat) (h : x = a) :
    get_id (set_id m a v) x = v % 4294967296 := by
  rw [h]
  exact get_id_set_id m a v

theorem get_id_set_requested_size_at (m : Mem) (a v x : Nat) (h : x = a) :
    get_id (set_requested_size m a v) x = get_id m a := by
  rw [h]
  exact get_id_set_requested_size m a v

theorem get_requested_size_set_block_size_at (m : Mem) (a v x : Nat) (h : x = a) :
    get_requested_size (set_block_size m a v) x = get_requested_size m a := by
  rw [h]
  exact get_requested_size_set_block_size m a v

theorem get_requested_size_set_id_at (m : Mem) (a v x : Nat) (h : x = a) :
    get_requested_size (set_id m a v) x = get_requested_size m a := by
  rw [h]
  exact get_requested_size_set_id m a v

theorem get_requested_size_set_requested_size_at (m : Mem) (a v x : Nat) (h : x = a) :
    get_requested_size (set_requested_size m a v) x = v % 65536 := by
  rw [h]
  exact get_requested_size_set_requested_size m a v

theorem get_next_set_next_at (m : Mem) (a v x : Nat) (h : x = a) (hv : v < W64) :
    get_next (set_next m a v) x = v := by
  rw [h]
  exact get_next_set_next_same m a v hv

theorem get_prev_set_prev_at (m : Mem) (a v x : Nat) (h : x = a) (hv : v < W64) :
    get_prev (set_prev m a v) x = v := by
  rw [h]
  exact get_prev_set_prev_same m a v hv

/-! ## Reading a field after a guarded link store

The stores `if(p != NULL) p->next = v` and `if(p != NULL) p->prev = v` leave a word
unchanged when `p` is null or the word is not the one stored to. -/

theorem get_block_size_guard_set_next_off (m : Mem) (a v x : Nat) (h : a = NULL ∨ x + 8 ≤ a + 8 ∨ a + 16 ≤ x) :
    get_block_size (if a ≠ NULL then set_next m a v else m) x = get_block_size m x := by
  by_cases h0 : a ≠ NULL
  · rw [if_pos h0]
    exact get_block_size_set_next_off m a v x (h.resolve_left h0)
  · rw [if_neg h0]

theorem get_block_size_guard_set_prev_off (m : Mem) (a v x : Nat) (h : a = NULL ∨ x + 8 ≤ a + 16 ∨ a + 24 ≤ x) :
    get_block_size (if a ≠ NULL then set_prev m a v else m) x = get_block_size m x := by
  by_cases h0 : a ≠ NULL
  · rw [if_pos h0]
    exact get_block_size_set_prev_off m a v x (h.resolve_left h0)
  · rw [if_neg h0]

theorem get_id_guard_set_next_off (m : Mem) (a v x : Nat) (h : a = NULL ∨ x + 8 ≤ a + 8 ∨ a + 16 ≤ x) :
    get_id (if a ≠ NULL then set_next m a v else m) x = get_id m x := by
  by_cases h0 : a ≠ NULL
  · rw [if_pos h0]
    exact get_id_set_next_off m a v x (h.resolve_left h0)
  · rw [if_neg h0]

theorem get_id_guard_set_prev_off (m : Mem) (a v x : Nat) (h : a = NULL ∨ x + 8 ≤ a + 16 ∨ a + 24 ≤ x) :
    get_id (if a ≠ NULL then set_prev m a v else m) x = get_id m x := by
  by_cases h0 : a ≠ NULL
  · rw [if_pos h0]
    exact get_id_set_prev_off m a v x (h.resolve_left h0)
  · rw [if_neg h0]

theorem get_requested_size_guard_set_next_off (m : Mem) (a v x : Nat) (h : a = NULL ∨ x + 8 ≤ a + 8 ∨ a + 16 ≤ x) :
    get_requested_size (if a ≠ NULL then set_next m a v else m) x = get_requested_size m x := by
  by_cases h0 : a ≠ NULL
  · rw [if_pos h0]
    exact get_requested_size_set_next_off m a v x (h.resolve_left h0)
  · rw [if_neg h0]

theorem get_requested_size_guard_set_prev_off (m : Mem) (a v x : Nat) (h : a = NULL ∨ x + 8 ≤ a + 16 ∨ a + 24 ≤ x) :
    get_requested_size (if a ≠ NULL then set_prev m a v else m) x = get_requested_size m x := by
  by_cases h0 : a ≠ NULL
  · rw [if_pos h0]
    exact get_requested_size_set_prev_off m a v x (h.resolve_left h0)
  · rw [if_neg h0]

theorem get_next_guard_set_next_off (m : Mem) (a v x : Nat) (h : a = NULL ∨ x + 16 ≤ a + 8 ∨ a + 16 ≤ x + 8) :
    get_next (if a ≠ NULL then set_next m a v else m) x = get_next m x := by
  by_cases h0 : a ≠ NULL
  · rw [if_pos h0]
    exact get_next_set_next_off m a v x (h.resolve_left h0)
  · rw [if_neg h0]

theorem get_next_guard_set_prev_off (m : Mem) (a v x : Nat) (h : a = NULL ∨ x + 16 ≤ a + 16 ∨ a + 24 ≤ x + 8) :
    get_next (if a ≠ NULL then set_prev m a v else m) x = get_next m x := by
  by_cases h0 : a ≠ NULL
  · rw [if_pos h0]
    exact get_next_set_prev_off m a v x (h.resolve_left h0)
  · rw [if_neg h0]

theorem get_prev_guard_set_next_off (m : Mem) (a v x : Nat) (h : a = NULL ∨ x + 24 ≤ a + 8 ∨ a + 16 ≤ x + 16) :
    get_prev (if a ≠ NULL then set_next m a v else m) x = get_prev m x := by
  by_cases h0 : a ≠ NULL
  · rw [if_pos h0]
    exact get_prev_set_next_off m a v x (h.resolve_left h0)
  · rw [if_neg h0]

theorem get_prev_guard_set_prev_off (m : Mem) (a v x : Nat) (h : a = NULL ∨ x + 24 ≤ a + 16 ∨ a + 24 ≤ x + 16) :
    get_prev (if a ≠ NULL then set_prev m a v else m) x = get_prev m x := by
  by_cases h0 : a ≠ NULL
  · rw [if_pos h0]
    exact get_prev_set_prev_off m a v x (h.resolve_left h0)
  · rw [if_neg h0]

/-! ## The stores of `allocate` on a block of a well separated list -/

theorem get_next_ite (c : Prop) [Decidable c] (m1 m2 : Mem) (x : Nat) :
    get_next (if c then m1 else m2) x = if c then get_next m1 x else get_next m2 x := by
  by_cases h : c
  · rw [if_pos h, if_pos h]
  · rw [if_neg h, if_neg h]

theorem get_prev_ite (c : Prop) [Decidable c] (m1 m2 : Mem) (x : Nat) :
    get_prev (if c then m1 else m2) x = if c then get_prev m1 x else get_prev m2 x := by
  by_cases h : c
  · rw [if_pos h, if_pos h]
  · rw [if_neg h, if_neg h]

/-- Split branch: the stores in program order, with the values that the reads of
`block->prev` and `block->next` see.  `bk` is the block, `b` its size; the list
neighbours of `bk` are null or headers outside the extent of `bk`. -/
theorem allocate_split_mem_nf (s : State) (bk asize req b : Nat)
    (hw : bk + b < W64) (ha : 32 ≤ asize) (ha2 : asize % 2 = 0) (hab : asize + 32 ≤ b)
    (hb : b < 65536)
    (hP : get_prev s.mem bk = NULL ∨ get_prev s.mem bk + 32 ≤ bk ∨ bk + b ≤ get_prev s.mem bk)
    (hN : get_next s.mem bk = NULL ∨ get_next s.mem bk + 32 ≤ bk ∨ bk + b ≤ get_next s.mem bk) :
    allocate_split_mem s bk asize req b =
      set_requested_size (set_id (set_block_size
        (set_prev (set_next
          (if get_next s.mem bk ≠ NULL then
            set_prev
              (if get_prev s.mem bk ≠ NULL then
                set_next
                  (set_requested_size (set_id (set_block_size
                    (set_requested_size (set_id (set_block_size
                      (set_requested_size (set_block_size s.mem bk (asize + 1)) bk req)
                      (bk + asize - 8) (asize + 1)) (bk + asize - 8) FOOTER_MAGIC)
                      (bk + asize - 8) req)
                    (bk + asize) (b - asize)) (bk + asize) HEADER_MAGIC) (bk + asize) 0)
                  (get_prev s.mem bk) (bk + asize)
              else
                set_requested_size (set_id (set_block_size
                  (set_requested_size (set_id (set_block_size
                    (set_requested_size (set_block_size s.mem bk (asize + 1)) bk req)
                    (bk + asize - 8) (asize + 1)) (bk + asize - 8) FOOTER_MAGIC)
                    (bk + asize - 8) req)
                  (bk + asize) (b - asize)) (bk + asize) HEADER_MAGIC) (bk + asize) 0)
              (get_next s.mem bk) (bk + asize)
          else
            if get_prev s.mem bk ≠ NULL then
              set_next
                (set_requested_size (set_id (set_block_size
                  (set_requested_size (set_id (set_block_size
                    (set_requested_size (set_block_size s.mem bk (asize + 1)) bk req)
                    (bk + asize - 8) (asize + 1)) (bk + asize - 8) FOOTER_MAGIC)
                    (bk + asize - 8) req)
                  (bk + asize) (b - asize)) (bk + asize) HEADER_MAGIC) (bk + asize) 0)
                (get_prev s.mem bk) (bk + asize)
            else
              set_requested_size (set_id (set_block_size
                (set_requested_size (set_id (set_block_size
                  (set_requested_size (set_block_size s.mem bk (asize + 1)) bk req)
                  (bk + asize - 8) (asize + 1)) (bk + asize - 8) FOOTER_MAGIC)
                  (bk + asize - 8) req)
                (bk + asize) (b - asize)) (bk + asize) HEADER_MAGIC) (bk + asize) 0)
          (bk + asize) (get_next s.mem bk)) (bk + asize) (get_prev s.mem bk))
        (bk + b - 8) (b - asize)) (bk + b - 8) FOOTER_MAGIC) (bk + b - 8) 0 := by
  have e1 : padd bk asize = bk + asize := padd_eq _ _ (by omega)
  have e2 : psub (bk + asize) WSIZE = bk + asize - 8 :=
    psub_eq _ _ (by unfold WSIZE; omega) (by omega)
  have e3 : psub b asize = b - asize := psub_eq _ _ (by omega) (by unfold W64 at *; omega)
  have e4 : padd (bk + asize) (b - asize) = bk + b := by
    rw [padd_eq _ _ (by omega)]
    omega
  have e5 : psub (bk + b) WSIZE = bk + b - 8 := psub_eq _ _ (by unfold WSIZE; omega) (by omega)
  have e6 : (asize ||| 1) = asize + 1 := by
    rw [lor_one_eq]
    omega
  unfold allocate_split_mem
  simp only [split_alloc_tags, split_free_header, e1, e2, e3, e6]
  simp (disch := omega) only [split_relink_prev, get_block_size_set_block_size_off, get_block_size_set_id_off, get_block_size_set_requested_size_off, get_block_size_set_next_off, get_block_size_set_prev_off, get_id_set_block_size_off, get_id_set_id_off, get_id_set_requested_size_off, get_id_set_next_off, get_id_set_prev_off, get_requested_size_set_block_size_off, get_requested_size_set_id_off, get_requested_size_set_requested_size_off, get_requested_size_set_next_off, get_requested_size_set_prev_off, get_next_set_block_size_off, get_next_set_id_off, get_next_set_requested_size_off, get_next_set_next_off, get_next_set_prev_off, get_prev_set_block_size_off, get_prev_set_id_off, get_prev_set_requested_size_off, get_prev_set_next_off, get_prev_set_prev_off, get_block_size_set_block_size_at, get_block_size_set_id_at, get_block_size_set_requested_size_at, get_id_set_block_size_at, get_id_set_id_at, get_id_set_requested_size_at, get_requested_size_set_block_size_at, get_requested_size_set_id_at, get_requested_size_set_requested_size_at, get_next_set_next_at, get_prev_set_prev_at, get_block_size_guard_set_next_off, get_block_size_guard_set_prev_off, get_id_guard_set_next_off, get_id_guard_set_prev_off, get_requested_size_guard_set_next_off, get_requested_size_guard_set_prev_off, get_next_guard_set_next_off, get_next_guard_set_prev_off, get_prev_guard_set_next_off, get_prev_guard_set_prev_off]
  simp (disch := omega) only [split_relink_next, get_block_size_set_block_size_off, get_block_size_set_id_off, get_block_size_set_requested_size_off, get_block_size_set_next_off, get_block_size_set_prev_off, get_id_set_block_size_off, get_id_set_id_off, get_id_set_requested_size_off, get_id_set_next_off, get_id_set_prev_off, get_requested_size_set_block_size_off, get_requested_size_set_id_off, get_requested_size_set_requested_size_off, get_requested_size_set_next_off, get_requested_size_set_prev_off, get_next_set_block_size_off, get_next_set_id_off, get_next_set_requested_size_off, get_next_set_next_off, get_next_set_prev_off, get_prev_set_block_size_off, get_prev_set_id_off, get_prev_set_requested_size_off, get_prev_set_next_off, get_prev_set_prev_off, get_block_size_set_block_size_at, get_block_size_set_id_at, get_block_size_set_requested_size_at, get_id_set_block_size_at, get_id_set_id_at, get_id_set_requested_size_at, get_requested_size_set_block_size_at, get_requested_size_set_id_at, get_requested_size_set_requested_size_at, get_next_set_next_at, get_prev_set_prev_at, get_block_size_guard_set_next_off, get_block_size_guard_set_prev_off, get_id_guard_set_next_off, get_id_guard_set_prev_off, get_requested_size_guard_set_next_off, get_requested_size_guard_set_prev_off, get_next_guard_set_next_off, get_next_guard_set_prev_off, get_prev_guard_set_next_off, get_prev_guard_set_prev_off]
  simp (disch := omega) only [split_copy_next, split_copy_prev, get_block_size_set_block_size_off, get_block_size_set_id_off, get_block_size_set_requested_size_off, get_block_size_set_next_off, get_block_size_set_prev_off, get_id_set_block_size_off, get_id_set_id_off, get_id_set_requested_size_off, get_id_set_next_off, get_id_set_prev_off, get_requested_size_set_block_size_off, get_requested_size_set_id_off, get_requested_size_set_requested_size_off, get_requested_size_set_next_off, get_requested_size_set_prev_off, get_next_set_block_size_off, get_next_set_id_off, get_next_set_requested_size_off, get_next_set_next_off, get_next_set_prev_off, get_prev_set_block_size_off, get_prev_set_id_off, get_prev_set_requested_size_off, get_prev_set_next_off, get_prev_set_prev_off, get_block_size_set_block_size_at, get_block_size_set_id_at, get_block_size_set_requested_size_at, get_id_set_block_size_at, get_id_set_id_at, get_id_set_requested_size_at, get_requested_size_set_block_size_at, get_requested_size_set_id_at, get_requested_size_set_requested_size_at, get_next_set_next_at, get_prev_set_prev_at, get_block_size_guard_set_next_off, get_block_size_guard_set_prev_off, get_id_guard_set_next_off, get_id_guard_set_prev_off, get_requested_size_guard_set_next_off, get_requested_size_guard_set_prev_off, get_next_guard_set_next_off, get_next_guard_set_prev_off, get_prev_guard_set_next_off, get_prev_guard_set_prev_off]
  simp (disch := omega) only [split_free_footer, e4, e5]

/-- Split branch: the boundary tags after all stores. -/
theorem allocate_split_tags (s : State) (bk asize req b : Nat)
    (hw : bk + b < W64) (ha : 32 ≤ asize) (ha2 : asize % 2 = 0) (hab : asize + 32 ≤ b)
    (hb : b < 65536)
    (hP : get_prev s.mem bk = NULL ∨ get_prev s.mem bk + 32 ≤ bk ∨ bk + b ≤ get_prev s.mem bk)
    (hN : get_next s.mem bk = NULL ∨ get_next s.mem bk + 32 ≤ bk ∨ bk + b ≤ get_next s.mem bk) :
    get_block_size (allocate_split_mem s bk asize req b) bk = asize + 1 ∧
    get_requested_size (allocate_split_mem s bk asize req b) bk = req % 65536 ∧
    get_id (allocate_split_mem s bk asize req b) bk = get_id s.mem bk ∧
    get_block_size (allocate_split_mem s bk asize req b) (bk + asize - 8) = asize + 1 ∧
    get_requested_size (allocate_split_mem s bk asize req b) (bk + asize - 8) = req % 65536 ∧
    get_id (allocate_split_mem s bk asize req b) (bk + asize - 8) = FOOTER_MAGIC ∧
    get_block_size (allocate_split_mem s bk asize req b) (bk + asize) = b - asize ∧
    get_requested_size (allocate_split_mem s bk asize req b) (bk + asize) = 0 ∧
    get_id (allocate_split_mem s bk asize req b) (bk + asize) = HEADER_MAGIC ∧
    get_block_size (allocate_split_mem s bk asize req b) (bk + b - 8) = b - asize ∧
    get_requested_size (allocate_split_mem s bk asize req b) (bk + b - 8) = 0 ∧
    get_id (allocate_split_mem s bk asize req b) (bk + b - 8) = FOOTER_MAGIC := by
  have e7 : FOOTER_MAGIC % 4294967296 = FOOTER_MAGIC := by decide
  have e8 : HEADER_MAGIC % 4294967296 = HEADER_MAGIC := by decide
  rw [allocate_split_mem_nf s bk asize req b hw ha ha2 hab hb hP hN]
  simp (disch := omega) only [get_block_size_set_block_size_off, get_block_size_set_id_off, get_block_size_set_requested_size_off, get_block_size_set_next_off, get_block_size_set_prev_off, get_id_set_block_size_off, get_id_set_id_off, get_id_set_requested_size_off, get_id_set_next_off, get_id_set_prev_off, get_requested_size_set_block_size_off, get_requested_size_set_id_off, get_requested_size_set_requested_size_off, get_requested_size_set_next_off, get_requested_size_set_prev_off, get_next_set_block_size_off, get_next_set_id_off, get_next_set_requested_size_off, get_next_set_next_off, get_next_set_prev_off, get_prev_set_block_size_off, get_prev_set_id_off, get_prev_set_requested_size_off, get_prev_set_next_off, get_prev_set_prev_off, get_block_size_set_block_size_at, get_block_size_set_id_at, get_block_size_set_requested_size_at, get_id_set_block_size_at, get_id_set_id_at, get_id_set_requested_size_at, get_requested_size_set_block_size_at, get_requested_size_set_id_at, get_requested_size_set_requested_size_at, get_next_set_next_at, get_prev_set_prev_at, get_block_size_guard_set_next_off, get_block_size_guard_set_prev_off, get_id_guard_set_next_off, get_id_guard_set_prev_off, get_requested_size_guard_set_next_off, get_requested_size_guard_set_prev_off, get_next_guard_set_next_off, get_next_guard_set_prev_off, get_prev_guard_set_next_off, get_prev_guard_set_prev_off, Nat.mod_eq_of_lt, e7, e8, and_self, Nat.zero_mod]

/-- Split branch: the link fields of the new free header after all stores are
those of the original block. -/
theorem allocate_split_own_links (s : State) (bk asize req b : Nat)
    (hw : bk + b < W64) (ha : 32 ≤ asize) (ha2 : asize % 2 = 0) (hab : asize + 32 ≤ b)
    (hb : b < 65536)
    (hP : get_prev s.mem bk = NULL ∨ get_prev s.mem bk + 32 ≤ bk ∨ bk + b ≤ get_prev s.mem bk)
    (hN : get_next s.mem bk = NULL ∨ get_next s.mem bk + 32 ≤ bk ∨ bk + b ≤ get_next s.mem bk) :
    get_next (allocate_split_mem s bk asize req b) (bk + asize) = get_next s.mem bk ∧
    get_prev (allocate_split_mem s bk asize req b) (bk + asize) = get_prev s.mem bk := by
  have hPW : get_prev s.mem bk < W64 := load64_lt _ _
  have hNW : get_next s.mem bk < W64 := load64_lt _ _
  rw [allocate_split_mem_nf s bk asize req b hw ha ha2 hab hb hP hN]
  simp (disch := omega) only [get_block_size_set_block_size_off, get_block_size_set_id_off, get_block_size_set_requested_size_off, get_block_size_set_next_off, get_block_size_set_prev_off, get_id_set_block_size_off, get_id_set_id_off, get_id_set_requested_size_off, get_id_set_next_off, get_id_set_prev_off, get_requested_size_set_block_size_off, get_requested_size_set_id_off, get_requested_size_set_requested_size_off, get_requested_size_set_next_off, get_requested_size_set_prev_off, get_next_set_block_size_off, get_next_set_id_off, get_next_set_requested_size_off, get_next_set_next_off, get_next_set_prev_off, get_prev_set_block_size_off, get_prev_set_id_off, get_prev_set_requested_size_off, get_prev_set_next_off, get_prev_set_prev_off, get_block_size_set_block_size_at, get_block_size_set_id_at, get_block_size_set_requested_size_at, get_id_set_block_size_at, get_id_set_id_at, get_id_set_requested_size_at, get_requested_size_set_block_size_at, get_requested_size_set_id_at, get_requested_size_set_requested_size_at, get_next_set_next_at, get_prev_set_prev_at, get_block_size_guard_set_next_off, get_block_size_guard_set_prev_off, get_id_guard_set_next_off, get_id_guard_set_prev_off, get_requested_size_guard_set_next_off, get_requested_size_guard_set_prev_off, get_next_guard_set_next_off, get_next_guard_set_prev_off, get_prev_guard_set_next_off, get_prev_guard_set_prev_off, and_self]


/-- Split branch: the link fields of a header outside the block after all stores:
the `next` of the predecessor and the `prev` of the successor are the new free
header, every other link is unchanged. -/
theorem allocate_split_links (s : State) (bk asize req b x : Nat)
    (hw : bk + b < W64) (ha : 32 ≤ asize) (ha2 : asize % 2 = 0) (hab : asize + 32 ≤ b)
    (hb : b < 65536)
    (hP : get_prev s.mem bk = NULL ∨ get_prev s.mem bk + 32 ≤ bk ∨ bk + b ≤ get_prev s.mem bk)
    (hN : get_next s.mem bk = NULL ∨ get_next s.mem bk + 32 ≤ bk ∨ bk + b ≤ get_next s.mem bk)
    (hx : x + 32 ≤ bk ∨ bk + b ≤ x)
    (hxP : x = get_prev s.mem bk ∨ get_prev s.mem bk = NULL ∨ x + 32 ≤ get_prev s.mem bk ∨
      get_prev s.mem bk + 32 ≤ x)
    (hxN : x = get_next s.mem bk ∨ get_next s.mem bk = NULL ∨ x + 32 ≤ get_next s.mem bk ∨
      get_next s.mem bk + 32 ≤ x) :
    get_next (allocate_split_mem s bk asize req b) x =
      (if get_prev s.mem bk ≠ NULL ∧ x = get_prev s.mem bk then bk + asize
        else get_next s.mem x) ∧
    get_prev (allocate_split_mem s bk asize req b) x =
      (if get_next s.mem bk ≠ NULL ∧ x = get_next s.mem bk then bk + asize
        else get_prev s.mem x) := by
  have hnfW : bk + asize < W64 := by omega
  rw [allocate_split_mem_nf s bk asize req b hw ha ha2 hab hb hP hN]
  clear hP hN
  constructor
  · by_cases h1 : get_prev s.mem bk ≠ NULL ∧ x = get_prev s.mem bk
    · rw [if_pos h1]
      obtain ⟨h0, h2⟩ := h1
      clear hxP
      simp (disch := omega) only [get_block_size_set_block_size_off, get_block_size_set_id_off, get_block_size_set_requested_size_off, get_block_size_set_next_off, get_block_size_set_prev_off, get_id_set_block_size_off, get_id_set_id_off, get_id_set_requested_size_off, get_id_set_next_off, get_id_set_prev_off, get_requested_size_set_block_size_off, get_requested_size_set_id_off, get_requested_size_set_requested_size_off, get_requested_size_set_next_off, get_requested_size_set_prev_off, get_next_set_block_size_off, get_next_set_id_off, get_next_set_requested_size_off, get_next_set_next_off, get_next_set_prev_off, get_prev_set_block_size_off, get_prev_set_id_off, get_prev_set_requested_size_off, get_prev_set_next_off, get_prev_set_prev_off, get_block_size_set_block_size_at, get_block_size_set_id_at, get_block_size_set_requested_size_at, get_id_set_block_size_at, get_id_set_id_at, get_id_set_requested_size_at, get_requested_size_set_block_size_at, get_requested_size_set_id_at, get_requested_size_set_requested_size_at, get_next_set_next_at, get_prev_set_prev_at, get_block_size_guard_set_next_off, get_block_size_guard_set_prev_off, get_id_guard_set_next_off, get_id_guard_set_prev_off, get_requested_size_guard_set_next_off, get_requested_size_guard_set_prev_off, get_next_guard_set_next_off, get_next_guard_set_prev_off, get_prev_guard_set_next_off, get_prev_guard_set_prev_off, if_pos h0]
    · rw [if_neg h1]
      have h3 : get_prev s.mem bk = NULL ∨ x + 32 ≤ get_prev s.mem bk ∨
          get_prev s.mem bk + 32 ≤ x := by omega
      clear hxP h1
      simp (disch := omega) only [get_block_size_set_block_size_off, get_block_size_set_id_off, get_block_size_set_requested_size_off, get_block_size_set_next_off, get_block_size_set_prev_off, get_id_set_block_size_off, get_id_set_id_off, get_id_set_requested_size_off, get_id_set_next_off, get_id_set_prev_off, get_requested_size_set_block_size_off, get_requested_size_set_id_off, get_requested_size_set_requested_size_off, get_requested_size_set_next_off, get_requested_size_set_prev_off, get_next_set_block_size_off, get_next_set_id_off, get_next_set_requested_size_off, get_next_set_next_off, get_next_set_prev_off, get_prev_set_block_size_off, get_prev_set_id_off, get_prev_set_requested_size_off, get_prev_set_next_off, get_prev_set_prev_off, get_block_size_set_block_size_at, get_block_size_set_id_at, get_block_size_set_requested_size_at, get_id_set_block_size_at, get_id_set_id_at, get_id_set_requested_size_at, get_requested_size_set_block_size_at, get_requested_size_set_id_at, get_requested_size_set_requested_size_at, get_next_set_next_at, get_prev_set_prev_at, get_block_size_guard_set_next_off, get_block_size_guard_set_prev_off, get_id_guard_set_next_off, get_id_guard_set_prev_off, get_requested_size_guard_set_next_off, get_requested_size_guard_set_prev_off, get_next_guard_set_next_off, get_next_guard_set_prev_off, get_prev_guard_set_next_off, get_prev_guard_set_prev_off]
  · by_cases h1 : get_next s.mem bk ≠ NULL ∧ x = get_next s.mem bk
    · rw [if_pos h1]
      obtain ⟨h0, h2⟩ := h1
      clear hxN
      simp (disch := omega) only [get_block_size_set_block_size_off, get_block_size_set_id_off, get_block_size_set_requested_size_off, get_block_size_set_next_off, get_block_size_set_prev_off, get_id_set_block_size_off, get_id_set_id_off, get_id_set_requested_size_off, get_id_set_next_off, get_id_set_prev_off, get_requested_size_set_block_size_off, get_requested_size_set_id_off, get_requested_size_set_requested_size_off, get_requested_size_set_next_off, get_requested_size_set_prev_off, get_next_set_block_size_off, get_next_set_id_off, get_next_set_requested_size_off, get_next_set_next_off, get_next_set_prev_off, get_prev_set_block_size_off, get_prev_set_id_off, get_prev_set_requested_size_off, get_prev_set_next_off, get_prev_set_prev_off, get_block_size_set_block_size_at, get_block_size_set_id_at, get_block_size_set_requested_size_at, get_id_set_block_size_at, get_id_set_id_at, get_id_set_requested_size_at, get_requested_size_set_block_size_at, get_requested_size_set_id_at, get_requested_size_set_requested_size_at, get_next_set_next_at, get_prev_set_prev_at, get_block_size_guard_set_next_off, get_block_size_guard_set_prev_off, get_id_guard_set_next_off, get_id_guard_set_prev_off, get_requested_size_guard_set_next_off, get_requested_size_guard_set_prev_off, get_next_guard_set_next_off, get_next_guard_set_prev_off, get_prev_guard_set_next_off, get_prev_guard_set_prev_off, if_pos h0]
    · rw [if_neg h1]
      have h3 : get_next s.mem bk = NULL ∨ x + 32 ≤ get_next s.mem bk ∨
          get_next s.mem bk + 32 ≤ x := by omega
      clear hxN h1
      simp (disch := omega) only [get_block_size_set_block_size_off, get_block_size_set_id_off, get_block_size_set_requested_size_off, get_block_size_set_next_off, get_block_size_set_prev_off, get_id_set_block_size_off, get_id_set_id_off, get_id_set_requested_size_off, get_id_set_next_off, get_id_set_prev_off, get_requested_size_set_block_size_off, get_requested_size_set_id_off, get_requested_size_set_requested_size_off, get_requested_size_set_next_off, get_requested_size_set_prev_off, get_next_set_block_size_off, get_next_set_id_off, get_next_set_requested_size_off, get_next_set_next_off, get_next_set_prev_off, get_prev_set_block_size_off, get_prev_set_id_off, get_prev_set_requested_size_off, get_prev_set_next_off, get_prev_set_prev_off, get_block_size_set_block_size_at, get_block_size_set_id_at, get_block_size_set_requested_size_at, get_id_set_block_size_at, get_id_set_id_at, get_id_set_requested_size_at, get_requested_size_set_block_size_at, get_requested_size_set_id_at, get_requested_size_set_requested_size_at, get_next_set_next_at, get_prev_set_prev_at, get_block_size_guard_set_next_off, get_block_size_guard_set_prev_off, get_id_guard_set_next_off, get_id_guard_set_prev_off, get_requested_size_guard_set_next_off, get_requested_size_guard_set_prev_off, get_next_guard_set_next_off, get_next_guard_set_prev_off, get_prev_guard_set_next_off, get_prev_guard_set_prev_off]

/-- No-split branch: the stores up to the unlinking, with the values that the
reads of `block->prev` and `block->next` see. -/
theorem allocate_nosplit_unlink_nf (s : State) (bk req b : Nat)
    (hP : get_prev s.mem bk = NULL ∨ get_prev s.mem bk + 32 ≤ bk ∨ bk + 32 ≤ get_prev s.mem bk) :
    allocate_nosplit_unlink s bk req b =
      (if get_next s.mem bk ≠ NULL then
        set_prev
          (if get_prev s.mem bk ≠ NULL then
            set_next (set_requested_size (set_block_size s.mem bk (b ||| 1)) bk req)
              (get_prev s.mem bk) (get_next s.mem bk)
          else set_requested_size (set_block_size s.mem bk (b ||| 1)) bk req)
          (get_next s.mem bk) (get_prev s.mem bk)
      else
        if get_prev s.mem bk ≠ NULL then
          set_next (set_requested_size (set_block_size s.mem bk (b ||| 1)) bk req)
            (get_prev s.mem bk) (get_next s.mem bk)
        else set_requested_size (set_block_size s.mem bk (b ||| 1)) bk req) := by
  unfold allocate_nosplit_unlink
  simp only [nosplit_header]
  simp (disch := omega) only [nosplit_unlink_prev, get_block_size_set_block_size_off, get_block_size_set_id_off, get_block_size_set_requested_size_off, get_block_size_set_next_off, get_block_size_set_prev_off, get_id_set_block_size_off, get_id_set_id_off, get_id_set_requested_size_off, get_id_set_next_off, get_id_set_prev_off, get_requested_size_set_block_size_off, get_requested_size_set_id_off, get_requested_size_set_requested_size_off, get_requested_size_set_next_off, get_requested_size_set_prev_off, get_next_set_block_size_off, get_next_set_id_off, get_next_set_requested_size_off, get_next_set_next_off, get_next_set_prev_off, get_prev_set_block_size_off, get_prev_set_id_off, get_prev_set_requested_size_off, get_prev_set_next_off, get_prev_set_prev_off, get_block_size_set_block_size_at, get_block_size_set_id_at, get_block_size_set_requested_size_at, get_id_set_block_size_at, get_id_set_id_at, get_id_set_requested_size_at, get_requested_size_set_block_size_at, get_requested_size_set_id_at, get_requested_size_set_requested_size_at, get_next_set_next_at, get_prev_set_prev_at, get_block_size_guard_set_next_off, get_block_size_guard_set_prev_off, get_id_guard_set_next_off, get_id_guard_set_prev_off, get_requested_size_guard_set_next_off, get_requested_size_guard_set_prev_off, get_next_guard_set_next_off, get_next_guard_set_prev_off, get_prev_guard_set_next_off, get_prev_guard_set_prev_off]
  simp (disch := omega) only [nosplit_unlink_next, get_block_size_set_block_size_off, get_block_size_set_id_off, get_block_size_set_requested_size_off, get_block_size_set_next_off, get_block_size_set_prev_off, get_id_set_block_size_off, get_id_set_id_off, get_id_set_requested_size_off, get_id_set_next_off, get_id_set_prev_off, get_requested_size_set_block_size_off, get_requested_size_set_id_off, get_requested_size_set_requested_size_off, get_requested_size_set_next_off, get_requested_size_set_prev_off, get_next_set_block_size_off, get_next_set_id_off, get_next_set_requested_size_off, get_next_set_next_off, get_next_set_prev_off, get_prev_set_block_size_off, get_prev_set_id_off, get_prev_set_requested_size_off, get_prev_set_next_off, get_prev_set_prev_off, get_block_size_set_block_size_at, get_block_size_set_id_at, get_block_size_set_requested_size_at, get_id_set_block_size_at, get_id_set_id_at, get_id_set_requested_size_at, get_requested_size_set_block_size_at, get_requested_size_set_id_at, get_requested_size_set_requested_size_at, get_next_set_next_at, get_prev_set_prev_at, get_block_size_guard_set_next_off, get_block_size_guard_set_prev_off, get_id_guard_set_next_off, get_id_guard_set_prev_off, get_requested_size_guard_set_next_off, get_requested_size_guard_set_prev_off, get_next_guard_set_next_off, get_next_guard_set_prev_off, get_prev_guard_set_next_off, get_prev_guard_set_prev_off]

/-- No-split branch: the `next` field of the block as read after the unlinking. -/
theorem allocate_nosplit_seen_next (s : State) (bk req b : Nat)
    (hP : get_prev s.mem bk = NULL ∨ get_prev s.mem bk + 32 ≤ bk ∨ bk + 32 ≤ get_prev s.mem bk)
    (hN : get_next s.mem bk = NULL ∨ get_next s.mem bk + 32 ≤ bk ∨ bk + 32 ≤ get_next s.mem bk) :
    get_next (allocate_nosplit_unlink s bk req b) bk = get_next s.mem bk := by
  rw [allocate_nosplit_unlink_nf s bk req b hP]
  simp (disch := omega) only [get_block_size_set_block_size_off, get_block_size_set_id_off, get_block_size_set_requested_size_off, get_block_size_set_next_off, get_block_size_set_prev_off, get_id_set_block_size_off, get_id_set_id_off, get_id_set_requested_size_off, get_id_set_next_off, get_id_set_prev_off, get_requested_size_set_block_size_off, get_requested_size_set_id_off, get_requested_size_set_requested_size_off, get_requested_size_set_next_off, get_requested_size_set_prev_off, get_next_set_block_size_off, get_next_set_id_off, get_next_set_requested_size_off, get_next_set_next_off, get_next_set_prev_off, get_prev_set_block_size_off, get_prev_set_id_off, get_prev_set_requested_size_off, get_prev_set_next_off, get_prev_set_prev_off, get_block_size_set_block_size_at, get_block_size_set_id_at, get_block_size_set_requested_size_at, get_id_set_block_size_at, get_id_set_id_at, get_id_set_requested_size_at, get_requested_size_set_block_size_at, get_requested_size_set_id_at, get_requested_size_set_requested_size_at, get_next_set_next_at, get_prev_set_prev_at, get_block_size_guard_set_next_off, get_block_size_guard_set_prev_off, get_id_guard_set_next_off, get_id_guard_set_prev_off, get_requested_size_guard_set_next_off, get_requested_size_guard_set_prev_off, get_next_guard_set_next_off, get_next_guard_set_prev_off, get_prev_guard_set_next_off, get_prev_guard_set_prev_off]

/-- No-split branch: the boundary tags after all stores. -/
theorem allocate_nosplit_tags (s : State) (bk req b : Nat)
    (hw : bk + b < W64) (hb32 : 32 ≤ b) (hb2 : b % 2 = 0) (hb : b < 65536)
    (hP : get_prev s.mem bk = NULL ∨ get_prev s.mem bk + 32 ≤ bk ∨ bk + b ≤ get_prev s.mem bk)
    (hN : get_next s.mem bk = NULL ∨ get_next s.mem bk + 32 ≤ bk ∨ bk + b ≤ get_next s.mem bk) :
    get_block_size (allocate_nosplit_mem s bk req b) bk = b + 1 ∧
    get_requested_size (allocate_nosplit_mem s bk req b) bk = req % 65536 ∧
    get_id (allocate_nosplit_mem s bk req b) bk = get_id s.mem bk ∧
    get_block_size (allocate_nosplit_mem s bk req b) (bk + b - 8) = b + 1 ∧
    get_requested_size (allocate_nosplit_mem s bk req b) (bk + b - 8) = req % 65536 ∧
    get_id (allocate_nosplit_mem s bk req b) (bk + b - 8) = get_id s.mem (bk + b - 8) := by
  have e1 : psub (padd bk b) WSIZE = bk + b - 8 := by
    rw [padd_eq _ _ hw]
    exact psub_eq _ _ (by unfold WSIZE; omega) hw
  have e6 : (b ||| 1) = b + 1 := by
    rw [lor_one_eq]
    omega
  unfold allocate_nosplit_mem
  rw [allocate_nosplit_unlink_nf s bk req b (by omega)]
  simp only [nosplit_footer, e1, e6]
  simp (disch := omega) only [get_block_size_set_block_size_off, get_block_size_set_id_off, get_block_size_set_requested_size_off, get_block_size_set_next_off, get_block_size_set_prev_off, get_id_set_block_size_off, get_id_set_id_off, get_id_set_requested_size_off, get_id_set_next_off, get_id_set_prev_off, get_requested_size_set_block_size_off, get_requested_size_set_id_off, get_requested_size_set_requested_size_off, get_requested_size_set_next_off, get_requested_size_set_prev_off, get_next_set_block_size_off, get_next_set_id_off, get_next_set_requested_size_off, get_next_set_next_off, get_next_set_prev_off, get_prev_set_block_size_off, get_prev_set_id_off, get_prev_set_requested_size_off, get_prev_set_next_off, get_prev_set_prev_off, get_block_size_set_block_size_at, get_block_size_set_id_at, get_block_size_set_requested_size_at, get_id_set_block_size_at, get_id_set_id_at, get_id_set_requested_size_at, get_requested_size_set_block_size_at, get_requested_size_set_id_at, get_requested_size_set_requested_size_at, get_next_set_next_at, get_prev_set_prev_at, get_block_size_guard_set_next_off, get_block_size_guard_set_prev_off, get_id_guard_set_next_off, get_id_guard_set_prev_off, get_requested_size_guard_set_next_off, get_requested_size_guard_set_prev_off, get_next_guard_set_next_off, get_next_guard_set_prev_off, get_prev_guard_set_next_off, get_prev_guard_set_prev_off, Nat.mod_eq_of_lt, and_self]

/-- No-split branch: the link fields of a header outside the block after all
stores: the predecessor's `next` is the block's `next`, the successor's `prev` is
the block's `prev`, every other link is unchanged. -/
theorem allocate_nosplit_links (s : State) (bk req b x : Nat)
    (hw : bk + b < W64) (hb32 : 32 ≤ b)
    (hP : get_prev s.mem bk = NULL ∨ get_prev s.mem bk + 32 ≤ bk ∨ bk + b ≤ get_prev s.mem bk)
    (hx : x + 32 ≤ bk ∨ bk + b ≤ x)
    (hxP : x = get_prev s.mem bk ∨ get_prev s.mem bk = NULL ∨ x + 32 ≤ get_prev s.mem bk ∨
      get_prev s.mem bk + 32 ≤ x)
    (hxN : x = get_next s.mem bk ∨ get_next s.mem bk = NULL ∨ x + 32 ≤ get_next s.mem bk ∨
      get_next s.mem bk + 32 ≤ x) :
    get_next (allocate_nosplit_mem s bk req b) x =
      (if get_prev s.mem bk ≠ NULL ∧ x = get_prev s.mem bk then get_next s.mem bk
        else get_next s.mem x) ∧
    get_prev (allocate_nosplit_mem s bk req b) x =
      (if get_next s.mem bk ≠ NULL ∧ x = get_next s.mem bk then get_prev s.mem bk
        else get_prev s.mem x) := by
  have hPW : get_prev s.mem bk < W64 := load64_lt _ _
  have hNW : get_next s.mem bk < W64 := load64_lt _ _
  have e1 : psub (padd bk b) WSIZE = bk + b - 8 := by
    rw [padd_eq _ _ hw]
    exact psub_eq _ _ (by unfold WSIZE; omega) hw
  unfold allocate_nosplit_mem
  rw [allocate_nosplit_unlink_nf s bk req b (by omega)]
  simp only [nosplit_footer, e1]
  clear hP
  constructor
  · by_cases h1 : get_prev s.mem bk ≠ NULL ∧ x = get_prev s.mem bk
    · rw [if_pos h1]
      obtain ⟨h0, h2⟩ := h1
      clear hxP
      simp (disch := omega) only [get_block_size_set_block_size_off, get_block_size_set_id_off, get_block_size_set_requested_size_off, get_block_size_set_next_off, get_block_size_set_prev_off, get_id_set_block_size_off, get_id_set_id_off, get_id_set_requested_size_off, get_id_set_next_off, get_id_set_prev_off, get_requested_size_set_block_size_off, get_requested_size_set_id_off, get_requested_size_set_requested_size_off, get_requested_size_set_next_off, get_requested_size_set_prev_off, get_next_set_block_size_off, get_next_set_id_off, get_next_set_requested_size_off, get_next_set_next_off, get_next_set_prev_off, get_prev_set_block_size_off, get_prev_set_id_off, get_prev_set_requested_size_off, get_prev_set_next_off, get_prev_set_prev_off, get_block_size_set_block_size_at, get_block_size_set_id_at, get_block_size_set_requested_size_at, get_id_set_block_size_at, get_id_set_id_at, get_id_set_requested_size_at, get_requested_size_set_block_size_at, get_requested_size_set_id_at, get_requested_size_set_requested_size_at, get_next_set_next_at, get_prev_set_prev_at, get_block_size_guard_set_next_off, get_block_size_guard_set_prev_off, get_id_guard_set_next_off, get_id_guard_set_prev_off, get_requested_size_guard_set_next_off, get_requested_size_guard_set_prev_off, get_next_guard_set_next_off, get_next_guard_set_prev_off, get_prev_guard_set_next_off, get_prev_guard_set_prev_off, if_pos h0]
    · rw [if_neg h1]
      have h3 : get_prev s.mem bk = NULL ∨ x + 32 ≤ get_prev s.mem bk ∨
          get_prev s.mem bk + 32 ≤ x := by omega
      clear hxP h1
      simp (disch := omega) only [get_block_size_set_block_size_off, get_block_size_set_id_off, get_block_size_set_requested_size_off, get_block_size_set_next_off, get_block_size_set_prev_off, get_id_set_block_size_off, get_id_set_id_off, get_id_set_requested_size_off, get_id_set_next_off, get_id_set_prev_off, get_requested_size_set_block_size_off, get_requested_size_set_id_off, get_requested_size_set_requested_size_off, get_requested_size_set_next_off, get_requested_size_set_prev_off, get_next_set_block_size_off, get_next_set_id_off, get_next_set_requested_size_off, get_next_set_next_off, get_next_set_prev_off, get_prev_set_block_size_off, get_prev_set_id_off, get_prev_set_requested_size_off, get_prev_set_next_off, get_prev_set_prev_off, get_block_size_set_block_size_at, get_block_size_set_id_at, get_block_size_set_requested_size_at, get_id_set_block_size_at, get_id_set_id_at, get_id_set_requested_size_at, get_requested_size_set_block_size_at, get_requested_size_set_id_at, get_requested_size_set_requested_size_at, get_next_set_next_at, get_prev_set_prev_at, get_block_size_guard_set_next_off, get_block_size_guard_set_prev_off, get_id_guard_set_next_off, get_id_guard_set_prev_off, get_requested_size_guard_set_next_off, get_requested_size_guard_set_prev_off, get_next_guard_set_next_off, get_next_guard_set_prev_off, get_prev_guard_set_next_off, get_prev_guard_set_prev_off]
  · by_cases h1 : get_next s.mem bk ≠ NULL ∧ x = get_next s.mem bk
    · rw [if_pos h1]
      obtain ⟨h0, h2⟩ := h1
      clear hxN
      simp (disch := omega) only [get_block_size_set_block_size_off, get_block_size_set_id_off, get_block_size_set_requested_size_off, get_block_size_set_next_off, get_block_size_set_prev_off, get_id_set_block_size_off, get_id_set_id_off, get_id_set_requested_size_off, get_id_set_next_off, get_id_set_prev_off, get_requested_size_set_block_size_off, get_requested_size_set_id_off, get_requested_size_set_requested_size_off, get_requested_size_set_next_off, get_requested_size_set_prev_off, get_next_set_block_size_off, get_next_set_id_off, get_next_set_requested_size_off, get_next_set_next_off, get_next_set_prev_off, get_prev_set_block_size_off, get_prev_set_id_off, get_prev_set_requested_size_off, get_prev_set_next_off, get_prev_set_prev_off, get_block_size_set_block_size_at, get_block_size_set_id_at, get_block_size_set_requested_size_at, get_id_set_block_size_at, get_id_set_id_at, get_id_set_requested_size_at, get_requested_size_set_block_size_at, get_requested_size_set_id_at, get_requested_size_set_requested_size_at, get_next_set_next_at, get_prev_set_prev_at, get_block_size_guard_set_next_off, get_block_size_guard_set_prev_off, get_id_guard_set_next_off, get_id_guard_set_prev_off, get_requested_size_guard_set_next_off, get_requested_size_guard_set_prev_off, get_next_guard_set_next_off, get_next_guard_set_prev_off, get_prev_guard_set_next_off, get_prev_guard_set_prev_off, if_pos h0]
    · rw [if_neg h1]
      have h3 : get_next s.mem bk = NULL ∨ x + 32 ≤ get_next s.mem bk ∨
          get_next s.mem bk + 32 ≤ x := by omega
      clear hxN h1
      simp (disch := omega) only [get_block_size_set_block_size_off, get_block_size_set_id_off, get_block_size_set_requested_size_off, get_block_size_set_next_off, get_block_size_set_prev_off, get_id_set_block_size_off, get_id_set_id_off, get_id_set_requested_size_off, get_id_set_next_off, get_id_set_prev_off, get_requested_size_set_block_size_off, get_requested_size_set_id_off, get_requested_size_set_requested_size_off, get_requested_size_set_next_off, get_requested_size_set_prev_off, get_next_set_block_size_off, get_next_set_id_off, get_next_set_requested_size_off, get_next_set_next_off, get_next_set_prev_off, get_prev_set_block_size_off, get_prev_set_id_off, get_prev_set_requested_size_off, get_prev_set_next_off, get_prev_set_prev_off, get_block_size_set_block_size_at, get_block_size_set_id_at, get_block_size_set_requested_size_at, get_id_set_block_size_at, get_id_set_id_at, get_id_set_requested_size_at, get_requested_size_set_block_size_at, get_requested_size_set_id_at, get_requested_size_set_requested_size_at, get_next_set_next_at, get_prev_set_prev_at, get_block_size_guard_set_next_off, get_block_size_guard_set_prev_off, get_id_guard_set_next_off, get_id_guard_set_prev_off, get_requested_size_guard_set_next_off, get_requested_size_guard_set_prev_off, get_next_guard_set_next_off, get_next_guard_set_prev_off, get_prev_guard_set_next_off, get_prev_guard_set_prev_off]

/-! ## Replacing and removing a node of a chain -/

/-- The neighbours of a node inside a chain: its `prev` is the last node before it
(null if none) and its `next` the first node after it (null if none). -/
theorem is_segment_mid (m : Mem) (l1 l2 : List Nat) (bk : Nat)
    (h : is_segment m NULL (l1 ++ bk :: l2) NULL) :
    is_segment m NULL l1 bk ∧ bk ≠ NULL ∧ get_prev m bk = l1.getLastD NULL ∧
      get_next m bk = l2.headD NULL ∧ is_segment m bk l2 NULL :=
  (is_segment_append m l1 (bk :: l2) NULL NULL).mp h

/-- A chain whose links around the node `bk` are redirected to `nf`, and whose
node `nf` has the links of `bk`, is the chain with `nf` in the place of `bk`. -/
theorem is_segment_replace (m M : Mem) (l1 l2 : List Nat) (bk nf : Nat)
    (h : is_segment m NULL (l1 ++ bk :: l2) NULL) (hnd : (l1 ++ bk :: l2).Nodup)
    (hnf0 : nf ≠ NULL)
    (hNx : ∀ x ∈ l1 ++ l2, get_next M x =
      if get_prev m bk ≠ NULL ∧ x = get_prev m bk then nf else get_next m x)
    (hPx : ∀ x ∈ l1 ++ l2, get_prev M x =
      if get_next m bk ≠ NULL ∧ x = get_next m bk then nf else get_prev m x)
    (hown : get_next M nf = get_next m bk ∧ get_prev M nf = get_prev m bk) :
    is_segment M NULL (l1 ++ nf :: l2) NULL := by
  obtain ⟨h1, _, hP, hN, h2⟩ := is_segment_mid m l1 l2 bk h
  obtain ⟨nd1, nd2, nd12⟩ := List.nodup_append.mp hnd
  have nd12b : ∀ x ∈ l1, x ∉ l2 := fun x hx hx2 => nd12 hx (List.mem_cons_of_mem bk hx2)
  rw [is_segment_append, is_segment_cons]
  refine ⟨?_, hnf0, hown.2.trans hP, hown.1.trans hN, ?_⟩
  · rcases list_nil_or_snoc l1 with rfl | ⟨l0, z, rfl⟩
    · trivial
    · have hz : get_prev m bk = z := by rw [hP]; simp
      obtain ⟨h1a, hz0, hzp, _, _⟩ := (is_segment_append m l0 [z] NULL _).mp h1
      have hzN : ¬ (get_next m bk ≠ NULL ∧ z = get_next m bk) := by
        rintro ⟨hne, he⟩
        have : z ∈ l2 := by
          cases l2 with
          | nil => exact absurd hN hne
          | cons d t => rw [he, hN]; simp
        exact nd12b z (by simp) this
      rw [is_segment_append, is_segment_cons]
      refine ⟨?_, hz0, ?_, ?_, trivial⟩
      · refine (is_segment_congr m M l0 NULL _ ?_).mpr h1a
        intro x hx
        have hxz : x ≠ z := by
          rintro rfl
          have := (List.nodup_append.mp nd1).2.2 hx (by simp)
          exact this
        have hxN : ¬ (get_next m bk ≠ NULL ∧ x = get_next m bk) := by
          rintro ⟨hne, he⟩
          have : x ∈ l2 := by
            cases l2 with
            | nil => exact absurd hN hne
            | cons d t => rw [he, hN]; simp
          exact nd12b x (by simp [hx]) this
        rw [hNx x (by simp [hx]), hPx x (by simp [hx]), if_neg (by rw [hz]; exact fun h => hxz h.2),
          if_neg hxN]
        exact ⟨rfl, rfl⟩
      · rw [hPx z (by simp), if_neg hzN]
        exact hzp
      · rw [hNx z (by simp), if_pos ⟨by rw [hz]; exact hz0, hz.symm⟩]
        rfl
  · cases l2 with
    | nil => trivial
    | cons d t =>
      have hd : get_next m bk = d := hN
      obtain ⟨hd0, _, hdn, ht⟩ := h2
      have hdP : ¬ (get_prev m bk ≠ NULL ∧ d = get_prev m bk) := by
        rintro ⟨hne, he⟩
        have : d ∈ l1 := by
          rcases list_nil_or_snoc l1 with rfl | ⟨l0, z, rfl⟩
          · exact absurd hP hne
          · rw [he, hP]; simp
        exact nd12b d this (by simp)
      rw [is_segment_cons]
      refine ⟨hd0, ?_, ?_, ?_⟩
      · rw [hPx d (by simp), if_pos ⟨by rw [hd]; exact hd0, hd.symm⟩]
      · rw [hNx d (by simp), if_neg hdP]
        exact hdn
      · refine (is_segment_congr m M t d NULL ?_).mpr ht
        intro x hx
        have hxd : x ≠ d := by
          rintro rfl
          exact (List.nodup_cons.mp (List.nodup_cons.mp nd2).2).1 hx
        have hxP : ¬ (get_prev m bk ≠ NULL ∧ x = get_prev m bk) := by
          rintro ⟨hne, he⟩
          have : x ∈ l1 := by
            rcases list_nil_or_snoc l1 with rfl | ⟨l0, z, rfl⟩
            · exact absurd hP hne
            · rw [he, hP]; simp
          exact nd12b x this (by simp [hx])
        rw [hNx x (by simp [hx]), hPx x (by simp [hx]), if_neg hxP,
          if_neg (by rw [hd]; exact fun h => hxd h.2)]
        exact ⟨rfl, rfl⟩

/-- A chain whose links around the node `bk` are redirected past it is the chain
without `bk`. -/
theorem is_segment_remove (m M : Mem) (l1 l2 : List Nat) (bk : Nat)
    (h : is_segment m NULL (l1 ++ bk :: l2) NULL) (hnd : (l1 ++ bk :: l2).Nodup)
    (hNx : ∀ x ∈ l1 ++ l2, get_next M x =
      if get_prev m bk ≠ NULL ∧ x = get_prev m bk then get_next m bk else get_next m x)
    (hPx : ∀ x ∈ l1 ++ l2, get_prev M x =
      if get_next m bk ≠ NULL ∧ x = get_next m bk then get_prev m bk else get_prev m x) :
    is_segment M NULL (l1 ++ l2) NULL := by
  obtain ⟨h1, _, hP, hN, h2⟩ := is_segment_mid m l1 l2 bk h
  obtain ⟨nd1, nd2, nd12⟩ := List.nodup_append.mp hnd
  have nd12b : ∀ x ∈ l1, x ∉ l2 := fun x hx hx2 => nd12 hx (List.mem_cons_of_mem bk hx2)
  rw [is_segment_append]
  constructor
  · rcases list_nil_or_snoc l1 with rfl | ⟨l0, z, rfl⟩
    · trivial
    · have hz : get_prev m bk = z := by rw [hP]; simp
      obtain ⟨h1a, hz0, hzp, _, _⟩ := (is_segment_append m l0 [z] NULL _).mp h1
      have hzN : ¬ (get_next m bk ≠ NULL ∧ z = get_next m bk) := by
        rintro ⟨hne, he⟩
        have : z ∈ l2 := by
          cases l2 with
          | nil => exact absurd hN hne
          | cons d t => rw [he, hN]; simp
        exact nd12b z (by simp) this
      rw [is_segment_append, is_segment_cons]
      refine ⟨?_, hz0, ?_, ?_, trivial⟩
      · refine (is_segment_congr m M l0 NULL _ ?_).mpr h1a
        intro x hx
        have hxz : x ≠ z := by
          rintro rfl
          have := (List.nodup_append.mp nd1).2.2 hx (by simp)
          exact this
        have hxN : ¬ (get_next m bk ≠ NULL ∧ x = get_next m bk) := by
          rintro ⟨hne, he⟩
          have : x ∈ l2 := by
            cases l2 with
            | nil => exact absurd hN hne
            | cons d t => rw [he, hN]; simp
          exact nd12b x (by simp [hx]) this
        rw [hNx x (by simp [hx]), hPx x (by simp [hx]), if_neg (by rw [hz]; exact fun h => hxz h.2),
          if_neg hxN]
        exact ⟨rfl, rfl⟩
      · rw [hPx z (by simp), if_neg hzN]
        exact hzp
      · rw [hNx z (by simp), if_pos ⟨by rw [hz]; exact hz0, hz.symm⟩, hN]
        rfl
  · cases l2 with
    | nil => trivial
    | cons d t =>
      have hd : get_next m bk = d := hN
      obtain ⟨hd0, _, hdn, ht⟩ := h2
      have hdP : ¬ (get_prev m bk ≠ NULL ∧ d = get_prev m bk) := by
        rintro ⟨hne, he⟩
        have : d ∈ l1 := by
          rcases list_nil_or_snoc l1 with rfl | ⟨l0, z, rfl⟩
          · exact absurd hP hne
          · rw [he, hP]; simp
        exact nd12b d this (by simp)
      rw [is_segment_cons]
      refine ⟨hd0, ?_, ?_, ?_⟩
      · rw [hPx d (by simp), if_pos ⟨by rw [hd]; exact hd0, hd.symm⟩]
        exact hP
      · rw [hNx d (by simp), if_neg hdP]
        exact hdn
      · refine (is_segment_congr m M t d NULL ?_).mpr ht
        intro x hx
        have hxd : x ≠ d := by
          rintro rfl
          exact (List.nodup_cons.mp (List.nodup_cons.mp nd2).2).1 hx
        have hxP : ¬ (get_prev m bk ≠ NULL ∧ x = get_prev m bk) := by
          rintro ⟨hne, he⟩
          have : x ∈ l1 := by
            rcases list_nil_or_snoc l1 with rfl | ⟨l0, z, rfl⟩
            · exact absurd hP hne
            · rw [he, hP]; simp
          exact nd12b x this (by simp [hx])
        rw [hNx x (by simp [hx]), hPx x (by simp [hx]), if_neg hxP,
          if_neg (by rw [hd]; exact fun h => hxd h.2)]
        exact ⟨rfl, rfl⟩

/-! ## The split policy of `allocate` -/

theorem get_block_size_lt (m : Mem) (a : Nat) : get_block_size m a < 65536 := by
  unfold get_block_size
  omega

theorem allocate_split_head_eq (s : State) (bp asize reqSize b : Nat) :
    (allocate_split s bp asize reqSize b).freelist_head =
      if bp = s.freelist_head then padd bp asize else s.freelist_head := by
  simp only [allocate_split]

theorem allocate_nosplit_head_eq (s : State) (bp reqSize b : Nat) :
    (allocate_nosplit s bp reqSize b).freelist_head =
      allocate_nosplit_head s bp (allocate_nosplit_unlink s bp reqSize b) := by
  simp only [allocate_nosplit]

/-- The neighbours of a node of a well separated chain are null or lie outside the
node's block, and every other node lies outside it and is equal to or apart from
each neighbour. -/
theorem chain_neighbours_apart (m : Mem) (l1 l2 : List Nat) (bk b : Nat)
    (h : is_segment m NULL (l1 ++ bk :: l2) NULL)
    (hpw : (l1 ++ bk :: l2).Pairwise (fun a c => a + 32 ≤ c))
    (hext : ∀ x ∈ l2, bk + b ≤ x) :
    (get_prev m bk = NULL ∨ get_prev m bk + 32 ≤ bk ∨ bk + b ≤ get_prev m bk) ∧
    (get_next m bk = NULL ∨ get_next m bk + 32 ≤ bk ∨ bk + b ≤ get_next m bk) ∧
    ∀ x ∈ l1 ++ l2, (x + 32 ≤ bk ∨ bk + b ≤ x) ∧
      (x = get_prev m bk ∨ get_prev m bk = NULL ∨ x + 32 ≤ get_prev m bk ∨
        get_prev m bk + 32 ≤ x) ∧
      (x = get_next m bk ∨ get_next m bk = NULL ∨ x + 32 ≤ get_next m bk ∨
        get_next m bk + 32 ≤ x) := by
  obtain ⟨_, _, hP, hN, _⟩ := is_segment_mid m l1 l2 bk h
  obtain ⟨_, _, hpw12⟩ := List.pairwise_append.mp hpw
  have hl1 : ∀ x ∈ l1, x + 32 ≤ bk := fun x hx => hpw12 x hx bk (List.mem_cons_self bk l2)
  have hPm : get_prev m bk = NULL ∨ get_prev m bk ∈ l1 := by
    rw [hP]
    rcases list_nil_or_snoc l1 with rfl | ⟨l0, z, rfl⟩
    · exact Or.inl rfl
    · right; simp
  have hNm : get_next m bk = NULL ∨ get_next m bk ∈ l2 := by
    rw [hN]
    cases l2 with
    | nil => exact Or.inl rfl
    | cons d t => right; simp
  have hout : ∀ x ∈ l1 ++ l2, x + 32 ≤ bk ∨ bk + b ≤ x := by
    intro x hx
    rcases List.mem_append.mp hx with hx | hx
    · exact Or.inl (hl1 x hx)
    · exact Or.inr (hext x hx)
  have hin : ∀ x ∈ l1 ++ l2, x ∈ l1 ++ bk :: l2 := by
    intro x hx
    rcases List.mem_append.mp hx with hx | hx
    · exact List.mem_append_left _ hx
    · exact List.mem_append_right _ (List.mem_cons_of_mem bk hx)
  refine ⟨?_, ?_, ?_⟩
  · rcases hPm with h0 | hm
    · exact Or.inl h0
    · exact Or.inr (Or.inl (hl1 _ hm))
  · rcases hNm with h0 | hm
    · exact Or.inl h0
    · exact Or.inr (Or.inr (hext _ hm))
  · intro x hx
    refine ⟨hout x hx, ?_, ?_⟩
    · rcases hPm with h0 | hm
      · exact Or.inr (Or.inl h0)
      · rcases pairwise_apart _ hpw x (hin x hx) _ (List.mem_append_left _ hm) with h | h | h
        · exact Or.inl h
        · exact Or.inr (Or.inr (Or.inl h))
        · exact Or.inr (Or.inr (Or.inr h))
    · rcases hNm with h0 | hm
      · exact Or.inr (Or.inl h0)
      · rcases pairwise_apart _ hpw x (hin x hx) _
          (List.mem_append_right _ (List.mem_cons_of_mem bk hm)) with h | h | h
        · exact Or.inl h
        · exact Or.inr (Or.inr (Or.inl h))
        · exact Or.inr (Or.inr (Or.inr h))

theorem pairwise_nodup (l : List Nat) (h : l.Pairwise (fun a c => a + 32 ≤ c)) : l.Nodup :=
  h.imp (fun hab => by omega)

theorem free_list_iff (t : State) (l : List Nat) :
    free_list t l ↔ t.freelist_head = l.headD NULL ∧ is_segment t.mem NULL l NULL := by
  unfold free_list
  rw [is_chain_iff_segment]

/-- C18: let `bk` be a node of the free list `l1 ++ bk :: l2` (a chain from
`freelist_head`, ascending, nodes at least 32 bytes apart, the nodes after `bk`
beyond its extent), `b` its `block_size` (even, `bk + b` a 64-bit address), and
`asize` a multiple of 16 with `32 ≤ asize ≤ b`; `req` fits the 16-bit
`requested_size` field.  `allocate(bk, asize, req)` returns `bk`, and
* if `b - asize ≥ 32` it splits: header at `bk` and footer at `bk + asize - 8`
  hold `asize` with the flag set (`asize + 1`) and `req`; header at `bk + asize`
  and footer at `bk + b - 8` hold `b - asize` (flag clear) and `requested_size` 0;
  the free list is the old one with `bk + asize` in the place of `bk`, with the
  `prev` and `next` of `bk`, and it is `freelist_head` if `bk` was;
* if `b - asize < 32` it does not split: header at `bk` and footer at
  `bk + b - 8` hold `b` with the flag set (`b + 1`) and `req`, and the free list
  is the old one without `bk`. -/
theorem allocate_split_policy (s : State) (l1 l2 : List Nat) (bk b asize req : Nat)
    (hl : free_list s (l1 ++ bk :: l2))
    (hpw : (l1 ++ bk :: l2).Pairwise (fun a c => a + 32 ≤ c))
    (hb : get_block_size s.mem bk = b) (hext : ∀ x ∈ l2, bk + b ≤ x)
    (hw : bk + b < W64) (hb2 : b % 2 = 0)
    (ha16 : asize % 16 = 0) (ha32 : 32 ≤ asize) (hab : asize ≤ b) (hreq : req < 65536) :
    ∃ t, allocate s bk asize req = (t, bk) ∧
      (32 ≤ b - asize →
        get_block_size t.mem bk = asize + 1 ∧ get_requested_size t.mem bk = req ∧
        get_block_size t.mem (bk + asize - 8) = asize + 1 ∧
        get_requested_size t.mem (bk + asize - 8) = req ∧
        get_block_size t.mem (bk + asize) = b - asize ∧
        get_requested_size t.mem (bk + asize) = 0 ∧
        get_block_size t.mem (bk + asize + (b - asize) - 8) = b - asize ∧
        get_requested_size t.mem (bk + asize + (b - asize) - 8) = 0 ∧
        free_list t (l1 ++ (bk + asize) :: l2) ∧
        get_prev t.mem (bk + asize) = get_prev s.mem bk ∧
        get_next t.mem (bk + asize) = get_next s.mem bk ∧
        (s.freelist_head = bk → t.freelist_head = bk + asize)) ∧
      (b - asize < 32 →
        get_block_size t.mem bk = b + 1 ∧ get_requested_size t.mem bk = req ∧
        get_block_size t.mem (bk + b - 8) = b + 1 ∧
        get_requested_size t.mem (bk + b - 8) = req ∧
        free_list t (l1 ++ l2) ∧ bk ∉ l1 ++ l2) := by
  obtain ⟨hh, hc⟩ := hl
  have hseg := (is_chain_iff_segment s.mem _ NULL).mp hc
  have hb16 : b < 65536 := by rw [← hb]; exact get_block_size_lt _ _
  have hnd := pairwise_nodup _ hpw
  obtain ⟨hP, hN, hX⟩ := chain_neighbours_apart s.mem l1 l2 bk b hseg hpw hext
  obtain ⟨_, hbk0, hPv, hNv, _⟩ := is_segment_mid s.mem l1 l2 bk hseg
  have hrq : req % 65536 = req := Nat.mod_eq_of_lt hreq
  have hhead1 : l1 ≠ [] → s.freelist_head ≠ bk ∧ s.freelist_head = l1.headD NULL := by
    intro hne
    cases l1 with
    | nil => exact absurd rfl hne
    | cons a t =>
      have ha : s.freelist_head = a := hh
      have : a + 32 ≤ bk := (List.pairwise_append.mp hpw).2.2 a (by simp) bk (by simp)
      refine ⟨by omega, ha⟩
  unfold allocate
  rw [hb]
  by_cases hs : 32 ≤ b - asize
  · have e3 : psub b asize = b - asize := psub_eq _ _ hab (by unfold W64; omega)
    have e1 : padd bk asize = bk + asize := padd_eq _ _ (by omega)
    have e9 : bk + asize + (b - asize) - 8 = bk + b - 8 := by omega
    rw [if_pos (by rw [e3]; exact hs)]
    refine ⟨_, rfl, fun _ => ?_, fun h => absurd hs (by omega)⟩
    have T := allocate_split_tags s bk asize req b hw ha32 (by omega) (by omega) hb16 hP hN
    have O := allocate_split_own_links s bk asize req b hw ha32 (by omega) (by omega) hb16 hP hN
    have L := fun x (hx : x ∈ l1 ++ l2) => allocate_split_links s bk asize req b x hw ha32
      (by omega) (by omega) hb16 hP hN (hX x hx).1 (hX x hx).2.1 (hX x hx).2.2
    rw [free_list_iff, allocate_split_mem_eq, allocate_split_head_eq, e1, e9]
    refine ⟨T.1, T.2.1.trans hrq, T.2.2.2.1, T.2.2.2.2.1.trans hrq, T.2.2.2.2.2.2.1,
      T.2.2.2.2.2.2.2.1, T.2.2.2.2.2.2.2.2.2.1, T.2.2.2.2.2.2.2.2.2.2.1, ⟨?_, ?_⟩, O.2, O.1, ?_⟩
    · cases l1 with
      | nil =>
        have : s.freelist_head = bk := hh
        rw [if_pos this.symm]
        rfl
      | cons a t =>
        obtain ⟨h1, h2⟩ := hhead1 (by simp)
        rw [if_neg (fun h => h1 h.symm), h2]
        rfl
    · exact is_segment_replace s.mem _ l1 l2 bk (bk + asize) hseg hnd (by unfold NULL; omega)
        (fun x hx => (L x hx).1) (fun x hx => (L x hx).2) O
    · intro h
      rw [if_pos h.symm]
  · have e3 : psub b asize = b - asize := psub_eq _ _ hab (by unfold W64; omega)
    rw [if_neg (by rw [e3]; unfold MIN_BLOCK_SIZE; omega)]
    refine ⟨_, rfl, fun h => absurd h hs, fun _ => ?_⟩
    have T := allocate_nosplit_tags s bk req b hw (by omega) hb2 hb16 hP hN
    have L := fun x (hx : x ∈ l1 ++ l2) => allocate_nosplit_links s bk req b x hw (by omega)
      hP (hX x hx).1 (hX x hx).2.1 (hX x hx).2.2
    have hsn := allocate_nosplit_seen_next s bk req b (by omega) (by omega)
    rw [free_list_iff, allocate_nosplit_mem_eq, allocate_nosplit_head_eq]
    refine ⟨T.1, T.2.1.trans hrq, T.2.2.2.1, T.2.2.2.2.1.trans hrq, ⟨?_, ?_⟩, ?_⟩
    · unfold allocate_nosplit_head
      rw [hsn, hNv]
      cases l1 with
      | nil =>
        have hhb : bk = s.freelist_head := hh.symm
        cases l2 with
        | nil =>
          rw [if_pos ⟨rfl, hhb⟩]
          rfl
        | cons d t =>
          have hd0 : d ≠ NULL := by
            have := is_segment_ne_null s.mem _ NULL NULL hseg d (by simp)
            exact this
          rw [if_neg (fun h => hd0 h.1), if_pos ⟨hd0, hhb⟩]
          rfl
      | cons a t =>
        obtain ⟨h1, h2⟩ := hhead1 (by simp)
        rw [if_neg (fun h => h1 h.2.symm), if_neg (fun h => h1 h.2.symm), h2]
        rfl
    · exact is_segment_remove s.mem _ l1 l2 bk hseg hnd
        (fun x hx => (L x hx).1) (fun x hx => (L x hx).2)
    · intro hm
      have := (hX bk hm).1
      omega

set_option maxRecDepth 100000 in
/-- C18 (witness): the first `ics_malloc(10)` places its block in the one free
block of 4080 bytes at `65544`, the only node of the free list: the block is
split into an allocated block of 32 bytes and a free remainder of 4048 bytes at
`65576`, which is the new list head. -/
theorem allocate_split_policy_witness :
    (free_list fresh_setup ([] ++ 65544 :: []) ∧
      (([] : List Nat) ++ 65544 :: []).Pairwise (fun a c => a + 32 ≤ c) ∧
      get_block_size fresh_setup.mem 65544 = 4080 ∧ (∀ x ∈ ([] : List Nat), 65544 + 4080 ≤ x) ∧
      65544 + 4080 < W64 ∧ 4080 % 2 = 0 ∧ 32 % 16 = 0 ∧ 32 ≤ 32 ∧ 32 ≤ 4080 ∧ 10 < 65536) ∧
    ∃ t, allocate fresh_setup 65544 32 10 = (t, 65544) ∧
      get_block_size t.mem 65544 = 32 + 1 ∧ get_requested_size t.mem 65544 = 10 ∧
      get_block_size t.mem (65544 + 32) = 4080 - 32 ∧
      free_list t ([] ++ (65544 + 32) :: []) :=
  ⟨⟨by decide, by decide, by decide, by decide, by decide, by decide, by decide,
    by decide, by decide, by decide⟩,
    by
      have H := allocate_split_policy fresh_setup [] [] 65544 4080 32 10
        (by decide) (by decide) (by decide) (by decide) (by decide) (by decide) (by decide)
        (by decide) (by decide) (by decide)
      obtain ⟨t, h1, h2, _⟩ := H
      have h3 := h2 (by decide)
      exact ⟨t, h1, h3.1, h3.2.1, h3.2.2.2.2.1, h3.2.2.2.2.2.2.2.2.1⟩⟩

/-! ## Releasing a block described by its boundary tags -/

theorem GET_HDR_payload (H : Nat) (hW : H + 8 < W64) : GET_HDR (H + 8) = H := by
  unfold GET_HDR
  rw [psub_eq _ _ (by unfold WSIZE; omega) hW]
  unfold WSIZE
  omega

/-- The footer address that `GET_FTR` computes for the payload pointer `H + 8` when
the header at `H` holds the size `a` (a multiple of 8) with any flag. -/
theorem GET_FTR_payload (m : Mem) (H a f : Nat) (hW : H + 8 + a < W64) (ha : 16 ≤ a)
    (ha8 : a % 8 = 0) (hf : f < 8) (h1 : get_block_size m H = a + f) :
    GET_FTR m (H + 8) = H + a - 8 := by
  unfold GET_FTR GET_SIZE
  rw [GET_HDR_payload H (by omega), h1]
  have e : (a + f) / 8 * 8 = a := by omega
  rw [e, padd_eq _ _ hW, psub_eq _ _ (by unfold DSIZE; omega) hW]
  unfold DSIZE
  omega

/-- A pointer whose header and footer carry the magic tags, the same odd block
size and the same requested size, and lie strictly between prologue and epilogue,
passes `validate_address`. -/
theorem validate_address_tagged (t : State) (H a q : Nat) (hW : H + 8 + a < W64) (ha : 16 ≤ a)
    (ha8 : a % 8 = 0) (hpro : t.prologue < H) (hepi : H + a ≤ psub t.brk WSIZE)
    (h1 : get_block_size t.mem H = a + 1) (h2 : get_id t.mem H = HEADER_MAGIC)
    (h3 : get_requested_size t.mem H = q)
    (h4 : get_block_size t.mem (H + a - 8) = a + 1) (h5 : get_id t.mem (H + a - 8) = FOOTER_MAGIC)
    (h6 : get_requested_size t.mem (H + a - 8) = q) :
    validate_address t (H + 8) = 0 := by
  unfold validate_address
  simp only []
  rw [GET_HDR_payload H (by omega), GET_FTR_payload t.mem H a 1 hW ha ha8 (by omega) h1,
    h1, h2, h3, h4, h5, h6]
  rw [if_neg (by omega), if_neg (by simp), if_neg (by simp), if_neg (by omega), if_neg (by simp)]

/-- The stores of `ics_free` that mark the block at `H` (size `a`) free. -/
theorem mark_free_mem_nf (m : Mem) (H a : Nat) (hW : H + 8 + a < W64) (ha : 16 ≤ a)
    (ha8 : a % 8 = 0) (ha16 : a + 1 < 65536) (h1 : get_block_size m H = a + 1) :
    mark_free_mem m (H + 8) =
      set_requested_size (set_requested_size
        (set_block_size (set_block_size m H a) (H + a - 8) a) H 0) (H + a - 8) 0 := by
  have e1 : psub (a + 1) 1 = a := by
    rw [psub_eq _ _ (by omega) (by unfold W64; omega)]
    omega
  have hb : get_block_size (set_block_size m H a) H = a + 0 := by
    rw [get_block_size_set_block_size, Nat.mod_eq_of_lt (by omega)]
    rfl
  have f1 : GET_FTR (set_block_size m H a) (H + 8) = H + a - 8 :=
    GET_FTR_payload _ H a 0 hW ha ha8 (by omega) hb
  have hb2 : get_block_size
      (set_requested_size (set_block_size (set_block_size m H a) (H + a - 8) a) H 0) H = a + 0 := by
    rw [get_block_size_set_requested_size, get_block_size_set_block_size_off _ _ _ _ (by omega), hb]
  have f2 := GET_FTR_payload _ H a 0 hW ha ha8 (by omega) hb2
  unfold mark_free_mem store_footer_req store_footer_size
  rw [GET_HDR_payload H (by omega), h1, e1, f1, f2]

/-- The stores of case 3 of `coalesce` for the block at `H` whose right neighbour
`nb` has null links: the merged size `sz` goes to the header and to the footer at
`H + sz - 8`, and the block's links become null. -/
theorem case3_stores_null_links (m : Mem) (H nb sz : Nat) (hW : H + 8 + sz < W64)
    (hnb : H + 32 ≤ nb) (hsz : nb + 32 ≤ H + sz) (hsz8 : sz % 8 = 0) (hsz16 : sz < 65536)
    (hn : get_next m nb = NULL) (hp : get_prev m nb = NULL) :
    case3_stores m (H + 8) nb sz =
      set_prev (set_next (set_block_size (set_block_size m H sz) (H + sz - 8) sz) H NULL)
        H NULL := by
  have hb : get_block_size (set_block_size m H sz) H = sz + 0 := by
    rw [get_block_size_set_block_size, Nat.mod_eq_of_lt hsz16]
    rfl
  have f1 : GET_FTR (set_block_size m H sz) (H + 8) = H + sz - 8 :=
    GET_FTR_payload _ H sz 0 hW (by omega) hsz8 (by omega) hb
  unfold case3_stores case3_own take_prev take_next store_footer_size
  rw [GET_HDR_payload H (by omega), f1]
  have g1 : get_next (set_block_size (set_block_size m H sz) (H + sz - 8) sz) nb = NULL := by
    rw [get_next_set_block_size_off _ _ _ _ (by omega),
      get_next_set_block_size_off _ _ _ _ (by omega), hn]
  have g2 : get_prev (set_next (set_block_size (set_block_size m H sz) (H + sz - 8) sz) H NULL)
      nb = NULL := by
    rw [get_prev_set_next_off _ _ _ _ (by omega), get_prev_set_block_size_off _ _ _ _ (by omega),
      get_prev_set_block_size_off _ _ _ _ (by omega), hp]
  rw [g1, g2]
  have g3 : get_next (set_prev (set_next (set_block_size (set_block_size m H sz) (H + sz - 8) sz)
      H NULL) H NULL) nb = NULL := by
    rw [get_next_set_prev_off _ _ _ _ (by omega), get_next_set_next_off _ _ _ _ (by omega), g1]
  unfold point_next_prev
  rw [g3, if_neg (fun h => h rfl)]
  have g4 : get_prev (set_prev (set_next (set_block_size (set_block_size m H sz) (H + sz - 8) sz)
      H NULL) H NULL) nb = NULL := by
    rw [get_prev_set_prev_off _ _ _ _ (by omega), g2]
  unfold point_prev_next
  rw [g4, if_neg (fun h => h rfl)]

theorem mark_free_mem_eq (t : State) (ptr : Nat) :
    (mark_free t ptr).mem = mark_free_mem t.mem ptr := by
  simp only [mark_free]

theorem mark_free_frame (t : State) (ptr : Nat) :
    (mark_free t ptr).brk = t.brk ∧ (mark_free t ptr).prologue = t.prologue ∧
      (mark_free t ptr).freelist_head = t.freelist_head ∧
      (mark_free t ptr).freelist_next = t.freelist_next := by
  cases t
  exact ⟨rfl, rfl, rfl, rfl⟩

theorem coalesce_case3_frame (s : State) (block size : Nat) :
    (coalesce_case3 s block size).brk = s.brk ∧
      (coalesce_case3 s block size).prologue = s.prologue ∧
      (coalesce_case3 s block size).freelist_next = s.freelist_next := by
  cases s
  exact ⟨rfl, rfl, rfl⟩

theorem coalesce_case3_head (s : State) (block size : Nat) :
    (coalesce_case3 s block size).freelist_head =
      if next_block s.mem block = s.freelist_head then GET_HDR block else s.freelist_head := by
  simp only [coalesce_case3]

/-- `ics_free` of an allocated block at `H` (size `a`) whose left neighbour is
allocated and whose right neighbour at `H + a` is a free block of size `r` with null
links that heads the free list: the call returns `0` and leaves one free block of
size `a + r` at `H`, with agreeing header and footer, `requested_size` 0, null
links, at the head of the list. -/
theorem ics_free_merges_right (fuel : Nat) (t : State) (H a r q : Nat)
    (hH : 8 ≤ H) (hW : H + 8 + a + r < W64) (ha : 32 ≤ a) (ha8 : a % 8 = 0)
    (hr : 32 ≤ r) (hr8 : r % 8 = 0) (har : a + r < 65536)
    (hpro : t.prologue < H) (hepi : H + a ≤ psub t.brk WSIZE)
    (h1 : get_block_size t.mem H = a + 1) (h2 : get_id t.mem H = HEADER_MAGIC)
    (h3 : get_requested_size t.mem H = q)
    (h4 : get_block_size t.mem (H + a - 8) = a + 1) (h5 : get_id t.mem (H + a - 8) = FOOTER_MAGIC)
    (h6 : get_requested_size t.mem (H + a - 8) = q)
    (h7 : get_block_size t.mem (H - 8) % 2 = 1)
    (h8 : get_block_size t.mem (H + a) = r)
    (h9 : get_next t.mem (H + a) = NULL) (h10 : get_prev t.mem (H + a) = NULL)
    (h11 : get_requested_size t.mem (H + a + r - 8) = 0)
    (h12 : t.freelist_head = H + a) :
    ∃ u, ics_free fuel t (H + 8) = some (u, 0) ∧
      get_block_size u.mem H = a + r ∧ get_requested_size u.mem H = 0 ∧
      get_block_size u.mem (H + a + r - 8) = a + r ∧
      get_requested_size u.mem (H + a + r - 8) = 0 ∧
      get_next u.mem H = NULL ∧ get_prev u.mem H = NULL ∧
      u.freelist_head = H ∧ u.brk = t.brk ∧ u.prologue = t.prologue := by
  have hv := validate_address_tagged t H a q (by omega) (by omega) ha8 hpro hepi h1 h2 h3 h4 h5 h6
  have hm := mark_free_mem_nf t.mem H a (by omega) (by omega) ha8 (by omega) h1
  have eH := GET_HDR_payload H (by omega)
  have eP : psub H WSIZE = H - 8 := by
    rw [psub_eq _ _ (by unfold WSIZE; omega) (by omega)]
    rfl
  have b1 : get_block_size (mark_free t (H + 8)).mem H = a + 0 := by
    rw [mark_free_mem_eq, hm]
    simp (disch := omega) only [get_block_size_set_block_size_off, get_block_size_set_id_off, get_block_size_set_requested_size_off, get_block_size_set_next_off, get_block_size_set_prev_off, get_id_set_block_size_off, get_id_set_id_off, get_id_set_requested_size_off, get_id_set_next_off, get_id_set_prev_off, get_requested_size_set_block_size_off, get_requested_size_set_id_off, get_requested_size_set_requested_size_off, get_requested_size_set_next_off, get_requested_size_set_prev_off, get_next_set_block_size_off, get_next_set_id_off, get_next_set_requested_size_off, get_next_set_next_off, get_next_set_prev_off, get_prev_set_block_size_off, get_prev_set_id_off, get_prev_set_requested_size_off, get_prev_set_next_off, get_prev_set_prev_off, get_block_size_set_block_size_at, get_block_size_set_id_at, get_block_size_set_requested_size_at, get_id_set_block_size_at, get_id_set_id_at, get_id_set_requested_size_at, get_requested_size_set_block_size_at, get_requested_size_set_id_at, get_requested_size_set_requested_size_at, get_next_set_next_at, get_prev_set_prev_at, get_block_size_guard_set_next_off, get_block_size_guard_set_prev_off, get_id_guard_set_next_off, get_id_guard_set_prev_off, get_requested_size_guard_set_next_off, get_requested_size_guard_set_prev_off, get_next_guard_set_next_off, get_next_guard_set_prev_off, get_prev_guard_set_next_off, get_prev_guard_set_prev_off, Nat.mod_eq_of_lt, Nat.add_zero]
  have eN : next_block (mark_free t (H + 8)).mem (H + 8) = H + a := by
    unfold next_block
    rw [GET_FTR_payload _ H a 0 (by omega) (by omega) ha8 (by omega) b1,
      padd_eq _ _ (by unfold WSIZE; omega)]
    unfold WSIZE
    omega
  have b2 : get_block_size (mark_free t (H + 8)).mem (H - 8) % 2 = 1 := by
    rw [mark_free_mem_eq, hm]
    simp (disch := omega) only [get_block_size_set_block_size_off, get_block_size_set_id_off, get_block_size_set_requested_size_off, get_block_size_set_next_off, get_block_size_set_prev_off, get_id_set_block_size_off, get_id_set_id_off, get_id_set_requested_size_off, get_id_set_next_off, get_id_set_prev_off, get_requested_size_set_block_size_off, get_requested_size_set_id_off, get_requested_size_set_requested_size_off, get_requested_size_set_next_off, get_requested_size_set_prev_off, get_next_set_block_size_off, get_next_set_id_off, get_next_set_requested_size_off, get_next_set_next_off, get_next_set_prev_off, get_prev_set_block_size_off, get_prev_set_id_off, get_prev_set_requested_size_off, get_prev_set_next_off, get_prev_set_prev_off, get_block_size_set_block_size_at, get_block_size_set_id_at, get_block_size_set_requested_size_at, get_id_set_block_size_at, get_id_set_id_at, get_id_set_requested_size_at, get_requested_size_set_block_size_at, get_requested_size_set_id_at, get_requested_size_set_requested_size_at, get_next_set_next_at, get_prev_set_prev_at, get_block_size_guard_set_next_off, get_block_size_guard_set_prev_off, get_id_guard_set_next_off, get_id_guard_set_prev_off, get_requested_size_guard_set_next_off, get_requested_size_guard_set_prev_off, get_next_guard_set_next_off, get_next_guard_set_prev_off, get_prev_guard_set_next_off, get_prev_guard_set_prev_off]
    exact h7
  have b3 : get_block_size (mark_free t (H + 8)).mem (H + a) = r := by
    rw [mark_free_mem_eq, hm]
    simp (disch := omega) only [get_block_size_set_block_size_off, get_block_size_set_id_off, get_block_size_set_requested_size_off, get_block_size_set_next_off, get_block_size_set_prev_off, get_id_set_block_size_off, get_id_set_id_off, get_id_set_requested_size_off, get_id_set_next_off, get_id_set_prev_off, get_requested_size_set_block_size_off, get_requested_size_set_id_off, get_requested_size_set_requested_size_off, get_requested_size_set_next_off, get_requested_size_set_prev_off, get_next_set_block_size_off, get_next_set_id_off, get_next_set_requested_size_off, get_next_set_next_off, get_next_set_prev_off, get_prev_set_block_size_off, get_prev_set_id_off, get_prev_set_requested_size_off, get_prev_set_next_off, get_prev_set_prev_off, get_block_size_set_block_size_at, get_block_size_set_id_at, get_block_size_set_requested_size_at, get_id_set_block_size_at, get_id_set_id_at, get_id_set_requested_size_at, get_requested_size_set_block_size_at, get_requested_size_set_id_at, get_requested_size_set_requested_size_at, get_next_set_next_at, get_prev_set_prev_at, get_block_size_guard_set_next_off, get_block_size_guard_set_prev_off, get_id_guard_set_next_off, get_id_guard_set_prev_off, get_requested_size_guard_set_next_off, get_requested_size_guard_set_prev_off, get_next_guard_set_next_off, get_next_guard_set_prev_off, get_prev_guard_set_next_off, get_prev_guard_set_prev_off]
    exact h8
  have b4 : get_next (mark_free t (H + 8)).mem (H + a) = NULL := by
    rw [mark_free_mem_eq, hm]
    simp (disch := omega) only [get_block_size_set_block_size_off, get_block_size_set_id_off, get_block_size_set_requested_size_off, get_block_size_set_next_off, get_block_size_set_prev_off, get_id_set_block_size_off, get_id_set_id_off, get_id_set_requested_size_off, get_id_set_next_off, get_id_set_prev_off, get_requested_size_set_block_size_off, get_requested_size_set_id_off, get_requested_size_set_requested_size_off, get_requested_size_set_next_off, get_requested_size_set_prev_off, get_next_set_block_size_off, get_next_set_id_off, get_next_set_requested_size_off, get_next_set_next_off, get_next_set_prev_off, get_prev_set_block_size_off, get_prev_set_id_off, get_prev_set_requested_size_off, get_prev_set_next_off, get_prev_set_prev_off, get_block_size_set_block_size_at, get_block_size_set_id_at, get_block_size_set_requested_size_at, get_id_set_block_size_at, get_id_set_id_at, get_id_set_requested_size_at, get_requested_size_set_block_size_at, get_requested_size_set_id_at, get_requested_size_set_requested_size_at, get_next_set_next_at, get_prev_set_prev_at, get_block_size_guard_set_next_off, get_block_size_guard_set_prev_off, get_id_guard_set_next_off, get_id_guard_set_prev_off, get_requested_size_guard_set_next_off, get_requested_size_guard_set_prev_off, get_next_guard_set_next_off, get_next_guard_set_prev_off, get_prev_guard_set_next_off, get_prev_guard_set_prev_off]
    exact h9
  have b5 : get_prev (mark_free t (H + 8)).mem (H + a) = NULL := by
    rw [mark_free_mem_eq, hm]
    simp (disch := omega) only [get_block_size_set_block_size_off, get_block_size_set_id_off, get_block_size_set_requested_size_off, get_block_size_set_next_off, get_block_size_set_prev_off, get_id_set_block_size_off, get_id_set_id_off, get_id_set_requested_size_off, get_id_set_next_off, get_id_set_prev_off, get_requested_size_set_block_size_off, get_requested_size_set_id_off, get_requested_size_set_requested_size_off, get_requested_size_set_next_off, get_requested_size_set_prev_off, get_next_set_block_size_off, get_next_set_id_off, get_next_set_requested_size_off, get_next_set_next_off, get_next_set_prev_off, get_prev_set_block_size_off, get_prev_set_id_off, get_prev_set_requested_size_off, get_prev_set_next_off, get_prev_set_prev_off, get_block_size_set_block_size_at, get_block_size_set_id_at, get_block_size_set_requested_size_at, get_id_set_block_size_at, get_id_set_id_at, get_id_set_requested_size_at, get_requested_size_set_block_size_at, get_requested_size_set_id_at, get_requested_size_set_requested_size_at, get_next_set_next_at, get_prev_set_prev_at, get_block_size_guard_set_next_off, get_block_size_guard_set_prev_off, get_id_guard_set_next_off, get_id_guard_set_prev_off, get_requested_size_guard_set_next_off, get_requested_size_guard_set_prev_off, get_next_guard_set_next_off, get_next_guard_set_prev_off, get_prev_guard_set_next_off, get_prev_guard_set_prev_off]
    exact h10
  have hc : coalesce fuel (mark_free t (H + 8)) (H + 8) =
      some (coalesce_case3 (mark_free t (H + 8)) (H + 8) a) := by
    unfold coalesce
    have b1b : get_block_size (mark_free t (H + 8)).mem H = a := b1
    rw [eH, eP, eN, b2, b3, b1b, if_neg (by omega), if_neg (by omega), if_pos (by omega)]
  have hs : (a + r) % W64 = a + r := Nat.mod_eq_of_lt (by omega)
  have hu : (coalesce_case3 (mark_free t (H + 8)) (H + 8) a).mem =
      set_prev (set_next (set_block_size (set_block_size (mark_free t (H + 8)).mem H (a + r))
        (H + (a + r) - 8) (a + r)) H NULL) H NULL := by
    simp only [coalesce_case3]
    rw [eN, b3, hs]
    exact case3_stores_null_links _ H (H + a) (a + r) (by omega) (by omega) (by omega)
      (by omega) har b4 b5
  refine ⟨coalesce_case3 (mark_free t (H + 8)) (H + 8) a, ?_, ?_⟩
  · unfold ics_free
    rw [if_neg (by rw [hv]; decide), hc]
    rfl
  · rw [hu, mark_free_mem_eq, hm]
    have e0 : NULL < W64 := by unfold NULL W64; omega
    refine ⟨?_, ?_, ?_, ?_, ?_, ?_, ?_,
      (coalesce_case3_frame _ _ _).1.trans (mark_free_frame _ _).1,
      (coalesce_case3_frame _ _ _).2.1.trans (mark_free_frame _ _).2.1⟩
    · simp (disch := omega) only [get_block_size_set_block_size_off, get_block_size_set_id_off, get_block_size_set_requested_size_off, get_block_size_set_next_off, get_block_size_set_prev_off, get_id_set_block_size_off, get_id_set_id_off, get_id_set_requested_size_off, get_id_set_next_off, get_id_set_prev_off, get_requested_size_set_block_size_off, get_requested_size_set_id_off, get_requested_size_set_requested_size_off, get_requested_size_set_next_off, get_requested_size_set_prev_off, get_next_set_block_size_off, get_next_set_id_off, get_next_set_requested_size_off, get_next_set_next_off, get_next_set_prev_off, get_prev_set_block_size_off, get_prev_set_id_off, get_prev_set_requested_size_off, get_prev_set_next_off, get_prev_set_prev_off, get_block_size_set_block_size_at, get_block_size_set_id_at, get_block_size_set_requested_size_at, get_id_set_block_size_at, get_id_set_id_at, get_id_set_requested_size_at, get_requested_size_set_block_size_at, get_requested_size_set_id_at, get_requested_size_set_requested_size_at, get_next_set_next_at, get_prev_set_prev_at, get_block_size_guard_set_next_off, get_block_size_guard_set_prev_off, get_id_guard_set_next_off, get_id_guard_set_prev_off, get_requested_size_guard_set_next_off, get_requested_size_guard_set_prev_off, get_next_guard_set_next_off, get_next_guard_set_prev_off, get_prev_guard_set_next_off, get_prev_guard_set_prev_off, Nat.mod_eq_of_lt]
    · simp (disch := omega) only [get_block_size_set_block_size_off, get_block_size_set_id_off, get_block_size_set_requested_size_off, get_block_size_set_next_off, get_block_size_set_prev_off, get_id_set_block_size_off, get_id_set_id_off, get_id_set_requested_size_off, get_id_set_next_off, get_id_set_prev_off, get_requested_size_set_block_size_off, get_requested_size_set_id_off, get_requested_size_set_requested_size_off, get_requested_size_set_next_off, get_requested_size_set_prev_off, get_next_set_block_size_off, get_next_set_id_off, get_next_set_requested_size_off, get_next_set_next_off, get_next_set_prev_off, get_prev_set_block_size_off, get_prev_set_id_off, get_prev_set_requested_size_off, get_prev_set_next_off, get_prev_set_prev_off, get_block_size_set_block_size_at, get_block_size_set_id_at, get_block_size_set_requested_size_at, get_id_set_block_size_at, get_id_set_id_at, get_id_set_requested_size_at, get_requested_size_set_block_size_at, get_requested_size_set_id_at, get_requested_size_set_requested_size_at, get_next_set_next_at, get_prev_set_prev_at, get_block_size_guard_set_next_off, get_block_size_guard_set_prev_off, get_id_guard_set_next_off, get_id_guard_set_prev_off, get_requested_size_guard_set_next_off, get_requested_size_guard_set_prev_off, get_next_guard_set_next_off, get_next_guard_set_prev_off, get_prev_guard_set_next_off, get_prev_guard_set_prev_off, Nat.zero_mod]
    · simp (disch := omega) only [get_block_size_set_block_size_off, get_block_size_set_id_off, get_block_size_set_requested_size_off, get_block_size_set_next_off, get_block_size_set_prev_off, get_id_set_block_size_off, get_id_set_id_off, get_id_set_requested_size_off, get_id_set_next_off, get_id_set_prev_off, get_requested_size_set_block_size_off, get_requested_size_set_id_off, get_requested_size_set_requested_size_off, get_requested_size_set_next_off, get_requested_size_set_prev_off, get_next_set_block_size_off, get_next_set_id_off, get_next_set_requested_size_off, get_next_set_next_off, get_next_set_prev_off, get_prev_set_block_size_off, get_prev_set_id_off, get_prev_set_requested_size_off, get_prev_set_next_off, get_prev_set_prev_off, get_block_size_set_block_size_at, get_block_size_set_id_at, get_block_size_set_requested_size_at, get_id_set_block_size_at, get_id_set_id_at, get_id_set_requested_size_at, get_requested_size_set_block_size_at, get_requested_size_set_id_at, get_requested_size_set_requested_size_at, get_next_set_next_at, get_prev_set_prev_at, get_block_size_guard_set_next_off, get_block_size_guard_set_prev_off, get_id_guard_set_next_off, get_id_guard_set_prev_off, get_requested_size_guard_set_next_off, get_requested_size_guard_set_prev_off, get_next_guard_set_next_off, get_next_guard_set_prev_off, get_prev_guard_set_next_off, get_prev_guard_set_prev_off, Nat.mod_eq_of_lt]
    · simp (disch := omega) only [get_block_size_set_block_size_off, get_block_size_set_id_off, get_block_size_set_requested_size_off, get_block_size_set_next_off, get_block_size_set_prev_off, get_id_set_block_size_off, get_id_set_id_off, get_id_set_requested_size_off, get_id_set_next_off, get_id_set_prev_off, get_requested_size_set_block_size_off, get_requested_size_set_id_off, get_requested_size_set_requested_size_off, get_requested_size_set_next_off, get_requested_size_set_prev_off, get_next_set_block_size_off, get_next_set_id_off, get_next_set_requested_size_off, get_next_set_next_off, get_next_set_prev_off, get_prev_set_block_size_off, get_prev_set_id_off, get_prev_set_requested_size_off, get_prev_set_next_off, get_prev_set_prev_off, get_block_size_set_block_size_at, get_block_size_set_id_at, get_block_size_set_requested_size_at, get_id_set_block_size_at, get_id_set_id_at, get_id_set_requested_size_at, get_requested_size_set_block_size_at, get_requested_size_set_id_at, get_requested_size_set_requested_size_at, get_next_set_next_at, get_prev_set_prev_at, get_block_size_guard_set_next_off, get_block_size_guard_set_prev_off, get_id_guard_set_next_off, get_id_guard_set_prev_off, get_requested_size_guard_set_next_off, get_requested_size_guard_set_prev_off, get_next_guard_set_next_off, get_next_guard_set_prev_off, get_prev_guard_set_next_off, get_prev_guard_set_prev_off]
      rw [show H + (a + r) - 8 = H + a + r - 8 by omega]
      exact h11
    · simp (disch := omega) only [get_block_size_set_block_size_off, get_block_size_set_id_off, get_block_size_set_requested_size_off, get_block_size_set_next_off, get_block_size_set_prev_off, get_id_set_block_size_off, get_id_set_id_off, get_id_set_requested_size_off, get_id_set_next_off, get_id_set_prev_off, get_requested_size_set_block_size_off, get_requested_size_set_id_off, get_requested_size_set_requested_size_off, get_requested_size_set_next_off, get_requested_size_set_prev_off, get_next_set_block_size_off, get_next_set_id_off, get_next_set_requested_size_off, get_next_set_next_off, get_next_set_prev_off, get_prev_set_block_size_off, get_prev_set_id_off, get_prev_set_requested_size_off, get_prev_set_next_off, get_prev_set_prev_off, get_block_size_set_block_size_at, get_block_size_set_id_at, get_block_size_set_requested_size_at, get_id_set_block_size_at, get_id_set_id_at, get_id_set_requested_size_at, get_requested_size_set_block_size_at, get_requested_size_set_id_at, get_requested_size_set_requested_size_at, get_next_set_next_at, get_prev_set_prev_at, get_block_size_guard_set_next_off, get_block_size_guard_set_prev_off, get_id_guard_set_next_off, get_id_guard_set_prev_off, get_requested_size_guard_set_next_off, get_requested_size_guard_set_prev_off, get_next_guard_set_next_off, get_next_guard_set_prev_off, get_prev_guard_set_next_off, get_prev_guard_set_prev_off]
    · simp (disch := omega) only [get_block_size_set_block_size_off, get_block_size_set_id_off, get_block_size_set_requested_size_off, get_block_size_set_next_off, get_block_size_set_prev_off, get_id_set_block_size_off, get_id_set_id_off, get_id_set_requested_size_off, get_id_set_next_off, get_id_set_prev_off, get_requested_size_set_block_size_off, get_requested_size_set_id_off, get_requested_size_set_requested_size_off, get_requested_size_set_next_off, get_requested_size_set_prev_off, get_next_set_block_size_off, get_next_set_id_off, get_next_set_requested_size_off, get_next_set_next_off, get_next_set_prev_off, get_prev_set_block_size_off, get_prev_set_id_off, get_prev_set_requested_size_off, get_prev_set_next_off, get_prev_set_prev_off, get_block_size_set_block_size_at, get_block_size_set_id_at, get_block_size_set_requested_size_at, get_id_set_block_size_at, get_id_set_id_at, get_id_set_requested_size_at, get_requested_size_set_block_size_at, get_requested_size_set_id_at, get_requested_size_set_requested_size_at, get_next_set_next_at, get_prev_set_prev_at, get_block_size_guard_set_next_off, get_block_size_guard_set_prev_off, get_id_guard_set_next_off, get_id_guard_set_prev_off, get_requested_size_guard_set_next_off, get_requested_size_guard_set_prev_off, get_next_guard_set_next_off, get_next_guard_set_prev_off, get_prev_guard_set_next_off, get_prev_guard_set_prev_off]
    · rw [coalesce_case3_head, eN, eH, (mark_free_frame _ _).2.2.1, h12, if_pos rfl]

theorem insertFreeList_empty (fuel : Nat) (s : State) (fh : Nat) (h : s.freelist_head = NULL) :
    ∃ u, insertFreeList fuel s fh = some u ∧ u.mem = insert_empty s.mem fh ∧
      u.freelist_head = fh ∧ u.freelist_next = fh ∧ u.brk = s.brk ∧
      u.prologue = s.prologue := by
  unfold insertFreeList
  rw [if_pos h]
  exact ⟨_, rfl, rfl, rfl, rfl, rfl, rfl⟩

/-- `ics_free` of an allocated block at `H` (size `a`) whose neighbours are both
allocated, with an empty free list: the call returns `0` and leaves the block
free, with agreeing header and footer, `requested_size` 0 and null links, as the
only list node and the search cursor. -/
theorem ics_free_alone (fuel : Nat) (t : State) (H a q : Nat)
    (hH : 8 ≤ H) (hW : H + 8 + a < W64) (ha : 32 ≤ a) (ha8 : a % 8 = 0) (ha16 : a + 1 < 65536)
    (hpro : t.prologue < H) (hepi : H + a ≤ psub t.brk WSIZE)
    (h1 : get_block_size t.mem H = a + 1) (h2 : get_id t.mem H = HEADER_MAGIC)
    (h3 : get_requested_size t.mem H = q)
    (h4 : get_block_size t.mem (H + a - 8) = a + 1) (h5 : get_id t.mem (H + a - 8) = FOOTER_MAGIC)
    (h6 : get_requested_size t.mem (H + a - 8) = q)
    (h7 : get_block_size t.mem (H - 8) % 2 = 1)
    (h8 : get_block_size t.mem (H + a) % 2 = 1)
    (h12 : t.freelist_head = NULL) :
    ∃ u, ics_free fuel t (H + 8) = some (u, 0) ∧
      get_block_size u.mem H = a ∧ get_requested_size u.mem H = 0 ∧
      get_block_size u.mem (H + a - 8) = a ∧
      get_requested_size u.mem (H + a - 8) = 0 ∧
      get_next u.mem H = NULL ∧ get_prev u.mem H = NULL ∧
      u.freelist_head = H ∧ u.freelist_next = H ∧ u.brk = t.brk ∧ u.prologue = t.prologue := by
  have hv := validate_address_tagged t H a q (by omega) (by omega) ha8 hpro hepi h1 h2 h3 h4 h5 h6
  have hm := mark_free_mem_nf t.mem H a (by omega) (by omega) ha8 (by omega) h1
  have eH := GET_HDR_payload H (by omega)
  have eP : psub H WSIZE = H - 8 := by
    rw [psub_eq _ _ (by unfold WSIZE; omega) (by omega)]
    rfl
  have b1 : get_block_size (mark_free t (H + 8)).mem H = a + 0 := by
    rw [mark_free_mem_eq, hm]
    simp (disch := omega) only [get_block_size_set_block_size_off, get_block_size_set_id_off, get_block_size_set_requested_size_off, get_block_size_set_next_off, get_block_size_set_prev_off, get_id_set_block_size_off, get_id_set_id_off, get_id_set_requested_size_off, get_id_set_next_off, get_id_set_prev_off, get_requested_size_set_block_size_off, get_requested_size_set_id_off, get_requested_size_set_requested_size_off, get_requested_size_set_next_off, get_requested_size_set_prev_off, get_next_set_block_size_off, get_next_set_id_off, get_next_set_requested_size_off, get_next_set_next_off, get_next_set_prev_off, get_prev_set_block_size_off, get_prev_set_id_off, get_prev_set_requested_size_off, get_prev_set_next_off, get_prev_set_prev_off, get_block_size_set_block_size_at, get_block_size_set_id_at, get_block_size_set_requested_size_at, get_id_set_block_size_at, get_id_set_id_at, get_id_set_requested_size_at, get_requested_size_set_block_size_at, get_requested_size_set_id_at, get_requested_size_set_requested_size_at, get_next_set_next_at, get_prev_set_prev_at, get_block_size_guard_set_next_off, get_block_size_guard_set_prev_off, get_id_guard_set_next_off, get_id_guard_set_prev_off, get_requested_size_guard_set_next_off, get_requested_size_guard_set_prev_off, get_next_guard_set_next_off, get_next_guard_set_prev_off, get_prev_guard_set_next_off, get_prev_guard_set_prev_off, Nat.mod_eq_of_lt, Nat.add_zero]
  have eN : next_block (mark_free t (H + 8)).mem (H + 8) = H + a := by
    unfold next_block
    rw [GET_FTR_payload _ H a 0 (by omega) (by omega) ha8 (by omega) b1,
      padd_eq _ _ (by unfold WSIZE; omega)]
    unfold WSIZE
    omega
  have b2 : get_block_size (mark_free t (H + 8)).mem (H - 8) % 2 = 1 := by
    rw [mark_free_mem_eq, hm]
    simp (disch := omega) only [get_block_size_set_block_size_off, get_block_size_set_id_off, get_block_size_set_requested_size_off, get_block_size_set_next_off, get_block_size_set_prev_off, get_id_set_block_size_off, get_id_set_id_off, get_id_set_requested_size_off, get_id_set_next_off, get_id_set_prev_off, get_requested_size_set_block_size_off, get_requested_size_set_id_off, get_requested_size_set_requested_size_off, get_requested_size_set_next_off, get_requested_size_set_prev_off, get_next_set_block_size_off, get_next_set_id_off, get_next_set_requested_size_off, get_next_set_next_off, get_next_set_prev_off, get_prev_set_block_size_off, get_prev_set_id_off, get_prev_set_requested_size_off, get_prev_set_next_off, get_prev_set_prev_off, get_block_size_set_block_size_at, get_block_size_set_id_at, get_block_size_set_requested_size_at, get_id_set_block_size_at, get_id_set_id_at, get_id_set_requested_size_at, get_requested_size_set_block_size_at, get_requested_size_set_id_at, get_requested_size_set_requested_size_at, get_next_set_next_at, get_prev_set_prev_at, get_block_size_guard_set_next_off, get_block_size_guard_set_prev_off, get_id_guard_set_next_off, get_id_guard_set_prev_off, get_requested_size_guard_set_next_off, get_requested_size_guard_set_prev_off, get_next_guard_set_next_off, get_next_guard_set_prev_off, get_prev_guard_set_next_off, get_prev_guard_set_prev_off]
    exact h7
  have b3 : get_block_size (mark_free t (H + 8)).mem (H + a) % 2 = 1 := by
    rw [mark_free_mem_eq, hm]
    simp (disch := omega) only [get_block_size_set_block_size_off, get_block_size_set_id_off, get_block_size_set_requested_size_off, get_block_size_set_next_off, get_block_size_set_prev_off, get_id_set_block_size_off, get_id_set_id_off, get_id_set_requested_size_off, get_id_set_next_off, get_id_set_prev_off, get_requested_size_set_block_size_off, get_requested_size_set_id_off, get_requested_size_set_requested_size_off, get_requested_size_set_next_off, get_requested_size_set_prev_off, get_next_set_block_size_off, get_next_set_id_off, get_next_set_requested_size_off, get_next_set_next_off, get_next_set_prev_off, get_prev_set_block_size_off, get_prev_set_id_off, get_prev_set_requested_size_off, get_prev_set_next_off, get_prev_set_prev_off, get_block_size_set_block_size_at, get_block_size_set_id_at, get_block_size_set_requested_size_at, get_id_set_block_size_at, get_id_set_id_at, get_id_set_requested_size_at, get_requested_size_set_block_size_at, get_requested_size_set_id_at, get_requested_size_set_requested_size_at, get_next_set_next_at, get_prev_set_prev_at, get_block_size_guard_set_next_off, get_block_size_guard_set_prev_off, get_id_guard_set_next_off, get_id_guard_set_prev_off, get_requested_size_guard_set_next_off, get_requested_size_guard_set_prev_off, get_next_guard_set_next_off, get_next_guard_set_prev_off, get_prev_guard_set_next_off, get_prev_guard_set_prev_off]
    exact h8
  have hhd : (mark_free t (H + 8)).freelist_head = NULL := (mark_free_frame _ _).2.2.1.trans h12
  obtain ⟨u, hi, hmem, hh, hn, hb, hp⟩ := insertFreeList_empty fuel (mark_free t (H + 8)) H hhd
  have hc : coalesce fuel (mark_free t (H + 8)) (H + 8) = some u := by
    unfold coalesce
    rw [eH, eP, eN, b2, b3, if_neg (by omega), if_neg (by omega), if_neg (by omega)]
    exact hi
  have e0 : NULL < W64 := by unfold NULL W64; omega
  refine ⟨u, ?_, ?_⟩
  · unfold ics_free
    rw [if_neg (by rw [hv]; decide), hc]
    rfl
  · rw [hmem, mark_free_mem_eq, hm]
    unfold insert_empty
    refine ⟨?_, ?_, ?_, ?_, ?_, ?_, hh, hn, hb.trans (mark_free_frame _ _).1,
      hp.trans (mark_free_frame _ _).2.1⟩
    · simp (disch := omega) only [get_block_size_set_block_size_off, get_block_size_set_id_off, get_block_size_set_requested_size_off, get_block_size_set_next_off, get_block_size_set_prev_off, get_id_set_block_size_off, get_id_set_id_off, get_id_set_requested_size_off, get_id_set_next_off, get_id_set_prev_off, get_requested_size_set_block_size_off, get_requested_size_set_id_off, get_requested_size_set_requested_size_off, get_requested_size_set_next_off, get_requested_size_set_prev_off, get_next_set_block_size_off, get_next_set_id_off, get_next_set_requested_size_off, get_next_set_next_off, get_next_set_prev_off, get_prev_set_block_size_off, get_prev_set_id_off, get_prev_set_requested_size_off, get_prev_set_next_off, get_prev_set_prev_off, get_block_size_set_block_size_at, get_block_size_set_id_at, get_block_size_set_requested_size_at, get_id_set_block_size_at, get_id_set_id_at, get_id_set_requested_size_at, get_requested_size_set_block_size_at, get_requested_size_set_id_at, get_requested_size_set_requested_size_at, get_next_set_next_at, get_prev_set_prev_at, get_block_size_guard_set_next_off, get_block_size_guard_set_prev_off, get_id_guard_set_next_off, get_id_guard_set_prev_off, get_requested_size_guard_set_next_off, get_requested_size_guard_set_prev_off, get_next_guard_set_next_off, get_next_guard_set_prev_off, get_prev_guard_set_next_off, get_prev_guard_set_prev_off, Nat.mod_eq_of_lt]
    · simp (disch := omega) only [get_block_size_set_block_size_off, get_block_size_set_id_off, get_block_size_set_requested_size_off, get_block_size_set_next_off, get_block_size_set_prev_off, get_id_set_block_size_off, get_id_set_id_off, get_id_set_requested_size_off, get_id_set_next_off, get_id_set_prev_off, get_requested_size_set_block_size_off, get_requested_size_set_id_off, get_requested_size_set_requested_size_off, get_requested_size_set_next_off, get_requested_size_set_prev_off, get_next_set_block_size_off, get_next_set_id_off, get_next_set_requested_size_off, get_next_set_next_off, get_next_set_prev_off, get_prev_set_block_size_off, get_prev_set_id_off, get_prev_set_requested_size_off, get_prev_set_next_off, get_prev_set_prev_off, get_block_size_set_block_size_at, get_block_size_set_id_at, get_block_size_set_requested_size_at, get_id_set_block_size_at, get_id_set_id_at, get_id_set_requested_size_at, get_requested_size_set_block_size_at, get_requested_size_set_id_at, get_requested_size_set_requested_size_at, get_next_set_next_at, get_prev_set_prev_at, get_block_size_guard_set_next_off, get_block_size_guard_set_prev_off, get_id_guard_set_next_off, get_id_guard_set_prev_off, get_requested_size_guard_set_next_off, get_requested_size_guard_set_prev_off, get_next_guard_set_next_off, get_next_guard_set_prev_off, get_prev_guard_set_next_off, get_prev_guard_set_prev_off, Nat.zero_mod]
    · simp (disch := omega) only [get_block_size_set_block_size_off, get_block_size_set_id_off, get_block_size_set_requested_size_off, get_block_size_set_next_off, get_block_size_set_prev_off, get_id_set_block_size_off, get_id_set_id_off, get_id_set_requested_size_off, get_id_set_next_off, get_id_set_prev_off, get_requested_size_set_block_size_off, get_requested_size_set_id_off, get_requested_size_set_requested_size_off, get_requested_size_set_next_off, get_requested_size_set_prev_off, get_next_set_block_size_off, get_next_set_id_off, get_next_set_requested_size_off, get_next_set_next_off, get_next_set_prev_off, get_prev_set_block_size_off, get_prev_set_id_off, get_prev_set_requested_size_off, get_prev_set_next_off, get_prev_set_prev_off, get_block_size_set_block_size_at, get_block_size_set_id_at, get_block_size_set_requested_size_at, get_id_set_block_size_at, get_id_set_id_at, get_id_set_requested_size_at, get_requested_size_set_block_size_at, get_requested_size_set_id_at, get_requested_size_set_requested_size_at, get_next_set_next_at, get_prev_set_prev_at, get_block_size_guard_set_next_off, get_block_size_guard_set_prev_off, get_id_guard_set_next_off, get_id_guard_set_prev_off, get_requested_size_guard_set_next_off, get_requested_size_guard_set_prev_off, get_next_guard_set_next_off, get_next_guard_set_prev_off, get_prev_guard_set_next_off, get_prev_guard_set_prev_off, Nat.mod_eq_of_lt]
    · simp (disch := omega) only [get_block_size_set_block_size_off, get_block_size_set_id_off, get_block_size_set_requested_size_off, get_block_size_set_next_off, get_block_size_set_prev_off, get_id_set_block_size_off, get_id_set_id_off, get_id_set_requested_size_off, get_id_set_next_off, get_id_set_prev_off, get_requested_size_set_block_size_off, get_requested_size_set_id_off, get_requested_size_set_requested_size_off, get_requested_size_set_next_off, get_requested_size_set_prev_off, get_next_set_block_size_off, get_next_set_id_off, get_next_set_requested_size_off, get_next_set_next_off, get_next_set_prev_off, get_prev_set_block_size_off, get_prev_set_id_off, get_prev_set_requested_size_off, get_prev_set_next_off, get_prev_set_prev_off, get_block_size_set_block_size_at, get_block_size_set_id_at, get_block_size_set_requested_size_at, get_id_set_block_size_at, get_id_set_id_at, get_id_set_requested_size_at, get_requested_size_set_block_size_at, get_requested_size_set_id_at, get_requested_size_set_requested_size_at, get_next_set_next_at, get_prev_set_prev_at, get_block_size_guard_set_next_off, get_block_size_guard_set_prev_off, get_id_guard_set_next_off, get_id_guard_set_prev_off, get_requested_size_guard_set_next_off, get_requested_size_guard_set_prev_off, get_next_guard_set_next_off, get_next_guard_set_prev_off, get_prev_guard_set_next_off, get_prev_guard_set_prev_off, Nat.zero_mod]
    · simp (disch := omega) only [get_block_size_set_block_size_off, get_block_size_set_id_off, get_block_size_set_requested_size_off, get_block_size_set_next_off, get_block_size_set_prev_off, get_id_set_block_size_off, get_id_set_id_off, get_id_set_requested_size_off, get_id_set_next_off, get_id_set_prev_off, get_requested_size_set_block_size_off, get_requested_size_set_id_off, get_requested_size_set_requested_size_off, get_requested_size_set_next_off, get_requested_size_set_prev_off, get_next_set_block_size_off, get_next_set_id_off, get_next_set_requested_size_off, get_next_set_next_off, get_next_set_prev_off, get_prev_set_block_size_off, get_prev_set_id_off, get_prev_set_requested_size_off, get_prev_set_next_off, get_prev_set_prev_off, get_block_size_set_block_size_at, get_block_size_set_id_at, get_block_size_set_requested_size_at, get_id_set_block_size_at, get_id_set_id_at, get_id_set_requested_size_at, get_requested_size_set_block_size_at, get_requested_size_set_id_at, get_requested_size_set_requested_size_at, get_next_set_next_at, get_prev_set_prev_at, get_block_size_guard_set_next_off, get_block_size_guard_set_prev_off, get_id_guard_set_next_off, get_id_guard_set_prev_off, get_requested_size_guard_set_next_off, get_requested_size_guard_set_prev_off, get_next_guard_set_next_off, get_next_guard_set_prev_off, get_prev_guard_set_next_off, get_prev_guard_set_prev_off]
    · simp (disch := omega) only [get_block_size_set_block_size_off, get_block_size_set_id_off, get_block_size_set_requested_size_off, get_block_size_set_next_off, get_block_size_set_prev_off, get_id_set_block_size_off, get_id_set_id_off, get_id_set_requested_size_off, get_id_set_next_off, get_id_set_prev_off, get_requested_size_set_block_size_off, get_requested_size_set_id_off, get_requested_size_set_requested_size_off, get_requested_size_set_next_off, get_requested_size_set_prev_off, get_next_set_block_size_off, get_next_set_id_off, get_next_set_requested_size_off, get_next_set_next_off, get_next_set_prev_off, get_prev_set_block_size_off, get_prev_set_id_off, get_prev_set_requested_size_off, get_prev_set_next_off, get_prev_set_prev_off, get_block_size_set_block_size_at, get_block_size_set_id_at, get_block_size_set_requested_size_at, get_id_set_block_size_at, get_id_set_id_at, get_id_set_requested_size_at, get_requested_size_set_block_size_at, get_requested_size_set_id_at, get_requested_size_set_requested_size_at, get_next_set_next_at, get_prev_set_prev_at, get_block_size_guard_set_next_off, get_block_size_guard_set_prev_off, get_id_guard_set_next_off, get_id_guard_set_prev_off, get_requested_size_guard_set_next_off, get_requested_size_guard_set_prev_off, get_next_guard_set_next_off, get_next_guard_set_prev_off, get_prev_guard_set_next_off, get_prev_guard_set_prev_off]

/-! ## The first allocation on the fresh heap -/

set_option maxRecDepth 100000 in
/-- The heap right after the first-malloc setup on the fresh allocator. -/
theorem fresh_setup_shape :
    fresh_setup.freelist_head = 65544 ∧ fresh_setup.freelist_next = 65544 ∧
    fresh_setup.prologue = 65536 ∧ fresh_setup.brk = 69632 ∧
    get_block_size fresh_setup.mem 65544 = 4080 ∧ get_id fresh_setup.mem 65544 = HEADER_MAGIC ∧
    get_requested_size fresh_setup.mem 65544 = 0 ∧
    get_next fresh_setup.mem 65544 = NULL ∧ get_prev fresh_setup.mem 65544 = NULL ∧
    get_block_size fresh_setup.mem 69616 = 4080 ∧ get_id fresh_setup.mem 69616 = FOOTER_MAGIC ∧
    get_requested_size fresh_setup.mem 69616 = 0 ∧
    get_block_size fresh_setup.mem 65536 = 1 ∧ get_block_size fresh_setup.mem 69624 = 1 := by
  decide

set_option maxRecDepth 100000 in
theorem fresh_first_page : ics_inc_brk fresh = ((ics_inc_brk fresh).1, some 65536) :=
  Prod.ext rfl (by decide)

/-- The first `ics_malloc(S)` on the fresh allocator, `1 ≤ S ≤ 4064`: the search
finds the free block at `65544` and `allocate` places the request there. -/
theorem ics_malloc_fresh (fuel S : Nat) (hS1 : 1 ≤ S) (hS2 : S ≤ 4064) (hf : 1 ≤ fuel) :
    ics_malloc fuel fresh S =
      some ((allocate fresh_setup 65544 (adjust_size S) S).1, 65552) := by
  obtain ⟨_, hn, _, _, hb, _⟩ := fresh_setup_shape
  have hA := adjust_size_bounds S (by omega)
  have hA2 : adjust_size S ≤ 4080 := by
    unfold adjust_size DSIZE MIN_BLOCK_SIZE W64 at *
    by_cases h : S ≤ 16
    · rw [if_pos h]; omega
    · rw [if_neg h]; omega
  obtain ⟨f, rfl⟩ : ∃ f, fuel = f + 1 := ⟨fuel - 1, by omega⟩
  have hfind : find_next_fit (f + 1) fresh_setup (adjust_size S) = some 65544 := by
    unfold find_next_fit
    rw [hn, if_neg (by decide), find_next_fit_loop, hb, if_pos (by omega)]
  have key : ics_malloc_place (f + 1) fresh_setup S =
      some ((allocate fresh_setup 65544 (adjust_size S) S).1, 65552) := by
    unfold ics_malloc_place
    rw [hfind, Option.some_bind, if_pos (by decide)]
    rfl
  have hfm : fresh.first_malloc = true := rfl
  unfold ics_malloc
  rw [if_neg (by omega), if_neg (by unfold MAXHEAP_SIZE; omega), hfm, if_pos rfl, fresh_first_page]
  exact key

/-- Split branch: a header word outside the block, and not a link word of a list
neighbour, is unchanged. -/
theorem allocate_split_outside (s : State) (bk asize req b x : Nat)
    (hw : bk + b < W64) (ha : 32 ≤ asize) (ha2 : asize % 2 = 0) (hab : asize + 32 ≤ b)
    (hb : b < 65536)
    (hP : get_prev s.mem bk = NULL ∨ get_prev s.mem bk + 32 ≤ bk ∨ bk + b ≤ get_prev s.mem bk)
    (hN : get_next s.mem bk = NULL ∨ get_next s.mem bk + 32 ≤ bk ∨ bk + b ≤ get_next s.mem bk)
    (hx : x + 8 ≤ bk ∨ bk + b ≤ x)
    (hxP : get_prev s.mem bk = NULL ∨ x + 8 ≤ get_prev s.mem bk + 8 ∨ get_prev s.mem bk + 16 ≤ x)
    (hxN : get_next s.mem bk = NULL ∨ x + 8 ≤ get_next s.mem bk + 16 ∨
      get_next s.mem bk + 24 ≤ x) :
    get_block_size (allocate_split_mem s bk asize req b) x = get_block_size s.mem x := by
  rw [allocate_split_mem_nf s bk asize req b hw ha ha2 hab hb hP hN]
  clear hP hN
  simp (disch := omega) only [get_block_size_set_block_size_off, get_block_size_set_id_off, get_block_size_set_requested_size_off, get_block_size_set_next_off, get_block_size_set_prev_off, get_id_set_block_size_off, get_id_set_id_off, get_id_set_requested_size_off, get_id_set_next_off, get_id_set_prev_off, get_requested_size_set_block_size_off, get_requested_size_set_id_off, get_requested_size_set_requested_size_off, get_requested_size_set_next_off, get_requested_size_set_prev_off, get_next_set_block_size_off, get_next_set_id_off, get_next_set_requested_size_off, get_next_set_next_off, get_next_set_prev_off, get_prev_set_block_size_off, get_prev_set_id_off, get_prev_set_requested_size_off, get_prev_set_next_off, get_prev_set_prev_off, get_block_size_set_block_size_at, get_block_size_set_id_at, get_block_size_set_requested_size_at, get_id_set_block_size_at, get_id_set_id_at, get_id_set_requested_size_at, get_requested_size_set_block_size_at, get_requested_size_set_id_at, get_requested_size_set_requested_size_at, get_next_set_next_at, get_prev_set_prev_at, get_block_size_guard_set_next_off, get_block_size_guard_set_prev_off, get_id_guard_set_next_off, get_id_guard_set_prev_off, get_requested_size_guard_set_next_off, get_requested_size_guard_set_prev_off, get_next_guard_set_next_off, get_next_guard_set_prev_off, get_prev_guard_set_next_off, get_prev_guard_set_prev_off]

/-- No-split branch: a header word outside the block, and not a link word of a list
neighbour, is unchanged. -/
theorem allocate_nosplit_outside (s : State) (bk req b x : Nat)
    (hw : bk + b < W64) (hb32 : 32 ≤ b)
    (hP : get_prev s.mem bk = NULL ∨ get_prev s.mem bk + 32 ≤ bk ∨ bk + b ≤ get_prev s.mem bk)
    (hx : x + 8 ≤ bk ∨ bk + b ≤ x)
    (hxP : get_prev s.mem bk = NULL ∨ x + 8 ≤ get_prev s.mem bk + 8 ∨ get_prev s.mem bk + 16 ≤ x)
    (hxN : get_next s.mem bk = NULL ∨ x + 8 ≤ get_next s.mem bk + 16 ∨
      get_next s.mem bk + 24 ≤ x) :
    get_block_size (allocate_nosplit_mem s bk req b) x = get_block_size s.mem x := by
  have e1 : psub (padd bk b) WSIZE = bk + b - 8 := by
    rw [padd_eq _ _ hw]
    exact psub_eq _ _ (by unfold WSIZE; omega) hw
  unfold allocate_nosplit_mem
  rw [allocate_nosplit_unlink_nf s bk req b (by omega)]
  simp only [nosplit_footer, e1]
  clear hP
  simp (disch := omega) only [get_block_size_set_block_size_off, get_block_size_set_id_off, get_block_size_set_requested_size_off, get_block_size_set_next_off, get_block_size_set_prev_off, get_id_set_block_size_off, get_id_set_id_off, get_id_set_requested_size_off, get_id_set_next_off, get_id_set_prev_off, get_requested_size_set_block_size_off, get_requested_size_set_id_off, get_requested_size_set_requested_size_off, get_requested_size_set_next_off, get_requested_size_set_prev_off, get_next_set_block_size_off, get_next_set_id_off, get_next_set_requested_size_off, get_next_set_next_off, get_next_set_prev_off, get_prev_set_block_size_off, get_prev_set_id_off, get_prev_set_requested_size_off, get_prev_set_next_off, get_prev_set_prev_off, get_block_size_set_block_size_at, get_block_size_set_id_at, get_block_size_set_requested_size_at, get_id_set_block_size_at, get_id_set_id_at, get_id_set_requested_size_at, get_requested_size_set_block_size_at, get_requested_size_set_id_at, get_requested_size_set_requested_size_at, get_next_set_next_at, get_prev_set_prev_at, get_block_size_guard_set_next_off, get_block_size_guard_set_prev_off, get_id_guard_set_next_off, get_id_guard_set_prev_off, get_requested_size_guard_set_next_off, get_requested_size_guard_set_prev_off, get_next_guard_set_next_off, get_next_guard_set_prev_off, get_prev_guard_set_next_off, get_prev_guard_set_prev_off]

theorem allocate_split_frame (s : State) (bp asize reqSize b : Nat) :
    (allocate_split s bp asize reqSize b).brk = s.brk ∧
      (allocate_split s bp asize reqSize b).prologue = s.prologue := by
  cases s
  exact ⟨rfl, rfl⟩

theorem allocate_nosplit_frame (s : State) (bp reqSize b : Nat) :
    (allocate_nosplit s bp reqSize b).brk = s.brk ∧
      (allocate_nosplit s bp reqSize b).prologue = s.prologue := by
  cases s
  exact ⟨rfl, rfl⟩

/-! ## Allocate-then-release round trip -/

/-- C12: on the fresh allocator, for every size `S` with `1 ≤ S ≤ 4064`,
`ics_malloc(S)` returns `65552` and `ics_free` of that pointer returns `0`;
afterwards the block at `65544`, right after the prologue at `65536`, has size
`4080` (it ends at the epilogue `69624 = brk - 8`) with the flag clear and
`requested_size` 0 in its header and in its footer at `69616`, and the free list
from `freelist_head` is exactly that block, with null links. -/
theorem malloc_free_round_trip (fuel S : Nat) (hS1 : 1 ≤ S) (hS2 : S ≤ 4064) (hf : 1 ≤ fuel) :
    ∃ t u, ics_malloc fuel fresh S = some (t, 65552) ∧ ics_free fuel t 65552 = some (u, 0) ∧
      u.prologue = 65536 ∧ u.brk = 69632 ∧
      get_block_size u.mem (65536 + 8) = 4080 ∧ get_requested_size u.mem 65544 = 0 ∧
      get_block_size u.mem (65544 + 4080 - 8) = 4080 ∧
      get_requested_size u.mem (65544 + 4080 - 8) = 0 ∧
      65544 + 4080 = 69632 - 8 ∧ 4080 % 2 = 0 ∧
      free_list u [65544] := by
  obtain ⟨hh, hn, hpro, hbrk, hb, hid, hrs, hnx, hpv, hfb, hfid, hfrs, hpb, heb⟩ :=
    fresh_setup_shape
  have hA := adjust_size_bounds S (by omega)
  have hA2 : adjust_size S ≤ 4080 := by
    unfold adjust_size DSIZE MIN_BLOCK_SIZE W64 at *
    by_cases h : S ≤ 16
    · rw [if_pos h]; omega
    · rw [if_neg h]; omega
  have hW : (65544 : Nat) + 4080 < W64 := by unfold W64; omega
  have hSq : S % 65536 = S := Nat.mod_eq_of_lt (by omega)
  have hepi : psub 69632 WSIZE = 69624 := by decide
  have hm := ics_malloc_fresh fuel S hS1 hS2 hf
  unfold allocate at hm
  rw [hb] at hm
  by_cases hs : 32 ≤ 4080 - adjust_size S
  · have e3 : psub 4080 (adjust_size S) = 4080 - adjust_size S :=
      psub_eq _ _ hA2 (by unfold W64; omega)
    rw [if_pos (by rw [e3]; exact hs)] at hm
    have T := allocate_split_tags fresh_setup 65544 (adjust_size S) S 4080 hW hA.2.1 (by omega)
      (by omega) (by omega) (Or.inl hpv) (Or.inl hnx)
    have O := allocate_split_own_links fresh_setup 65544 (adjust_size S) S 4080 hW hA.2.1
      (by omega) (by omega) (by omega) (Or.inl hpv) (Or.inl hnx)
    have X := allocate_split_outside fresh_setup 65544 (adjust_size S) S 4080 65536 hW hA.2.1
      (by omega) (by omega) (by omega) (Or.inl hpv) (Or.inl hnx) (by omega) (Or.inl hpv)
      (Or.inl hnx)
    have e1 : padd 65544 (adjust_size S) = 65544 + adjust_size S :=
      padd_eq _ _ (by unfold W64; omega)
    obtain ⟨u, hu, u1, u2, u3, u4, u5, u6, u7, u8, u9⟩ :=
      ics_free_merges_right fuel (allocate_split fresh_setup 65544 (adjust_size S) S 4080)
        65544 (adjust_size S) (4080 - adjust_size S) S (by omega) (by unfold W64; omega)
        hA.2.1 (by omega) hs (by omega) (by omega)
        (by rw [(allocate_split_frame _ _ _ _ _).2, hpro]; omega)
        (by rw [(allocate_split_frame _ _ _ _ _).1, hbrk, hepi]; omega)
        (by rw [allocate_split_mem_eq]; exact T.1)
        (by rw [allocate_split_mem_eq]; exact T.2.2.1.trans hid)
        (by rw [allocate_split_mem_eq]; exact T.2.1.trans hSq)
        (by rw [allocate_split_mem_eq]; exact T.2.2.2.1)
        (by rw [allocate_split_mem_eq]; exact T.2.2.2.2.2.1)
        (by rw [allocate_split_mem_eq]; exact T.2.2.2.2.1.trans hSq)
        (by rw [allocate_split_mem_eq, X, hpb])
        (by rw [allocate_split_mem_eq]; exact T.2.2.2.2.2.2.1)
        (by rw [allocate_split_mem_eq]; exact O.1.trans hnx)
        (by rw [allocate_split_mem_eq]; exact O.2.trans hpv)
        (by
          rw [allocate_split_mem_eq,
            show 65544 + adjust_size S + (4080 - adjust_size S) - 8 = 65544 + 4080 - 8 by omega]
          exact T.2.2.2.2.2.2.2.2.2.2.1)
        (by rw [allocate_split_head_eq, hh, if_pos rfl, e1])
    have e5 : 65544 + adjust_size S + (4080 - adjust_size S) - 8 = 65544 + 4080 - 8 := by omega
    have e6 : adjust_size S + (4080 - adjust_size S) = 4080 := by omega
    rw [e5, e6] at u3
    rw [e5] at u4
    rw [e6] at u1
    refine ⟨_, u, hm, hu, ?_, ?_, u1, u2, u3, u4, by omega, by omega, u7, ?_⟩
    · rw [u9, (allocate_split_frame _ _ _ _ _).2, hpro]
    · rw [u8, (allocate_split_frame _ _ _ _ _).1, hbrk]
    · exact ⟨by decide, u6, u5, trivial⟩
  · have e3 : psub 4080 (adjust_size S) = 4080 - adjust_size S :=
      psub_eq _ _ hA2 (by unfold W64; omega)
    rw [if_neg (by rw [e3]; unfold MIN_BLOCK_SIZE; omega)] at hm
    have T := allocate_nosplit_tags fresh_setup 65544 S 4080 hW (by omega) (by omega) (by omega)
      (Or.inl hpv) (Or.inl hnx)
    have X1 := allocate_nosplit_outside fresh_setup 65544 S 4080 65536 hW (by omega)
      (Or.inl hpv) (by omega) (Or.inl hpv) (Or.inl hnx)
    have X2 := allocate_nosplit_outside fresh_setup 65544 S 4080 69624 hW (by omega)
      (Or.inl hpv) (by omega) (Or.inl hpv) (Or.inl hnx)
    have hsn := allocate_nosplit_seen_next fresh_setup 65544 S 4080 (Or.inl hpv) (Or.inl hnx)
    obtain ⟨u, hu, u1, u2, u3, u4, u5, u6, u7, u8, u9, u10⟩ :=
      ics_free_alone fuel (allocate_nosplit fresh_setup 65544 S 4080) 65544 4080 S
        (by omega) (by unfold W64; omega) (by omega) (by omega) (by omega)
        (by rw [(allocate_nosplit_frame _ _ _ _).2, hpro]; omega)
        (by rw [(allocate_nosplit_frame _ _ _ _).1, hbrk, hepi])
        (by rw [allocate_nosplit_mem_eq]; exact T.1)
        (by rw [allocate_nosplit_mem_eq]; exact T.2.2.1.trans hid)
        (by rw [allocate_nosplit_mem_eq]; exact T.2.1.trans hSq)
        (by rw [allocate_nosplit_mem_eq]; exact T.2.2.2.1)
        (by rw [allocate_nosplit_mem_eq]; exact T.2.2.2.2.2.trans hfid)
        (by rw [allocate_nosplit_mem_eq]; exact T.2.2.2.2.1.trans hSq)
        (by rw [allocate_nosplit_mem_eq, X1, hpb])
        (by rw [allocate_nosplit_mem_eq, X2, heb])
        (by
          rw [allocate_nosplit_head_eq]
          unfold allocate_nosplit_head
          rw [hsn, hnx, hh, if_pos ⟨rfl, rfl⟩])
    refine ⟨_, u, hm, hu, ?_, ?_, u1, u2, u3, u4, by omega, by omega, u7, ?_⟩
    · rw [u10, (allocate_nosplit_frame _ _ _ _).2, hpro]
    · rw [u9, (allocate_nosplit_frame _ _ _ _).1, hbrk]
    · exact ⟨by decide, u6, u5, trivial⟩

/-- C12 (witness): the round trip at `S = 4064`. -/
theorem malloc_free_round_trip_witness :
    (1 ≤ 4064 ∧ 4064 ≤ 4064 ∧ 1 ≤ 5) ∧
    ∃ t u, ics_malloc 5 fresh 4064 = some (t, 65552) ∧ ics_free 5 t 65552 = some (u, 0) ∧
      u.prologue = 65536 ∧ u.brk = 69632 ∧
      get_block_size u.mem (65536 + 8) = 4080 ∧ get_requested_size u.mem 65544 = 0 ∧
      get_block_size u.mem (65544 + 4080 - 8) = 4080 ∧
      get_requested_size u.mem (65544 + 4080 - 8) = 0 ∧
      65544 + 4080 = 69632 - 8 ∧ 4080 % 2 = 0 ∧
      free_list u [65544] :=
  ⟨⟨by decide, by decide, by decide⟩,
    malloc_free_round_trip 5 4064 (by decide) (by decide) (by decide)⟩

/-! ## Heap growth -/

/-- The search on a well-formed list with the cursor on a member: it returns within
a budget of the list length, a null result means that no member fits, and a
non-null result is a member that fits. -/
theorem find_next_fit_on_list (s : State) (l : List Nat) (asize fuel : Nat)
    (hl : free_list s l)
    (hc : (l = [] ∧ s.freelist_next = NULL) ∨ s.freelist_next ∈ l)
    (hf : l.length ≤ fuel) :
    ∃ v, find_next_fit fuel s asize = some v ∧
      (v = NULL → ∀ x ∈ l, get_block_size s.mem x < asize) ∧
      (v ≠ NULL → v ∈ l ∧ asize ≤ get_block_size s.mem v) := by
  rcases hc with ⟨rfl, hn⟩ | hc
  · refine ⟨NULL, ?_, fun _ x hx => absurd hx (List.not_mem_nil x), fun h => absurd rfl h⟩
    unfold find_next_fit
    rw [if_pos hn]
  · obtain ⟨i, hil, hie⟩ := List.getElem_of_mem hc
    have hnext := is_chain_next s.mem l NULL hl.2
    have hnd := is_chain_nodup s.mem l NULL hl.2
    have hcn : s.freelist_next ≠ NULL := by
      rw [← hie]
      exact (hnext i hil).1
    have hlen : (l.rotate i).length = l.length := List.length_rotate l i
    have hget : ∀ k, k < l.length →
        ((l.rotate i)[k]?).getD NULL = l[(k + i) % l.length]?.getD NULL := by
      intro k hk
      rw [List.getElem?_rotate hk]
    have h0 : ((l.rotate i)[0]?).getD NULL = s.freelist_next := by
      rw [hget 0 (by omega), Nat.zero_add, Nat.mod_eq_of_lt hil, List.getElem?_eq_getElem hil,
        Option.getD_some, hie]
    have key := find_next_fit_loop_cyclic s asize (l.rotate i) (List.nodup_rotate.mpr hnd)
      ?_ h0 l.length fuel 0 (by omega) hf (by omega)
    · rw [h0, List.drop_zero] at key
      refine ⟨((l.rotate i).find?
        (fun a => decide (asize ≤ get_block_size s.mem a))).getD NULL, ?_, ?_, ?_⟩
      · unfold find_next_fit
        rw [if_neg hcn]
        exact key
      · intro hv x hx
        cases hfd : (l.rotate i).find? (fun a => decide (asize ≤ get_block_size s.mem a)) with
        | none =>
          have := List.find?_eq_none.mp hfd x (List.mem_rotate.mpr hx)
          simp only [decide_eq_true_eq] at this
          omega
        | some w =>
          rw [hfd, Option.getD_some] at hv
          have hw : w ∈ l := List.mem_rotate.mp (List.mem_of_find?_eq_some hfd)
          obtain ⟨j, hj, hje⟩ := List.getElem_of_mem hw
          rw [← hje] at hv
          exact absurd hv (hnext j hj).1
      · intro hv
        cases hfd : (l.rotate i).find? (fun a => decide (asize ≤ get_block_size s.mem a)) with
        | none =>
          rw [hfd] at hv
          exact absurd rfl hv
        | some w =>
          rw [Option.getD_some]
          have h1 := List.find?_some hfd
          simp only [decide_eq_true_eq] at h1
          exact ⟨List.mem_rotate.mp (List.mem_of_find?_eq_some hfd), h1⟩
    · intro k hk
      rw [hlen] at hk ⊢
      have hm : (k + 1) % l.length < l.length := Nat.mod_lt _ (by omega)
      have hj : (k + i) % l.length < l.length := Nat.mod_lt _ (by omega)
      rw [hget k hk, hget _ hm, List.getElem?_eq_getElem hj, Option.getD_some,
        (hnext _ hj).2]
      have e2 : ((k + 1) % l.length + i) % l.length = ((k + i) % l.length + 1) % l.length := by
        rw [Nat.add_mod, Nat.mod_mod, ← Nat.add_mod, Nat.add_mod ((k + i) % l.length) 1,
          Nat.mod_mod, ← Nat.add_mod]
        congr 1
        omega
      rw [e2]
      by_cases hlast : (k + i) % l.length + 1 < l.length
      · rw [Nat.mod_eq_of_lt hlast, List.getElem?_eq_getElem hlast, Option.getD_some,
          if_neg (hnext _ hlast).1]
      · have e3 : (k + i) % l.length + 1 = l.length := by omega
        rw [e3, Nat.mod_self, List.getElem?_eq_none (le_refl _), Option.getD_none,
          if_pos rfl, hl.1]
        cases l with
        | nil => simp
        | cons a t => simp

/-- A successful page request: the boundary moves up by one page, the old boundary
is returned, one provider call is consumed and nothing else changes. -/
theorem ics_inc_brk_granted (s : State) (h : s.provider s.calls = true) (hW : s.brk + 4096 < W64) :
    ∃ s1, ics_inc_brk s = (s1, some s.brk) ∧ s1.mem = s.mem ∧ s1.brk = s.brk + 4096 ∧
      s1.calls = s.calls + 1 ∧ s1.provider = s.provider ∧ s1.prologue = s.prologue ∧
      s1.freelist_head = s.freelist_head ∧ s1.freelist_next = s.freelist_next := by
  unfold ics_inc_brk
  rw [if_pos h]
  exact ⟨_, rfl, rfl, padd_eq _ _ hW, rfl, rfl, rfl, rfl, rfl⟩

/-- A failed page request: one provider call is consumed and nothing else
changes. -/
theorem ics_inc_brk_refused (s : State) (h : s.provider s.calls = false) :
    ∃ s1, ics_inc_brk s = (s1, none) ∧ s1.calls = s.calls + 1 ∧ s1.provider = s.provider := by
  unfold ics_inc_brk
  rw [if_neg (by rw [h]; decide)]
  exact ⟨_, rfl, rfl, rfl⟩

theorem extend_heap_format_frame (s : State) (brk : Nat) :
    (extend_heap_format s brk).brk = s.brk ∧ (extend_heap_format s brk).calls = s.calls ∧
      (extend_heap_format s brk).provider = s.provider ∧
      (extend_heap_format s brk).prologue = s.prologue ∧
      (extend_heap_format s brk).freelist_head = s.freelist_head ∧
      (extend_heap_format s brk).freelist_next = s.freelist_next := by
  cases s
  exact ⟨rfl, rfl, rfl, rfl, rfl, rfl⟩

/-- The stores of `extend_heap` that format the new page, for the old boundary `B`:
epilogue at `B + 4088`, footer at `B + 4080`, header at `B - 8`. -/
theorem extend_heap_format_mem (s : State) (B : Nat) (hB : 8 ≤ B) (hW : B + 4096 < W64)
    (hb : s.brk = B + 4096) :
    (extend_heap_format s B).mem =
      set_requested_size (set_id (set_block_size
        (set_requested_size (set_id (set_block_size
          (set_requested_size (set_id (set_block_size s.mem (B + 4088) 1) (B + 4088) HEADER_MAGIC)
            (B + 4088) 1)
          (B + 4080) PAGE) (B + 4080) FOOTER_MAGIC) (B + 4080) 0)
        (B - 8) PAGE) (B - 8) HEADER_MAGIC) (B - 8) 0 := by
  have e1 : psub (B + 4096) WSIZE = B + 4088 := by
    rw [psub_eq _ _ (by unfold WSIZE; omega) hW]
    unfold WSIZE
    omega
  have e2 : psub (B + 4088) WSIZE = B + 4080 := by
    rw [psub_eq _ _ (by unfold WSIZE; omega) (by omega)]
    unfold WSIZE
    omega
  have e3 : psub B WSIZE = B - 8 := by
    rw [psub_eq _ _ (by unfold WSIZE; omega) (by omega)]
    rfl
  simp only [extend_heap_format, ics_get_brk, hb, e1, e2, e3]

theorem coalesce_case2_frame (s : State) (block size : Nat) :
    (coalesce_case2 s block size).brk = s.brk ∧
      (coalesce_case2 s block size).calls = s.calls ∧
      (coalesce_case2 s block size).provider = s.provider ∧
      (coalesce_case2 s block size).freelist_head = s.freelist_head ∧
      (coalesce_case2 s block size).freelist_next = s.freelist_next := by
  cases s
  exact ⟨rfl, rfl, rfl, rfl, rfl⟩

theorem coalesce_case2_mem (s : State) (block size : Nat) :
    (coalesce_case2 s block size).mem = case2_stores s.mem block (prev_free_block s.mem block)
      ((size + get_block_size s.mem (psub (GET_HDR block) WSIZE)) % W64) := by
  simp only [coalesce_case2]

theorem PAYLOAD_old_epilogue (B : Nat) (hB : 8 ≤ B) (hW : B < W64) :
    PAYLOAD (psub B WSIZE) = B - 8 + 8 := by
  unfold PAYLOAD
  rw [psub_eq _ _ (by unfold WSIZE; omega) hW, padd_eq _ _ (by unfold WSIZE; omega)]
  rfl

/-- One round of `extend_heap` after a granted page when the last block is free:
case 2 of `coalesce` merges the page into it. -/
theorem extend_heap_page_merge (fuel : Nat) (s s1 : State) (l : List Nat) (r : Nat)
    (hfl : free_list s l) (hpw : l.Pairwise (fun a b => a + 32 ≤ b))
    (hx : ∀ x ∈ l, x + 40 ≤ s.brk ∧ get_block_size s.mem x % 2 = 0)
    (hr32 : 32 ≤ r) (hr8 : r % 8 = 0) (hrB : r + 8 ≤ s.brk)
    (hft : get_block_size s.mem (s.brk - 16) = r)
    (hlast : l.getLast? = some (s.brk - 8 - r))
    (hW : s.brk + 4096 + 8 < W64) (hr : r + 4096 < 65536)
    (h1m : s1.mem = s.mem) (h1b : s1.brk = s.brk + 4096)
    (h1h : s1.freelist_head = s.freelist_head) :
    ∃ s3, coalesce fuel (extend_heap_format s1 s.brk) (PAYLOAD (psub s.brk WSIZE)) = some s3 ∧
      s3.brk = s1.brk ∧ s3.calls = s1.calls ∧ s3.provider = s1.provider ∧
      s3.freelist_next = s1.freelist_next ∧
      free_list s3 l ∧
      (∀ x ∈ l, get_block_size s3.mem x % 2 = 0) ∧
      get_block_size s3.mem (s.brk + 4096 - 16) = r + 4096 ∧
      get_block_size s3.mem (s.brk - 8 - r) = r + 4096 ∧
      (∀ y, s.brk + 4096 - 8 ≤ y → get_next s3.mem y = get_next s.mem y) := by
  have hmem : s.brk - 8 - r ∈ l := List.mem_of_mem_getLast? hlast
  have hM := extend_heap_format_mem s1 s.brk (by omega) (by omega) h1b
  rw [h1m] at hM
  have eH := GET_HDR_payload (s.brk - 8) (by omega)
  have eP : psub (s.brk - 8) WSIZE = s.brk - 16 := by
    rw [psub_eq _ _ (by unfold WSIZE; omega) (by omega)]
    unfold WSIZE
    omega
  have ePG : PAGE = 4096 := rfl
  have b1 : get_block_size (extend_heap_format s1 s.brk).mem (s.brk - 8) = 4096 + 0 := by
    rw [hM, ePG]
    simp (disch := omega) only [get_block_size_set_block_size_off, get_block_size_set_id_off, get_block_size_set_requested_size_off, get_block_size_set_next_off, get_block_size_set_prev_off, get_id_set_block_size_off, get_id_set_id_off, get_id_set_requested_size_off, get_id_set_next_off, get_id_set_prev_off, get_requested_size_set_block_size_off, get_requested_size_set_id_off, get_requested_size_set_requested_size_off, get_requested_size_set_next_off, get_requested_size_set_prev_off, get_next_set_block_size_off, get_next_set_id_off, get_next_set_requested_size_off, get_next_set_next_off, get_next_set_prev_off, get_prev_set_block_size_off, get_prev_set_id_off, get_prev_set_requested_size_off, get_prev_set_next_off, get_prev_set_prev_off, get_block_size_set_block_size_at, get_block_size_set_id_at, get_block_size_set_requested_size_at, get_id_set_block_size_at, get_id_set_id_at, get_id_set_requested_size_at, get_requested_size_set_block_size_at, get_requested_size_set_id_at, get_requested_size_set_requested_size_at, get_next_set_next_at, get_prev_set_prev_at, get_block_size_guard_set_next_off, get_block_size_guard_set_prev_off, get_id_guard_set_next_off, get_id_guard_set_prev_off, get_requested_size_guard_set_next_off, get_requested_size_guard_set_prev_off, get_next_guard_set_next_off, get_next_guard_set_prev_off, get_prev_guard_set_next_off, get_prev_guard_set_prev_off, Nat.mod_eq_of_lt, Nat.add_zero]
  have b2 : get_block_size (extend_heap_format s1 s.brk).mem (s.brk - 16) = r := by
    rw [hM]
    simp (disch := omega) only [get_block_size_set_block_size_off, get_block_size_set_id_off, get_block_size_set_requested_size_off, get_block_size_set_next_off, get_block_size_set_prev_off, get_id_set_block_size_off, get_id_set_id_off, get_id_set_requested_size_off, get_id_set_next_off, get_id_set_prev_off, get_requested_size_set_block_size_off, get_requested_size_set_id_off, get_requested_size_set_requested_size_off, get_requested_size_set_next_off, get_requested_size_set_prev_off, get_next_set_block_size_off, get_next_set_id_off, get_next_set_requested_size_off, get_next_set_next_off, get_next_set_prev_off, get_prev_set_block_size_off, get_prev_set_id_off, get_prev_set_requested_size_off, get_prev_set_next_off, get_prev_set_prev_off, get_block_size_set_block_size_at, get_block_size_set_id_at, get_block_size_set_requested_size_at, get_id_set_block_size_at, get_id_set_id_at, get_id_set_requested_size_at, get_requested_size_set_block_size_at, get_requested_size_set_id_at, get_requested_size_set_requested_size_at, get_next_set_next_at, get_prev_set_prev_at, get_block_size_guard_set_next_off, get_block_size_guard_set_prev_off, get_id_guard_set_next_off, get_id_guard_set_prev_off, get_requested_size_guard_set_next_off, get_requested_size_guard_set_prev_off, get_next_guard_set_next_off, get_next_guard_set_prev_off, get_prev_guard_set_next_off, get_prev_guard_set_prev_off]
    exact hft
  have eF := GET_FTR_payload _ (s.brk - 8) 4096 0 (by omega) (by omega) (by omega) (by omega) b1
  have eN : next_block (extend_heap_format s1 s.brk).mem (s.brk - 8 + 8) = s.brk + 4088 := by
    unfold next_block
    rw [eF, padd_eq _ _ (by unfold WSIZE; omega)]
    unfold WSIZE
    omega
  have b3 : get_block_size (extend_heap_format s1 s.brk).mem (s.brk + 4088) = 1 := by
    rw [hM]
    simp (disch := omega) only [get_block_size_set_block_size_off, get_block_size_set_id_off, get_block_size_set_requested_size_off, get_block_size_set_next_off, get_block_size_set_prev_off, get_id_set_block_size_off, get_id_set_id_off, get_id_set_requested_size_off, get_id_set_next_off, get_id_set_prev_off, get_requested_size_set_block_size_off, get_requested_size_set_id_off, get_requested_size_set_requested_size_off, get_requested_size_set_next_off, get_requested_size_set_prev_off, get_next_set_block_size_off, get_next_set_id_off, get_next_set_requested_size_off, get_next_set_next_off, get_next_set_prev_off, get_prev_set_block_size_off, get_prev_set_id_off, get_prev_set_requested_size_off, get_prev_set_next_off, get_prev_set_prev_off, get_block_size_set_block_size_at, get_block_size_set_id_at, get_block_size_set_requested_size_at, get_id_set_block_size_at, get_id_set_id_at, get_id_set_requested_size_at, get_requested_size_set_block_size_at, get_requested_size_set_id_at, get_requested_size_set_requested_size_at, get_next_set_next_at, get_prev_set_prev_at, get_block_size_guard_set_next_off, get_block_size_guard_set_prev_off, get_id_guard_set_next_off, get_id_guard_set_prev_off, get_requested_size_guard_set_next_off, get_requested_size_guard_set_prev_off, get_next_guard_set_next_off, get_next_guard_set_prev_off, get_prev_guard_set_next_off, get_prev_guard_set_prev_off, Nat.mod_eq_of_lt]
  have hc : coalesce fuel (extend_heap_format s1 s.brk) (PAYLOAD (psub s.brk WSIZE)) =
      some (coalesce_case2 (extend_heap_format s1 s.brk) (s.brk - 8 + 8) 4096) := by
    rw [PAYLOAD_old_epilogue s.brk (by omega) (by omega)]
    unfold coalesce
    have b1b : get_block_size (extend_heap_format s1 s.brk).mem (s.brk - 8) = 4096 := b1
    rw [eH, eP, eN, b2, b3, b1b, if_neg (by omega), if_pos (by omega)]
  have ePF : prev_free_block (extend_heap_format s1 s.brk).mem (s.brk - 8 + 8) = s.brk - 8 - r := by
    unfold prev_free_block
    rw [eH, eP, b2, psub_eq _ _ (by omega) (by omega)]
  have hsz : (4096 + r) % W64 = r + 4096 := by
    rw [Nat.mod_eq_of_lt (by unfold W64; omega)]
    omega
  have b4 : get_block_size (set_block_size (extend_heap_format s1 s.brk).mem (s.brk - 8 - r)
      (r + 4096)) (s.brk - 8) = 4096 + 0 := by
    rw [get_block_size_set_block_size_off _ _ _ _ (by omega)]
    exact b1
  have eF2 := GET_FTR_payload _ (s.brk - 8) 4096 0 (by omega) (by omega) (by omega) (by omega) b4
  have hu : (coalesce_case2 (extend_heap_format s1 s.brk) (s.brk - 8 + 8) 4096).mem =
      set_block_size (set_block_size (extend_heap_format s1 s.brk).mem (s.brk - 8 - r) (r + 4096))
        (s.brk - 8 + 4096 - 8) (r + 4096) := by
    rw [coalesce_case2_mem, ePF, eH, eP, b2, hsz]
    unfold case2_stores store_footer_size
    rw [eF2]
  have F2 := coalesce_case2_frame (extend_heap_format s1 s.brk) (s.brk - 8 + 8) 4096
  have F1 := extend_heap_format_frame s1 s.brk
  have hsep : ∀ x ∈ l, x = s.brk - 8 - r ∨ x + 32 ≤ s.brk - 8 - r ∨ s.brk - 8 - r + 32 ≤ x :=
    fun x hxl => pairwise_apart l hpw x hxl _ hmem
  refine ⟨_, hc, F2.1.trans F1.1, F2.2.1.trans F1.2.1, F2.2.2.1.trans F1.2.2.1,
    F2.2.2.2.2.trans F1.2.2.2.2.2, ?_, ?_, ?_, ?_, ?_⟩
  · rw [free_list_iff] at hfl ⊢
    refine ⟨(F2.2.2.2.1.trans F1.2.2.2.2.1).trans (h1h.trans hfl.1), ?_⟩
    refine (is_segment_congr s.mem _ l NULL NULL ?_).mpr hfl.2
    intro x hxl
    have h1 := (hx x hxl).1
    have h2 := hsep x hxl
    rw [hu, hM]
    clear hM hu b1 b2 b3 b4 eF eF2 eN hc ePF F1 F2 hsep hft hlast hmem eH eP hfl hx hpw
    constructor
    · simp (disch := omega) only [get_block_size_set_block_size_off, get_block_size_set_id_off, get_block_size_set_requested_size_off, get_block_size_set_next_off, get_block_size_set_prev_off, get_id_set_block_size_off, get_id_set_id_off, get_id_set_requested_size_off, get_id_set_next_off, get_id_set_prev_off, get_requested_size_set_block_size_off, get_requested_size_set_id_off, get_requested_size_set_requested_size_off, get_requested_size_set_next_off, get_requested_size_set_prev_off, get_next_set_block_size_off, get_next_set_id_off, get_next_set_requested_size_off, get_next_set_next_off, get_next_set_prev_off, get_prev_set_block_size_off, get_prev_set_id_off, get_prev_set_requested_size_off, get_prev_set_next_off, get_prev_set_prev_off, get_block_size_set_block_size_at, get_block_size_set_id_at, get_block_size_set_requested_size_at, get_id_set_block_size_at, get_id_set_id_at, get_id_set_requested_size_at, get_requested_size_set_block_size_at, get_requested_size_set_id_at, get_requested_size_set_requested_size_at, get_next_set_next_at, get_prev_set_prev_at, get_block_size_guard_set_next_off, get_block_size_guard_set_prev_off, get_id_guard_set_next_off, get_id_guard_set_prev_off, get_requested_size_guard_set_next_off, get_requested_size_guard_set_prev_off, get_next_guard_set_next_off, get_next_guard_set_prev_off, get_prev_guard_set_next_off, get_prev_guard_set_prev_off]
    · simp (disch := omega) only [get_block_size_set_block_size_off, get_block_size_set_id_off, get_block_size_set_requested_size_off, get_block_size_set_next_off, get_block_size_set_prev_off, get_id_set_block_size_off, get_id_set_id_off, get_id_set_requested_size_off, get_id_set_next_off, get_id_set_prev_off, get_requested_size_set_block_size_off, get_requested_size_set_id_off, get_requested_size_set_requested_size_off, get_requested_size_set_next_off, get_requested_size_set_prev_off, get_next_set_block_size_off, get_next_set_id_off, get_next_set_requested_size_off, get_next_set_next_off, get_next_set_prev_off, get_prev_set_block_size_off, get_prev_set_id_off, get_prev_set_requested_size_off, get_prev_set_next_off, get_prev_set_prev_off, get_block_size_set_block_size_at, get_block_size_set_id_at, get_block_size_set_requested_size_at, get_id_set_block_size_at, get_id_set_id_at, get_id_set_requested_size_at, get_requested_size_set_block_size_at, get_requested_size_set_id_at, get_requested_size_set_requested_size_at, get_next_set_next_at, get_prev_set_prev_at, get_block_size_guard_set_next_off, get_block_size_guard_set_prev_off, get_id_guard_set_next_off, get_id_guard_set_prev_off, get_requested_size_guard_set_next_off, get_requested_size_guard_set_prev_off, get_next_guard_set_next_off, get_next_guard_set_prev_off, get_prev_guard_set_next_off, get_prev_guard_set_prev_off]
  · intro x hxl
    have h1 := hx x hxl
    have h2 := hsep x hxl
    rw [hu, hM]
    clear hM hu b1 b2 b3 b4 eF eF2 eN hc ePF F1 F2 hsep hft hlast hmem eH eP hfl hx hpw
    by_cases he : x = s.brk - 8 - r
    · simp (disch := omega) only [get_block_size_set_block_size_off, get_block_size_set_id_off, get_block_size_set_requested_size_off, get_block_size_set_next_off, get_block_size_set_prev_off, get_id_set_block_size_off, get_id_set_id_off, get_id_set_requested_size_off, get_id_set_next_off, get_id_set_prev_off, get_requested_size_set_block_size_off, get_requested_size_set_id_off, get_requested_size_set_requested_size_off, get_requested_size_set_next_off, get_requested_size_set_prev_off, get_next_set_block_size_off, get_next_set_id_off, get_next_set_requested_size_off, get_next_set_next_off, get_next_set_prev_off, get_prev_set_block_size_off, get_prev_set_id_off, get_prev_set_requested_size_off, get_prev_set_next_off, get_prev_set_prev_off, get_block_size_set_block_size_at, get_block_size_set_id_at, get_block_size_set_requested_size_at, get_id_set_block_size_at, get_id_set_id_at, get_id_set_requested_size_at, get_requested_size_set_block_size_at, get_requested_size_set_id_at, get_requested_size_set_requested_size_at, get_next_set_next_at, get_prev_set_prev_at, get_block_size_guard_set_next_off, get_block_size_guard_set_prev_off, get_id_guard_set_next_off, get_id_guard_set_prev_off, get_requested_size_guard_set_next_off, get_requested_size_guard_set_prev_off, get_next_guard_set_next_off, get_next_guard_set_prev_off, get_prev_guard_set_next_off, get_prev_guard_set_prev_off, Nat.mod_eq_of_lt]
      omega
    · have h3 : x + 32 ≤ s.brk - 8 - r ∨ s.brk - 8 - r + 32 ≤ x := by omega
      clear h2
      simp (disch := omega) only [get_block_size_set_block_size_off, get_block_size_set_id_off, get_block_size_set_requested_size_off, get_block_size_set_next_off, get_block_size_set_prev_off, get_id_set_block_size_off, get_id_set_id_off, get_id_set_requested_size_off, get_id_set_next_off, get_id_set_prev_off, get_requested_size_set_block_size_off, get_requested_size_set_id_off, get_requested_size_set_requested_size_off, get_requested_size_set_next_off, get_requested_size_set_prev_off, get_next_set_block_size_off, get_next_set_id_off, get_next_set_requested_size_off, get_next_set_next_off, get_next_set_prev_off, get_prev_set_block_size_off, get_prev_set_id_off, get_prev_set_requested_size_off, get_prev_set_next_off, get_prev_set_prev_off, get_block_size_set_block_size_at, get_block_size_set_id_at, get_block_size_set_requested_size_at, get_id_set_block_size_at, get_id_set_id_at, get_id_set_requested_size_at, get_requested_size_set_block_size_at, get_requested_size_set_id_at, get_requested_size_set_requested_size_at, get_next_set_next_at, get_prev_set_prev_at, get_block_size_guard_set_next_off, get_block_size_guard_set_prev_off, get_id_guard_set_next_off, get_id_guard_set_prev_off, get_requested_size_guard_set_next_off, get_requested_size_guard_set_prev_off, get_next_guard_set_next_off, get_next_guard_set_prev_off, get_prev_guard_set_next_off, get_prev_guard_set_prev_off]
      exact h1.2
  · rw [hu, hM]
    clear hM hu b1 b2 b3 b4 eF eF2 eN hc ePF F1 F2 hsep hft hlast hmem eH eP hfl hx hpw
    simp (disch := omega) only [get_block_size_set_block_size_off, get_block_size_set_id_off, get_block_size_set_requested_size_off, get_block_size_set_next_off, get_block_size_set_prev_off, get_id_set_block_size_off, get_id_set_id_off, get_id_set_requested_size_off, get_id_set_next_off, get_id_set_prev_off, get_requested_size_set_block_size_off, get_requested_size_set_id_off, get_requested_size_set_requested_size_off, get_requested_size_set_next_off, get_requested_size_set_prev_off, get_next_set_block_size_off, get_next_set_id_off, get_next_set_requested_size_off, get_next_set_next_off, get_next_set_prev_off, get_prev_set_block_size_off, get_prev_set_id_off, get_prev_set_requested_size_off, get_prev_set_next_off, get_prev_set_prev_off, get_block_size_set_block_size_at, get_block_size_set_id_at, get_block_size_set_requested_size_at, get_id_set_block_size_at, get_id_set_id_at, get_id_set_requested_size_at, get_requested_size_set_block_size_at, get_requested_size_set_id_at, get_requested_size_set_requested_size_at, get_next_set_next_at, get_prev_set_prev_at, get_block_size_guard_set_next_off, get_block_size_guard_set_prev_off, get_id_guard_set_next_off, get_id_guard_set_prev_off, get_requested_size_guard_set_next_off, get_requested_size_guard_set_prev_off, get_next_guard_set_next_off, get_next_guard_set_prev_off, get_prev_guard_set_next_off, get_prev_guard_set_prev_off, Nat.mod_eq_of_lt]
  · rw [hu, hM]
    clear hM hu b1 b2 b3 b4 eF eF2 eN hc ePF F1 F2 hsep hft hlast hmem eH eP hfl hx hpw
    simp (disch := omega) only [get_block_size_set_block_size_off, get_block_size_set_id_off, get_block_size_set_requested_size_off, get_block_size_set_next_off, get_block_size_set_prev_off, get_id_set_block_size_off, get_id_set_id_off, get_id_set_requested_size_off, get_id_set_next_off, get_id_set_prev_off, get_requested_size_set_block_size_off, get_requested_size_set_id_off, get_requested_size_set_requested_size_off, get_requested_size_set_next_off, get_requested_size_set_prev_off, get_next_set_block_size_off, get_next_set_id_off, get_next_set_requested_size_off, get_next_set_next_off, get_next_set_prev_off, get_prev_set_block_size_off, get_prev_set_id_off, get_prev_set_requested_size_off, get_prev_set_next_off, get_prev_set_prev_off, get_block_size_set_block_size_at, get_block_size_set_id_at, get_block_size_set_requested_size_at, get_id_set_block_size_at, get_id_set_id_at, get_id_set_requested_size_at, get_requested_size_set_block_size_at, get_requested_size_set_id_at, get_requested_size_set_requested_size_at, get_next_set_next_at, get_prev_set_prev_at, get_block_size_guard_set_next_off, get_block_size_guard_set_prev_off, get_id_guard_set_next_off, get_id_guard_set_prev_off, get_requested_size_guard_set_next_off, get_requested_size_guard_set_prev_off, get_next_guard_set_next_off, get_next_guard_set_prev_off, get_prev_guard_set_next_off, get_prev_guard_set_prev_off, Nat.mod_eq_of_lt]
  · intro y hy
    rw [hu, hM]
    clear hM hu b1 b2 b3 b4 eF eF2 eN hc ePF F1 F2 hsep hft hlast hmem eH eP hfl hx hpw
    simp (disch := omega) only [get_block_size_set_block_size_off, get_block_size_set_id_off, get_block_size_set_requested_size_off, get_block_size_set_next_off, get_block_size_set_prev_off, get_id_set_block_size_off, get_id_set_id_off, get_id_set_requested_size_off, get_id_set_next_off, get_id_set_prev_off, get_requested_size_set_block_size_off, get_requested_size_set_id_off, get_requested_size_set_requested_size_off, get_requested_size_set_next_off, get_requested_size_set_prev_off, get_next_set_block_size_off, get_next_set_id_off, get_next_set_requested_size_off, get_next_set_next_off, get_next_set_prev_off, get_prev_set_block_size_off, get_prev_set_id_off, get_prev_set_requested_size_off, get_prev_set_next_off, get_prev_set_prev_off, get_block_size_set_block_size_at, get_block_size_set_id_at, get_block_size_set_requested_size_at, get_id_set_block_size_at, get_id_set_id_at, get_id_set_requested_size_at, get_requested_size_set_block_size_at, get_requested_size_set_id_at, get_requested_size_set_requested_size_at, get_next_set_next_at, get_prev_set_prev_at, get_block_size_guard_set_next_off, get_block_size_guard_set_prev_off, get_id_guard_set_next_off, get_id_guard_set_prev_off, get_requested_size_guard_set_next_off, get_requested_size_guard_set_prev_off, get_next_guard_set_next_off, get_next_guard_set_prev_off, get_prev_guard_set_next_off, get_prev_guard_set_prev_off]

/-- The loop of `insertFreeList` entered at the node `c` of a chain whose nodes all
lie below `fh`: it walks to the tail and appends `fh` there. -/
theorem insertFreeList_loop_append (s : State) (fh : Nat) (l2 : List Nat) :
    ∀ (c fuel p : Nat), is_segment s.mem p (c :: l2) NULL → (∀ x ∈ c :: l2, x < fh) →
      l2.length < fuel →
      ∃ s3, insertFreeList_loop s fh fuel c = some s3 ∧
        s3.mem = insert_after s.mem fh ((c :: l2).getLastD NULL) ∧
        s3.brk = s.brk ∧ s3.calls = s.calls ∧ s3.provider = s.provider ∧
        s3.freelist_head = s.freelist_head ∧ s3.freelist_next = s.freelist_next := by
  induction l2 with
  | nil =>
    intro c fuel p hseg hlt hf
    obtain ⟨f, rfl⟩ : ∃ f, fuel = f + 1 := ⟨fuel - 1, by simp at hf; omega⟩
    have hc := hlt c (by simp)
    have hn : get_next s.mem c = NULL := hseg.2.2.1
    rw [insertFreeList_loop, if_neg (by omega), if_pos hn]
    exact ⟨_, rfl, rfl, rfl, rfl, rfl, rfl, rfl⟩
  | cons d t ih =>
    intro c fuel p hseg hlt hf
    obtain ⟨f, rfl⟩ : ∃ f, fuel = f + 1 := ⟨fuel - 1, by simp at hf; omega⟩
    have hc := hlt c (by simp)
    obtain ⟨_, _, hn, hrest⟩ := hseg
    have hn2 : get_next s.mem c = d := hn
    have hd0 : d ≠ NULL := hrest.1
    rw [insertFreeList_loop, if_neg (by omega), if_neg (by rw [hn2]; exact hd0), hn2]
    obtain ⟨s3, h1, h2, h3⟩ := ih d f c hrest
      (fun x hx => hlt x (List.mem_cons_of_mem c hx)) (by simp at hf; omega)
    refine ⟨s3, h1, ?_, h3⟩
    rw [h2]
    rfl

/-- The words that the formatting of the new page leaves alone: every header and
link word below the old epilogue. -/
theorem extend_heap_format_below (s : State) (B x : Nat) (hB : 8 ≤ B) (hW : B + 4096 < W64)
    (hb : s.brk = B + 4096) (hx : x + 32 ≤ B) :
    get_block_size (extend_heap_format s B).mem x = get_block_size s.mem x ∧
    get_next (extend_heap_format s B).mem x = get_next s.mem x ∧
    get_prev (extend_heap_format s B).mem x = get_prev s.mem x := by
  rw [extend_heap_format_mem s B hB hW hb]
  clear hb
  refine ⟨?_, ?_, ?_⟩
  · simp (disch := omega) only [get_block_size_set_block_size_off, get_block_size_set_id_off, get_block_size_set_requested_size_off, get_block_size_set_next_off, get_block_size_set_prev_off, get_id_set_block_size_off, get_id_set_id_off, get_id_set_requested_size_off, get_id_set_next_off, get_id_set_prev_off, get_requested_size_set_block_size_off, get_requested_size_set_id_off, get_requested_size_set_requested_size_off, get_requested_size_set_next_off, get_requested_size_set_prev_off, get_next_set_block_size_off, get_next_set_id_off, get_next_set_requested_size_off, get_next_set_next_off, get_next_set_prev_off, get_prev_set_block_size_off, get_prev_set_id_off, get_prev_set_requested_size_off, get_prev_set_next_off, get_prev_set_prev_off, get_block_size_set_block_size_at, get_block_size_set_id_at, get_block_size_set_requested_size_at, get_id_set_block_size_at, get_id_set_id_at, get_id_set_requested_size_at, get_requested_size_set_block_size_at, get_requested_size_set_id_at, get_requested_size_set_requested_size_at, get_next_set_next_at, get_prev_set_prev_at, get_block_size_guard_set_next_off, get_block_size_guard_set_prev_off, get_id_guard_set_next_off, get_id_guard_set_prev_off, get_requested_size_guard_set_next_off, get_requested_size_guard_set_prev_off, get_next_guard_set_next_off, get_next_guard_set_prev_off, get_prev_guard_set_next_off, get_prev_guard_set_prev_off]
  · simp (disch := omega) only [get_block_size_set_block_size_off, get_block_size_set_id_off, get_block_size_set_requested_size_off, get_block_size_set_next_off, get_block_size_set_prev_off, get_id_set_block_size_off, get_id_set_id_off, get_id_set_requested_size_off, get_id_set_next_off, get_id_set_prev_off, get_requested_size_set_block_size_off, get_requested_size_set_id_off, get_requested_size_set_requested_size_off, get_requested_size_set_next_off, get_requested_size_set_prev_off, get_next_set_block_size_off, get_next_set_id_off, get_next_set_requested_size_off, get_next_set_next_off, get_next_set_prev_off, get_prev_set_block_size_off, get_prev_set_id_off, get_prev_set_requested_size_off, get_prev_set_next_off, get_prev_set_prev_off, get_block_size_set_block_size_at, get_block_size_set_id_at, get_block_size_set_requested_size_at, get_id_set_block_size_at, get_id_set_id_at, get_id_set_requested_size_at, get_requested_size_set_block_size_at, get_requested_size_set_id_at, get_requested_size_set_requested_size_at, get_next_set_next_at, get_prev_set_prev_at, get_block_size_guard_set_next_off, get_block_size_guard_set_prev_off, get_id_guard_set_next_off, get_id_guard_set_prev_off, get_requested_size_guard_set_next_off, get_requested_size_guard_set_prev_off, get_next_guard_set_next_off, get_next_guard_set_prev_off, get_prev_guard_set_next_off, get_prev_guard_set_prev_off]
  · simp (disch := omega) only [get_block_size_set_block_size_off, get_block_size_set_id_off, get_block_size_set_requested_size_off, get_block_size_set_next_off, get_block_size_set_prev_off, get_id_set_block_size_off, get_id_set_id_off, get_id_set_requested_size_off, get_id_set_next_off, get_id_set_prev_off, get_requested_size_set_block_size_off, get_requested_size_set_id_off, get_requested_size_set_requested_size_off, get_requested_size_set_next_off, get_requested_size_set_prev_off, get_next_set_block_size_off, get_next_set_id_off, get_next_set_requested_size_off, get_next_set_next_off, get_next_set_prev_off, get_prev_set_block_size_off, get_prev_set_id_off, get_prev_set_requested_size_off, get_prev_set_next_off, get_prev_set_prev_off, get_block_size_set_block_size_at, get_block_size_set_id_at, get_block_size_set_requested_size_at, get_id_set_block_size_at, get_id_set_id_at, get_id_set_requested_size_at, get_requested_size_set_block_size_at, get_requested_size_set_id_at, get_requested_size_set_requested_size_at, get_next_set_next_at, get_prev_set_prev_at, get_block_size_guard_set_next_off, get_block_size_guard_set_prev_off, get_id_guard_set_next_off, get_id_guard_set_prev_off, get_requested_size_guard_set_next_off, get_requested_size_guard_set_prev_off, get_next_guard_set_next_off, get_next_guard_set_prev_off, get_prev_guard_set_next_off, get_prev_guard_set_prev_off]

/-- The tags of the new page right after formatting: header at `B - 8`, footer at
`B + 4080`, epilogue at `B + 4088`; the word below the header is unchanged. -/
theorem extend_heap_format_tags (s : State) (B : Nat) (hB : 16 ≤ B) (hW : B + 4096 < W64)
    (hb : s.brk = B + 4096) :
    get_block_size (extend_heap_format s B).mem (B - 8) = 4096 ∧
    get_block_size (extend_heap_format s B).mem (B + 4080) = 4096 ∧
    get_block_size (extend_heap_format s B).mem (B + 4088) = 1 ∧
    get_block_size (extend_heap_format s B).mem (B - 16) = get_block_size s.mem (B - 16) := by
  have ePG : PAGE = 4096 := rfl
  rw [extend_heap_format_mem s B (by omega) hW hb, ePG]
  clear hb
  refine ⟨?_, ?_, ?_, ?_⟩
  · simp (disch := omega) only [get_block_size_set_block_size_off, get_block_size_set_id_off, get_block_size_set_requested_size_off, get_block_size_set_next_off, get_block_size_set_prev_off, get_id_set_block_size_off, get_id_set_id_off, get_id_set_requested_size_off, get_id_set_next_off, get_id_set_prev_off, get_requested_size_set_block_size_off, get_requested_size_set_id_off, get_requested_size_set_requested_size_off, get_requested_size_set_next_off, get_requested_size_set_prev_off, get_next_set_block_size_off, get_next_set_id_off, get_next_set_requested_size_off, get_next_set_next_off, get_next_set_prev_off, get_prev_set_block_size_off, get_prev_set_id_off, get_prev_set_requested_size_off, get_prev_set_next_off, get_prev_set_prev_off, get_block_size_set_block_size_at, get_block_size_set_id_at, get_block_size_set_requested_size_at, get_id_set_block_size_at, get_id_set_id_at, get_id_set_requested_size_at, get_requested_size_set_block_size_at, get_requested_size_set_id_at, get_requested_size_set_requested_size_at, get_next_set_next_at, get_prev_set_prev_at, get_block_size_guard_set_next_off, get_block_size_guard_set_prev_off, get_id_guard_set_next_off, get_id_guard_set_prev_off, get_requested_size_guard_set_next_off, get_requested_size_guard_set_prev_off, get_next_guard_set_next_off, get_next_guard_set_prev_off, get_prev_guard_set_next_off, get_prev_guard_set_prev_off, Nat.mod_eq_of_lt]
  · simp (disch := omega) only [get_block_size_set_block_size_off, get_block_size_set_id_off, get_block_size_set_requested_size_off, get_block_size_set_next_off, get_block_size_set_prev_off, get_id_set_block_size_off, get_id_set_id_off, get_id_set_requested_size_off, get_id_set_next_off, get_id_set_prev_off, get_requested_size_set_block_size_off, get_requested_size_set_id_off, get_requested_size_set_requested_size_off, get_requested_size_set_next_off, get_requested_size_set_prev_off, get_next_set_block_size_off, get_next_set_id_off, get_next_set_requested_size_off, get_next_set_next_off, get_next_set_prev_off, get_prev_set_block_size_off, get_prev_set_id_off, get_prev_set_requested_size_off, get_prev_set_next_off, get_prev_set_prev_off, get_block_size_set_block_size_at, get_block_size_set_id_at, get_block_size_set_requested_size_at, get_id_set_block_size_at, get_id_set_id_at, get_id_set_requested_size_at, get_requested_size_set_block_size_at, get_requested_size_set_id_at, get_requested_size_set_requested_size_at, get_next_set_next_at, get_prev_set_prev_at, get_block_size_guard_set_next_off, get_block_size_guard_set_prev_off, get_id_guard_set_next_off, get_id_guard_set_prev_off, get_requested_size_guard_set_next_off, get_requested_size_guard_set_prev_off, get_next_guard_set_next_off, get_next_guard_set_prev_off, get_prev_guard_set_next_off, get_prev_guard_set_prev_off, Nat.mod_eq_of_lt]
  · simp (disch := omega) only [get_block_size_set_block_size_off, get_block_size_set_id_off, get_block_size_set_requested_size_off, get_block_size_set_next_off, get_block_size_set_prev_off, get_id_set_block_size_off, get_id_set_id_off, get_id_set_requested_size_off, get_id_set_next_off, get_id_set_prev_off, get_requested_size_set_block_size_off, get_requested_size_set_id_off, get_requested_size_set_requested_size_off, get_requested_size_set_next_off, get_requested_size_set_prev_off, get_next_set_block_size_off, get_next_set_id_off, get_next_set_requested_size_off, get_next_set_next_off, get_next_set_prev_off, get_prev_set_block_size_off, get_prev_set_id_off, get_prev_set_requested_size_off, get_prev_set_next_off, get_prev_set_prev_off, get_block_size_set_block_size_at, get_block_size_set_id_at, get_block_size_set_requested_size_at, get_id_set_block_size_at, get_id_set_id_at, get_id_set_requested_size_at, get_requested_size_set_block_size_at, get_requested_size_set_id_at, get_requested_size_set_requested_size_at, get_next_set_next_at, get_prev_set_prev_at, get_block_size_guard_set_next_off, get_block_size_guard_set_prev_off, get_id_guard_set_next_off, get_id_guard_set_prev_off, get_requested_size_guard_set_next_off, get_requested_size_guard_set_prev_off, get_next_guard_set_next_off, get_next_guard_set_prev_off, get_prev_guard_set_next_off, get_prev_guard_set_prev_off, Nat.mod_eq_of_lt]
  · simp (disch := omega) only [get_block_size_set_block_size_off, get_block_size_set_id_off, get_block_size_set_requested_size_off, get_block_size_set_next_off, get_block_size_set_prev_off, get_id_set_block_size_off, get_id_set_id_off, get_id_set_requested_size_off, get_id_set_next_off, get_id_set_prev_off, get_requested_size_set_block_size_off, get_requested_size_set_id_off, get_requested_size_set_requested_size_off, get_requested_size_set_next_off, get_requested_size_set_prev_off, get_next_set_block_size_off, get_next_set_id_off, get_next_set_requested_size_off, get_next_set_next_off, get_next_set_prev_off, get_prev_set_block_size_off, get_prev_set_id_off, get_prev_set_requested_size_off, get_prev_set_next_off, get_prev_set_prev_off, get_block_size_set_block_size_at, get_block_size_set_id_at, get_block_size_set_requested_size_at, get_id_set_block_size_at, get_id_set_id_at, get_id_set_requested_size_at, get_requested_size_set_block_size_at, get_requested_size_set_id_at, get_requested_size_set_requested_size_at, get_next_set_next_at, get_prev_set_prev_at, get_block_size_guard_set_next_off, get_block_size_guard_set_prev_off, get_id_guard_set_next_off, get_id_guard_set_prev_off, get_requested_size_guard_set_next_off, get_requested_size_guard_set_prev_off, get_next_guard_set_next_off, get_next_guard_set_prev_off, get_prev_guard_set_next_off, get_prev_guard_set_prev_off]

/-- Header words under the link stores of `insertFreeList` at the tail. -/
theorem get_block_size_insert_after (m : Mem) (fh c x : Nat)
    (hc : c + 32 ≤ fh) (hx : x = fh ∨ x = c ∨ x + 32 ≤ c ∨ (c + 32 ≤ x ∧ x + 32 ≤ fh) ∨ fh + 32 ≤ x) :
    get_block_size (insert_after m fh c) x = get_block_size m x := by
  unfold insert_after
  simp (disch := omega) only [get_block_size_set_block_size_off, get_block_size_set_id_off, get_block_size_set_requested_size_off, get_block_size_set_next_off, get_block_size_set_prev_off, get_id_set_block_size_off, get_id_set_id_off, get_id_set_requested_size_off, get_id_set_next_off, get_id_set_prev_off, get_requested_size_set_block_size_off, get_requested_size_set_id_off, get_requested_size_set_requested_size_off, get_requested_size_set_next_off, get_requested_size_set_prev_off, get_next_set_block_size_off, get_next_set_id_off, get_next_set_requested_size_off, get_next_set_next_off, get_next_set_prev_off, get_prev_set_block_size_off, get_prev_set_id_off, get_prev_set_requested_size_off, get_prev_set_next_off, get_prev_set_prev_off, get_block_size_set_block_size_at, get_block_size_set_id_at, get_block_size_set_requested_size_at, get_id_set_block_size_at, get_id_set_id_at, get_id_set_requested_size_at, get_requested_size_set_block_size_at, get_requested_size_set_id_at, get_requested_size_set_requested_size_at, get_next_set_next_at, get_prev_set_prev_at, get_block_size_guard_set_next_off, get_block_size_guard_set_prev_off, get_id_guard_set_next_off, get_id_guard_set_prev_off, get_requested_size_guard_set_next_off, get_requested_size_guard_set_prev_off, get_next_guard_set_next_off, get_next_guard_set_prev_off, get_prev_guard_set_next_off, get_prev_guard_set_prev_off]

theorem get_block_size_insert_empty (m : Mem) (fh x : Nat)
    (hx : x = fh ∨ x + 32 ≤ fh ∨ fh + 32 ≤ x) :
    get_block_size (insert_empty m fh) x = get_block_size m x := by
  unfold insert_empty
  simp (disch := omega) only [get_block_size_set_block_size_off, get_block_size_set_id_off, get_block_size_set_requested_size_off, get_block_size_set_next_off, get_block_size_set_prev_off, get_id_set_block_size_off, get_id_set_id_off, get_id_set_requested_size_off, get_id_set_next_off, get_id_set_prev_off, get_requested_size_set_block_size_off, get_requested_size_set_id_off, get_requested_size_set_requested_size_off, get_requested_size_set_next_off, get_requested_size_set_prev_off, get_next_set_block_size_off, get_next_set_id_off, get_next_set_requested_size_off, get_next_set_next_off, get_next_set_prev_off, get_prev_set_block_size_off, get_prev_set_id_off, get_prev_set_requested_size_off, get_prev_set_next_off, get_prev_set_prev_off, get_block_size_set_block_size_at, get_block_size_set_id_at, get_block_size_set_requested_size_at, get_id_set_block_size_at, get_id_set_id_at, get_id_set_requested_size_at, get_requested_size_set_block_size_at, get_requested_size_set_id_at, get_requested_size_set_requested_size_at, get_next_set_next_at, get_prev_set_prev_at, get_block_size_guard_set_next_off, get_block_size_guard_set_prev_off, get_id_guard_set_next_off, get_id_guard_set_prev_off, get_requested_size_guard_set_next_off, get_requested_size_guard_set_prev_off, get_next_guard_set_next_off, get_next_guard_set_prev_off, get_prev_guard_set_next_off, get_prev_guard_set_prev_off]

theorem insertFreeList_empty_frame (fuel : Nat) (s : State) (fh : Nat)
    (h : s.freelist_head = NULL) :
    ∃ u, insertFreeList fuel s fh = some u ∧ u.mem = insert_empty s.mem fh ∧
      u.freelist_head = fh ∧ u.freelist_next = fh ∧ u.brk = s.brk ∧
      u.calls = s.calls ∧ u.provider = s.provider := by
  unfold insertFreeList
  rw [if_pos h]
  exact ⟨_, rfl, rfl, rfl, rfl, rfl, rfl, rfl⟩

/-- The stores of a round of `extend_heap` stay below the new boundary: the
words from the boundary on are left alone. -/
theorem extend_heap_format_above (s : State) (B y : Nat) (hB : 8 ≤ B) (hW : B + 4096 < W64)
    (hb : s.brk = B + 4096) (hy : B + 4096 - 8 ≤ y) :
    get_next (extend_heap_format s B).mem y = get_next s.mem y := by
  rw [extend_heap_format_mem s B hB hW hb]
  clear hb
  simp (disch := omega) only [get_block_size_set_block_size_off, get_block_size_set_id_off, get_block_size_set_requested_size_off, get_block_size_set_next_off, get_block_size_set_prev_off, get_id_set_block_size_off, get_id_set_id_off, get_id_set_requested_size_off, get_id_set_next_off, get_id_set_prev_off, get_requested_size_set_block_size_off, get_requested_size_set_id_off, get_requested_size_set_requested_size_off, get_requested_size_set_next_off, get_requested_size_set_prev_off, get_next_set_block_size_off, get_next_set_id_off, get_next_set_requested_size_off, get_next_set_next_off, get_next_set_prev_off, get_prev_set_block_size_off, get_prev_set_id_off, get_prev_set_requested_size_off, get_prev_set_next_off, get_prev_set_prev_off, get_block_size_set_block_size_at, get_block_size_set_id_at, get_block_size_set_requested_size_at, get_id_set_block_size_at, get_id_set_id_at, get_id_set_requested_size_at, get_requested_size_set_block_size_at, get_requested_size_set_id_at, get_requested_size_set_requested_size_at, get_next_set_next_at, get_prev_set_prev_at, get_block_size_guard_set_next_off, get_block_size_guard_set_prev_off, get_id_guard_set_next_off, get_id_guard_set_prev_off, get_requested_size_guard_set_next_off, get_requested_size_guard_set_prev_off, get_next_guard_set_next_off, get_next_guard_set_prev_off, get_prev_guard_set_next_off, get_prev_guard_set_prev_off]

/-- The link stores of `insertFreeList` at the tail leave the words above the new
node alone. -/
theorem get_next_insert_after (m : Mem) (fh c y : Nat) (hc : c + 32 ≤ fh) (hy : fh + 24 ≤ y) :
    get_next (insert_after m fh c) y = get_next m y := by
  unfold insert_after
  simp (disch := omega) only [get_block_size_set_block_size_off, get_block_size_set_id_off, get_block_size_set_requested_size_off, get_block_size_set_next_off, get_block_size_set_prev_off, get_id_set_block_size_off, get_id_set_id_off, get_id_set_requested_size_off, get_id_set_next_off, get_id_set_prev_off, get_requested_size_set_block_size_off, get_requested_size_set_id_off, get_requested_size_set_requested_size_off, get_requested_size_set_next_off, get_requested_size_set_prev_off, get_next_set_block_size_off, get_next_set_id_off, get_next_set_requested_size_off, get_next_set_next_off, get_next_set_prev_off, get_prev_set_block_size_off, get_prev_set_id_off, get_prev_set_requested_size_off, get_prev_set_next_off, get_prev_set_prev_off, get_block_size_set_block_size_at, get_block_size_set_id_at, get_block_size_set_requested_size_at, get_id_set_block_size_at, get_id_set_id_at, get_id_set_requested_size_at, get_requested_size_set_block_size_at, get_requested_size_set_id_at, get_requested_size_set_requested_size_at, get_next_set_next_at, get_prev_set_prev_at, get_block_size_guard_set_next_off, get_block_size_guard_set_prev_off, get_id_guard_set_next_off, get_id_guard_set_prev_off, get_requested_size_guard_set_next_off, get_requested_size_guard_set_prev_off, get_next_guard_set_next_off, get_next_guard_set_prev_off, get_prev_guard_set_next_off, get_prev_guard_set_prev_off]

/-- The link stores of `insertFreeList` into an empty list leave the words above
the new node alone. -/
theorem get_next_insert_empty (m : Mem) (fh y : Nat) (hy : fh + 24 ≤ y) :
    get_next (insert_empty m fh) y = get_next m y := by
  unfold insert_empty
  simp (disch := omega) only [get_block_size_set_block_size_off, get_block_size_set_id_off, get_block_size_set_requested_size_off, get_block_size_set_next_off, get_block_size_set_prev_off, get_id_set_block_size_off, get_id_set_id_off, get_id_set_requested_size_off, get_id_set_next_off, get_id_set_prev_off, get_requested_size_set_block_size_off, get_requested_size_set_id_off, get_requested_size_set_requested_size_off, get_requested_size_set_next_off, get_requested_size_set_prev_off, get_next_set_block_size_off, get_next_set_id_off, get_next_set_requested_size_off, get_next_set_next_off, get_next_set_prev_off, get_prev_set_block_size_off, get_prev_set_id_off, get_prev_set_requested_size_off, get_prev_set_next_off, get_prev_set_prev_off, get_block_size_set_block_size_at, get_block_size_set_id_at, get_block_size_set_requested_size_at, get_id_set_block_size_at, get_id_set_id_at, get_id_set_requested_size_at, get_requested_size_set_block_size_at, get_requested_size_set_id_at, get_requested_size_set_requested_size_at, get_next_set_next_at, get_prev_set_prev_at, get_block_size_guard_set_next_off, get_block_size_guard_set_prev_off, get_id_guard_set_next_off, get_id_guard_set_prev_off, get_requested_size_guard_set_next_off, get_requested_size_guard_set_prev_off, get_next_guard_set_next_off, get_next_guard_set_prev_off, get_prev_guard_set_next_off, get_prev_guard_set_prev_off]

/-- One round of `extend_heap` after a granted page when the last block is
allocated: case 1 of `coalesce` appends the new page-sized block to the list. -/
theorem extend_heap_page_append (fuel : Nat) (s s1 : State) (l : List Nat)
    (hfl : free_list s l) (hpw : l.Pairwise (fun a b => a + 32 ≤ b))
    (hx : ∀ x ∈ l, x + 40 ≤ s.brk ∧ get_block_size s.mem x % 2 = 0)
    (hB : 16 ≤ s.brk) (hft : get_block_size s.mem (s.brk - 16) % 2 = 1)
    (hW : s.brk + 4096 + 8 < W64)
    (h1m : s1.mem = s.mem) (h1b : s1.brk = s.brk + 4096)
    (h1h : s1.freelist_head = s.freelist_head) (hf : l.length ≤ fuel) :
    ∃ s3, coalesce fuel (extend_heap_format s1 s.brk) (PAYLOAD (psub s.brk WSIZE)) = some s3 ∧
      s3.brk = s1.brk ∧ s3.calls = s1.calls ∧ s3.provider = s1.provider ∧
      s3.freelist_next = (if l = [] then s.brk - 8 else s1.freelist_next) ∧
      free_list s3 (l ++ [s.brk - 8]) ∧
      (∀ x ∈ l ++ [s.brk - 8], get_block_size s3.mem x % 2 = 0) ∧
      get_block_size s3.mem (s.brk + 4096 - 16) = 4096 ∧
      get_block_size s3.mem (s.brk - 8) = 4096 ∧
      (∀ y, s.brk + 4096 - 8 ≤ y → get_next s3.mem y = get_next s.mem y) := by
  have a1 : 8 ≤ s.brk := by omega
  have a2 : s.brk + 4096 < W64 := by omega
  have a3 : s.brk - 8 + 8 < W64 := by omega
  have a4 : s.brk < W64 := by omega
  have a5 : s.brk - 8 + 8 + 4096 < W64 := by omega
  have a6 : s.brk - 8 < W64 := by omega
  have a7 : s.brk - 8 ≠ 0 := by omega
  have a8 : s.brk - 8 + 4096 - 8 + 8 < W64 := by omega
  have a9 : s.brk - 8 + 4096 - 8 + 8 = s.brk + 4088 := by omega
  have a10 : s.brk - 8 - 8 = s.brk - 16 := by omega
  have a12 : 8 ≤ s.brk - 8 := by omega
  have a13 : ∀ y, s.brk + 4096 - 8 ≤ y → s.brk - 8 + 24 ≤ y := by
    intro y hy
    omega
  have e4080 : s.brk + 4096 - 16 = s.brk + 4080 := by omega
  have a11 : s.brk + 4080 = s.brk - 8 ∨ s.brk + 4080 + 32 ≤ s.brk - 8 ∨
      s.brk - 8 + 32 ≤ s.brk + 4080 := by omega
  have hxa : ∀ x ∈ l, x + 32 ≤ s.brk ∧ x < s.brk - 8 ∧ x < W64 ∧
      (s.brk - 8 + 32 ≤ x ∨ x + 32 ≤ s.brk - 8) := by
    intro x hxl
    have := (hx x hxl).1
    omega
  have hxc : ∀ c ∈ l, c + 32 ≤ s.brk - 8 ∧
      (s.brk + 4080 = s.brk - 8 ∨ s.brk + 4080 = c ∨ s.brk + 4080 + 32 ≤ c ∨
        (c + 32 ≤ s.brk + 4080 ∧ s.brk + 4080 + 32 ≤ s.brk - 8) ∨
        s.brk - 8 + 32 ≤ s.brk + 4080) := by
    intro c hcl
    have := (hx c hcl).1
    omega
  have hxx : ∀ c ∈ l, ∀ x ∈ l, x = s.brk - 8 ∨ x = c ∨ x + 32 ≤ c ∨
      (c + 32 ≤ x ∧ x + 32 ≤ s.brk - 8) ∨ s.brk - 8 + 32 ≤ x := by
    intro c hcl x hxl
    have h1 := (hx x hxl).1
    have h2 := pairwise_apart _ hpw x hxl c hcl
    omega
  have T := extend_heap_format_tags s1 s.brk hB a2 h1b
  have Bl := fun x (h : x + 32 ≤ s.brk) => extend_heap_format_below s1 s.brk x a1 a2 h1b h
  have Ab := fun y (h : s.brk + 4096 - 8 ≤ y) => extend_heap_format_above s1 s.brk y a1 a2 h1b h
  rw [h1m] at T Bl Ab
  have F1 := extend_heap_format_frame s1 s.brk
  have eH := GET_HDR_payload (s.brk - 8) a3
  have eP : psub (s.brk - 8) WSIZE = s.brk - 16 := by
    rw [psub_eq _ _ (by unfold WSIZE; exact a12) a6]
    exact a10
  have b1 : get_block_size (extend_heap_format s1 s.brk).mem (s.brk - 8) = 4096 + 0 := T.1
  have eF := GET_FTR_payload _ (s.brk - 8) 4096 0 a5 (by decide) (by decide) (by decide) b1
  have eN : next_block (extend_heap_format s1 s.brk).mem (s.brk - 8 + 8) = s.brk + 4088 := by
    unfold next_block
    rw [eF, padd_eq _ _ (by unfold WSIZE; exact a8)]
    unfold WSIZE
    exact a9
  have hc : coalesce fuel (extend_heap_format s1 s.brk) (PAYLOAD (psub s.brk WSIZE)) =
      insertFreeList fuel (extend_heap_format s1 s.brk) (s.brk - 8) := by
    rw [PAYLOAD_old_epilogue s.brk a1 a4]
    unfold coalesce
    rw [eH, eP, eN, T.2.2.2, T.2.2.1, hft, if_neg (by decide), if_neg (by decide),
      if_neg (by decide)]
  have hseg2 : is_segment (extend_heap_format s1 s.brk).mem NULL l NULL := by
    refine (is_segment_congr s.mem _ l NULL NULL ?_).mpr ((free_list_iff s l).mp hfl).2
    intro x hxl
    exact ⟨(Bl x (hxa x hxl).1).2.1, (Bl x (hxa x hxl).1).2.2⟩
  have hhd2 : (extend_heap_format s1 s.brk).freelist_head = l.headD NULL :=
    (F1.2.2.2.2.1.trans h1h).trans ((free_list_iff s l).mp hfl).1
  rcases list_nil_or_snoc l with rfl | ⟨l1, c, rfl⟩
  · obtain ⟨u, hi, hmem, hh, hn, hb, hcl, hpr⟩ :=
      insertFreeList_empty_frame fuel (extend_heap_format s1 s.brk) (s.brk - 8) hhd2
    have G := fun x hx => get_block_size_insert_empty (extend_heap_format s1 s.brk).mem
      (s.brk - 8) x hx
    have e0 : NULL < W64 := by unfold NULL W64; decide
    refine ⟨u, hc.trans hi, hb.trans F1.1, hcl.trans F1.2.1, hpr.trans F1.2.2.1, ?_, ?_, ?_, ?_, ?_,
      ?_⟩
    · rw [if_pos rfl]
      exact hn
    · rw [free_list_iff]
      refine ⟨hh, a7, ?_, ?_, trivial⟩
      · rw [hmem]
        unfold insert_empty
        rw [get_prev_set_next _ _ _ _ (Or.inl (le_refl _)), get_prev_set_prev_same _ _ _ e0]
      · rw [hmem]
        unfold insert_empty
        rw [get_next_set_next_same _ _ _ e0]
        rfl
    · intro x hxl
      have : x = s.brk - 8 := by simpa using hxl
      rw [this, hmem, G _ (Or.inl rfl), T.1]
    · rw [hmem, e4080, G _ a11, T.2.1]
    · rw [hmem, G _ (Or.inl rfl), T.1]
    · intro y hy
      rw [hmem, get_next_insert_empty _ _ _ (a13 y hy)]
      exact Ab y hy
  · have hcm : c ∈ l1 ++ [c] := by simp
    have hne : (extend_heap_format s1 s.brk).freelist_head ≠ NULL := by
      rw [hhd2]
      cases l1 with
      | nil => exact hseg2.1
      | cons a t => exact hseg2.1
    have hloop : ∃ s3, insertFreeList fuel (extend_heap_format s1 s.brk) (s.brk - 8) = some s3 ∧
        s3.mem = insert_after (extend_heap_format s1 s.brk).mem (s.brk - 8) c ∧
        s3.brk = (extend_heap_format s1 s.brk).brk ∧
        s3.calls = (extend_heap_format s1 s.brk).calls ∧
        s3.provider = (extend_heap_format s1 s.brk).provider ∧
        s3.freelist_head = (l1 ++ [c]).headD NULL ∧
        s3.freelist_next = (extend_heap_format s1 s.brk).freelist_next := by
      unfold insertFreeList
      rw [if_neg hne, hhd2]
      cases hl : l1 ++ [c] with
      | nil => simp at hl
      | cons a t =>
        rw [hl] at hseg2 hxa hf hhd2
        have hgl : (a :: t).getLastD NULL = c := by
          rw [← hl]
          simp
        obtain ⟨s3, k1, k2, k3, k4, k5, k6, k7⟩ :=
          insertFreeList_loop_append (extend_heap_format s1 s.brk) (s.brk - 8) t a fuel
            NULL hseg2 (fun x hxl => (hxa x hxl).2.1) (Nat.lt_of_succ_le hf)
        rw [hgl] at k2
        exact ⟨s3, k1, k2, k3, k4, k5, k6.trans hhd2, k7⟩
    obtain ⟨s3, hi, hmem, hb, hcl, hpr, hh, hn⟩ := hloop
    have G := fun x hx => get_block_size_insert_after (extend_heap_format s1 s.brk).mem
      (s.brk - 8) c x (hxc c hcm).1 hx
    refine ⟨s3, hc.trans hi, hb.trans F1.1, hcl.trans F1.2.1, hpr.trans F1.2.2.1, ?_, ?_, ?_, ?_,
      ?_, ?_⟩
    · rw [if_neg (by simp), hn, F1.2.2.2.2.2]
    · rw [free_list_iff]
      constructor
      · rw [hh]
        cases l1 <;> rfl
      · rw [hmem]
        exact insert_after_chain _ l1 c (s.brk - 8) hseg2 hpw (fun x hxl => (hxa x hxl).2.2.2)
          a7 a6 (fun x hxl => (hxa x hxl).2.2.1)
    · intro x hxl
      rcases List.mem_append.mp hxl with hxl | hxl
      · rw [hmem, G x (hxx c hcm x hxl), (Bl x (hxa x hxl).1).1]
        exact (hx x hxl).2
      · have : x = s.brk - 8 := by simpa using hxl
        rw [this, hmem, G _ (Or.inl rfl), T.1]
    · rw [hmem, e4080, G _ (hxc c hcm).2, T.2.1]
    · rw [hmem, G _ (Or.inl rfl), T.1]
    · intro y hy
      rw [hmem, get_next_insert_after _ _ _ _ (hxc c hcm).1 (a13 y hy)]
      exact Ab y hy

/-- One round of `extend_heap` with a granted page, from a heap that is ready to
grow: the heap is ready to grow again with a free last block that is 4096 bytes
larger and is a list member of that size, and the round ends with a fitting list
member, or goes round again when no member fits. -/
theorem extend_heap_round_granted (fuel asize : Nat) (s : State) (l : List Nat) (r : Nat)
    (hg : grow_ready s l r) (hp : s.provider s.calls = true)
    (hpg : load32 s.mem s.brk ≠ 4294967295)
    (hW : s.brk + 4096 + 8 < W64) (hr : r + 4096 < 65536) (hf : l.length + 1 ≤ fuel) :
    ∃ s3 l3 o, extend_heap_round fuel asize s = some (s3, o) ∧ grow_ready s3 l3 (r + 4096) ∧
      s3.calls = s.calls + 1 ∧ s3.provider = s.provider ∧ s3.brk = s.brk + 4096 ∧
      l3.length ≤ l.length + 1 ∧
      (∀ y, s.brk + 4096 - 8 ≤ y → get_next s3.mem y = get_next s.mem y) ∧
      (∃ z ∈ l3, get_block_size s3.mem z = r + 4096) ∧
      (∀ v, o = some v → v ≠ NULL ∧ v ∈ l3 ∧ asize ≤ get_block_size s3.mem v) ∧
      (o = none → ∀ x ∈ l3, get_block_size s3.mem x < asize) := by
  obtain ⟨hfl, hpw, hcur, hx, hB, htail⟩ := hg
  obtain ⟨s1, hi, h1m, h1b, h1c, h1p, _, h1h, h1n⟩ := ics_inc_brk_granted s hp (by omega)
  have key : ∃ s3 l3, coalesce fuel (extend_heap_format s1 s.brk) (PAYLOAD (psub s.brk WSIZE)) =
      some s3 ∧ grow_ready s3 l3 (r + 4096) ∧ s3.calls = s.calls + 1 ∧
      s3.provider = s.provider ∧ s3.brk = s.brk + 4096 ∧ l3.length ≤ l.length + 1 ∧
      (∀ y, s.brk + 4096 - 8 ≤ y → get_next s3.mem y = get_next s.mem y) ∧
      (∃ z ∈ l3, get_block_size s3.mem z = r + 4096) := by
    rcases htail with ⟨hr0, hft⟩ | ⟨hr32, hr8, hrB, hft, hlast⟩
    · obtain ⟨s3, hc, k1, k2, k3, k4, k5, k6, k7, k8, k9⟩ :=
        extend_heap_page_append fuel s s1 l hfl hpw hx hB hft hW h1m h1b h1h (by omega)
      have hb3 : s3.brk = s.brk + 4096 := k1.trans h1b
      have e1 : s3.brk - 16 = s.brk + 4096 - 16 := by rw [hb3]
      have e2 : s3.brk - 8 - (r + 4096) = s.brk - 8 := by rw [hb3, hr0]; omega
      refine ⟨s3, l ++ [s.brk - 8], hc, ⟨k5, ?_, ?_, ?_, by omega, Or.inr ⟨by omega, by omega,
        by omega, ?_, ?_⟩⟩, k2.trans h1c, k3.trans h1p, hb3, by simp, k9,
        ⟨s.brk - 8, by simp, ?_⟩⟩
      · rw [List.pairwise_append]
        refine ⟨hpw, List.pairwise_singleton _ _, ?_⟩
        intro a ha b hb
        have := (hx a ha).1
        have : b = s.brk - 8 := by simpa using hb
        omega
      · right
        rw [k4]
        by_cases hl : l = []
        · rw [if_pos hl]
          simp
        · rw [if_neg hl, h1n]
          rcases hcur with ⟨h, _⟩ | h
          · exact absurd h hl
          · exact List.mem_append_left _ h
      · intro x hxl
        refine ⟨?_, k6 x hxl⟩
        rcases List.mem_append.mp hxl with h | h
        · have := (hx x h).1
          omega
        · have : x = s.brk - 8 := by simpa using h
          omega
      · rw [e1, k7, hr0]
      · rw [e2]
        simp
      · rw [k8, hr0]
    · obtain ⟨s3, hc, k1, k2, k3, k4, k5, k6, k7, k8, k9⟩ :=
        extend_heap_page_merge fuel s s1 l r hfl hpw hx hr32 hr8 hrB hft hlast hW hr h1m h1b h1h
      have hb3 : s3.brk = s.brk + 4096 := k1.trans h1b
      have e1 : s3.brk - 16 = s.brk + 4096 - 16 := by rw [hb3]
      have e2 : s3.brk - 8 - (r + 4096) = s.brk - 8 - r := by rw [hb3]; omega
      refine ⟨s3, l, hc, ⟨k5, hpw, ?_, ?_, by omega, Or.inr ⟨by omega, by omega, by omega, ?_, ?_⟩⟩,
        k2.trans h1c, k3.trans h1p, hb3, by omega, k9,
        ⟨s.brk - 8 - r, List.mem_of_mem_getLast? hlast, k8⟩⟩
      · rw [k4, h1n]
        exact hcur
      · intro x hxl
        refine ⟨?_, k6 x hxl⟩
        have := (hx x hxl).1
        omega
      · rw [e1, k7]
      · rw [e2]
        exact hlast
  obtain ⟨s3, l3, hc, hg3, hc3, hp3, hb3, hl3, hfr, hz⟩ := key
  obtain ⟨v, hv, hv0, hv1⟩ := find_next_fit_on_list s3 l3 asize fuel hg3.1 hg3.2.2.1 (by omega)
  have hround : extend_heap_round fuel asize s =
      if v ≠ NULL then some (s3, some v) else some (s3, none) := by
    unfold extend_heap_round
    rw [hi]
    show (if load32 s1.mem s.brk = 4294967295 then some (s1, some NULL)
      else extend_heap_grow fuel asize s1 s.brk) = _
    rw [if_neg (by rw [h1m]; exact hpg)]
    unfold extend_heap_grow
    rw [hc, Option.some_bind]
    unfold extend_heap_retry
    rw [hv, Option.some_bind]
  by_cases hvn : v ≠ NULL
  · rw [if_pos hvn] at hround
    refine ⟨s3, l3, some v, hround, hg3, hc3, hp3, hb3, hl3, hfr, hz, ?_, fun h => by cases h⟩
    intro w hw
    cases hw
    exact ⟨hvn, hv1 hvn⟩
  · rw [if_neg hvn] at hround
    refine ⟨s3, l3, none, hround, hg3, hc3, hp3, hb3, hl3, hfr, hz, (fun w hw => by cases hw), ?_⟩
    intro _
    exact hv0 (not_not.mp hvn)

/-- The test `*(int*)a == -1` reads the low half of the word at `a`. -/
theorem load32_eq_get_next (m : Mem) (a : Nat) (h : 8 ≤ a) :
    load32 m a = get_next m (a - 8) % 4294967296 := by
  unfold load32 get_next load64
  rw [show a - 8 + 8 = a by omega]
  omega

/-- The loop of `extend_heap` from a heap that is ready to grow, when `n` pages
are enough, stay within the 16-bit size field and none of them starts with the
bytes that read as `-1`: it returns within `n` page requests, with `NULL` only
after a refused request and otherwise with a free list member that is large
enough, every request having been granted. -/
theorem extend_heap_loop_grows (fuel asize : Nat) :
    ∀ (n K : Nat) (s : State) (l : List Nat) (r : Nat), grow_ready s l r → 1 ≤ n →
      asize ≤ r + n * 4096 → r + n * 4096 < 65536 → s.brk + n * 4096 + 8 < W64 → n ≤ K →
      l.length + n ≤ fuel →
      (∀ k, k < n → load32 s.mem (s.brk + k * 4096) ≠ 4294967295) →
      ∃ t v, extend_heap_loop fuel asize K s = some (t, v) ∧ s.calls < t.calls ∧
        t.calls ≤ s.calls + n ∧ t.provider = s.provider ∧
        (v = NULL → s.provider (t.calls - 1) = false) ∧
        (v ≠ NULL → (∀ k, s.calls ≤ k → k < t.calls → s.provider k = true) ∧
          ∃ l2, free_list t l2 ∧ v ∈ l2 ∧ asize ≤ get_block_size t.mem v ∧
            get_block_size t.mem v % 2 = 0) := by
  intro n
  induction n with
  | zero => intro K s l r _ h; omega
  | succ n ih =>
    intro K s l r hg _ ha hr hW hK hf hpages
    obtain ⟨K, rfl⟩ : ∃ K2, K = K2 + 1 := ⟨K - 1, by omega⟩
    show ∃ t v, ((extend_heap_round fuel asize s).bind fun r =>
      match r with
      | (s1, some v) => some (s1, v)
      | (s1, none) => extend_heap_loop fuel asize K s1) = some (t, v) ∧ _
    by_cases hp : s.provider s.calls = true
    · have hpg : load32 s.mem s.brk ≠ 4294967295 := by
        have := hpages 0 (by omega)
        rw [Nat.zero_mul, Nat.add_zero] at this
        exact this
      have hB16 : 16 ≤ s.brk := hg.2.2.2.2.1
      obtain ⟨s3, l3, o, hround, hg3, hc3, hp3, hb3, hl3, hfr, ⟨z, hz, hzs⟩, hsome, hnone⟩ :=
        extend_heap_round_granted fuel asize s l r hg hp hpg (by omega) (by omega) (by omega)
      rw [hround, Option.some_bind]
      cases o with
      | some v =>
        obtain ⟨hv0, hvl, hvs⟩ := hsome v rfl
        refine ⟨s3, v, rfl, by omega, by omega, hp3, fun h => absurd h hv0, fun _ => ⟨?_, l3,
          hg3.1, hvl, hvs, (hg3.2.2.2.1 v hvl).2⟩⟩
        intro k hk1 hk2
        have : k = s.calls := by omega
        rw [this]
        exact hp
      | none =>
        have hlt := hnone rfl z hz
        have hn1 : 1 ≤ n := by
          rcases Nat.eq_zero_or_pos n with h | h
          · subst h
            omega
          · exact h
        have hpages3 : ∀ k, k < n → load32 s3.mem (s3.brk + k * 4096) ≠ 4294967295 := by
          intro k hk
          have h1 := hpages (k + 1) (by omega)
          have e1 : s3.brk + k * 4096 = s.brk + (k + 1) * 4096 := by rw [hb3]; omega
          rw [e1, load32_eq_get_next _ _ (by omega), hfr _ (by omega),
            ← load32_eq_get_next _ _ (by omega)]
          exact h1
        obtain ⟨t, v, hloop, k1, k2, k3, k4, k5⟩ :=
          ih K s3 l3 (r + 4096) hg3 hn1 (by omega) (by omega) (by omega) (by omega) (by omega)
            hpages3
        refine ⟨t, v, hloop, by omega, by omega, k3.trans hp3, ?_, ?_⟩
        · intro hv
          have := k4 hv
          rw [hp3] at this
          exact this
        · intro hv
          obtain ⟨q1, q2⟩ := k5 hv
          refine ⟨?_, q2⟩
          intro k hk1 hk2
          by_cases hk : k = s.calls
          · rw [hk]
            exact hp
          · have := q1 k (by omega) hk2
            rw [hp3] at this
            exact this
    · have hp2 : s.provider s.calls = false := by
        cases h : s.provider s.calls
        · rfl
        · exact absurd h hp
      obtain ⟨s1, hi, hc1, hp1⟩ := ics_inc_brk_refused s hp2
      have hround : extend_heap_round fuel asize s = some (s1, some NULL) := by
        unfold extend_heap_round
        rw [hi]
      rw [hround, Option.some_bind]
      refine ⟨s1, NULL, rfl, by omega, by omega, hp1, ?_, fun h => absurd rfl h⟩
      intro _
      rw [hc1]
      exact hp2

/-- Heap growth when no page reads as the failure sentinel: from a heap that is
ready to grow, with `32 ≤ asize ≤ 20464`, the last block small enough that the
pages asked for keep the merged size below 65536, none of these pages starting
with four bytes `FF`, and enough fuel, `extend_heap` returns; it returns `NULL`
only when a page request was refused, and otherwise a free-list member with the
allocation flag clear and block size at least `asize`; it makes at most
`⌈asize / 4096⌉` page requests, and with a provider that never fails the result
is not `NULL`. -/
theorem extend_heap_fits_or_reports (fuel asize : Nat) (s : State) (l : List Nat) (r : Nat)
    (hg : grow_ready s l r) (ha1 : 32 ≤ asize) (ha2 : asize ≤ 20464)
    (hr : r + (asize + 4095) / 4096 * 4096 < 65536)
    (hW : s.brk + (asize + 4095) / 4096 * 4096 + 8 < W64)
    (hf : l.length + (asize + 4095) / 4096 ≤ fuel)
    (hpages : ∀ k, k < (asize + 4095) / 4096 →
      load32 s.mem (s.brk + k * 4096) ≠ 4294967295) :
    ∃ t v, extend_heap fuel s asize = some (t, v) ∧
      (v = NULL → ∃ k, s.calls ≤ k ∧ k < t.calls ∧ s.provider k = false) ∧
      (v ≠ NULL → ∃ l2, free_list t l2 ∧ v ∈ l2 ∧ get_block_size t.mem v % 2 = 0 ∧
        asize ≤ get_block_size t.mem v) ∧
      s.calls < t.calls ∧ t.calls ≤ s.calls + (asize + 4095) / 4096 ∧
      ((∀ k, s.provider k = true) → v ≠ NULL) := by
  have hn1 : 1 ≤ (asize + 4095) / 4096 := by omega
  have hn2 : asize ≤ r + (asize + 4095) / 4096 * 4096 := by omega
  obtain ⟨t, v, hloop, k1, k2, _, k4, k5⟩ :=
    extend_heap_loop_grows fuel asize ((asize + 4095) / 4096) fuel s l r hg hn1 hn2 hr hW
      (by omega) hf hpages
  refine ⟨t, v, hloop, ?_, ?_, k1, k2, ?_⟩
  · intro hv
    exact ⟨t.calls - 1, by omega, by omega, k4 hv⟩
  · intro hv
    obtain ⟨_, l2, q1, q2, q3, q4⟩ := k5 hv
    exact ⟨l2, q1, q2, q4, q3⟩
  · intro hall hv
    have := k4 hv
    rw [hall] at this
    cases this

set_option maxRecDepth 100000 in
/-- The heap right after the first-malloc setup on zeroed memory is ready to grow
with the free list `[65544]` and a free last block of 4080 bytes, its next two
pages are zero, and `extend_heap` for 5024 bytes returns a fitting block. -/
theorem extend_heap_fits_or_reports_witness :
    grow_ready fresh_setup [65544] 4080 ∧
      ∃ t v, extend_heap 3 fresh_setup 5024 = some (t, v) ∧
        (v = NULL → ∃ k, fresh_setup.calls ≤ k ∧ k < t.calls ∧ fresh_setup.provider k = false) ∧
        (v ≠ NULL → ∃ l2, free_list t l2 ∧ v ∈ l2 ∧ get_block_size t.mem v % 2 = 0 ∧
          5024 ≤ get_block_size t.mem v) ∧
        fresh_setup.calls < t.calls ∧ t.calls ≤ fresh_setup.calls + (5024 + 4095) / 4096 ∧
        ((∀ k, fresh_setup.provider k = true) → v ≠ NULL) :=
  ⟨by decide, extend_heap_fits_or_reports 3 5024 fresh_setup [65544] 4080 (by decide)
    (by decide) (by decide) (by decide) (by decide) (by decide) (by decide)⟩

set_option maxRecDepth 100000 in
/-- C19 fails on a granted page that starts with four bytes `FF`: over memory
that is zero except for the first four bytes of the second page (`marked_page`),
the first `ics_malloc(10)` leaves the well-formed heap `marked_heap` (free list
`[65576]`, the last block, 4048 bytes, search cursor on it) whose provider never
fails.  `extend_heap` for 5024 bytes is granted the page at 69632 (one more call,
boundary at 73728) and returns `NULL`, because the test `*(int*)brk == -1` reads
the page; `ics_malloc(5000)` reports `ENOMEM`. -/
theorem extend_heap_refuses_granted_page :
    (ics_malloc 3 fresh_marked 10).map Prod.snd = some 65552 ∧
      grow_ready marked_heap [65576] 4048 ∧
      (∀ k, marked_heap.provider k = true) ∧
      load32 marked_heap.mem marked_heap.brk = 4294967295 ∧
      (extend_heap 3 marked_heap 5024).map Prod.snd = some NULL ∧
      (extend_heap 3 marked_heap 5024).map (fun p => (p.1.calls, p.1.brk)) =
        some (marked_heap.calls + 1, marked_heap.brk + 4096) ∧
      (ics_malloc 3 marked_heap 5000).map (fun p => (p.2, p.1.errno)) = some (NULL, ENOMEM) := by
  refine ⟨by decide, by decide, fun _ => rfl, by decide, by decide, by decide, by decide⟩

/-- The magic number in the footer word that a round of `extend_heap` formats. -/
theorem extend_heap_format_footer_id (s : State) (B : Nat) (hB : 16 ≤ B) (hW : B + 4096 < W64)
    (hb : s.brk = B + 4096) :
    get_id (extend_heap_format s B).mem (B + 4080) = FOOTER_MAGIC := by
  have e7 : FOOTER_MAGIC % 4294967296 = FOOTER_MAGIC := by decide
  rw [extend_heap_format_mem s B (by omega) hW hb]
  clear hb
  simp (disch := omega) only [get_block_size_set_block_size_off, get_block_size_set_id_off, get_block_size_set_requested_size_off, get_block_size_set_next_off, get_block_size_set_prev_off, get_id_set_block_size_off, get_id_set_id_off, get_id_set_requested_size_off, get_id_set_next_off, get_id_set_prev_off, get_requested_size_set_block_size_off, get_requested_size_set_id_off, get_requested_size_set_requested_size_off, get_requested_size_set_next_off, get_requested_size_set_prev_off, get_next_set_block_size_off, get_next_set_id_off, get_next_set_requested_size_off, get_next_set_next_off, get_next_set_prev_off, get_prev_set_block_size_off, get_prev_set_id_off, get_prev_set_requested_size_off, get_prev_set_next_off, get_prev_set_prev_off, get_block_size_set_block_size_at, get_block_size_set_id_at, get_block_size_set_requested_size_at, get_id_set_block_size_at, get_id_set_id_at, get_id_set_requested_size_at, get_requested_size_set_block_size_at, get_requested_size_set_id_at, get_requested_size_set_requested_size_at, get_next_set_next_at, get_prev_set_prev_at, get_block_size_guard_set_next_off, get_block_size_guard_set_prev_off, get_id_guard_set_next_off, get_id_guard_set_prev_off, get_requested_size_guard_set_next_off, get_requested_size_guard_set_prev_off, get_next_guard_set_next_off, get_next_guard_set_prev_off, get_prev_guard_set_next_off, get_prev_guard_set_prev_off, e7]

/-- The footer address that `GET_FTR` derives from the payload pointer of the
header at `h`, in terms of the masked size `GET_SIZE`: the last word of the block. -/
theorem GET_FTR_last_word (m : Mem) (h : Nat) (hs : 16 ≤ GET_SIZE m h)
    (hW : h + 8 + GET_SIZE m h < W64) :
    GET_FTR m (PAYLOAD h) = h + GET_SIZE m h - 8 := by
  have e1 : PAYLOAD h = h + 8 := by
    unfold PAYLOAD
    rw [padd_eq _ _ (by unfold WSIZE; omega)]
    rfl
  have e2 : GET_HDR (h + 8) = h := GET_HDR_payload h (by omega)
  have e3 : GET_FTR m (h + 8) = psub (padd (h + 8) (GET_SIZE m h)) DSIZE := by
    unfold GET_FTR
    rw [e2]
  rw [e1, e3, padd_eq _ _ hW, psub_eq _ _ (by unfold DSIZE; omega) hW]
  unfold DSIZE
  omega

set_option maxRecDepth 100000 in
/-- C21 (counterexample): the block at header 65544 of the heap right after the
first-malloc setup has size 4080, and `GET_FTR` of its payload pointer is 69616,
which is `h + s - 8` and not `h + s - 16 = 69608`; `allocate` of 32 bytes there
writes the footer (size 33, footer magic) at `65544 + 32 - 8 = 65568` and leaves
the word at `65544 + 32 - 16 = 65560` zero; and the stores of `extend_heap` for the
page at 69632 (header 69624, size 4096) write the footer at
`69624 + 4096 - 8 = 73712` and leave the word at `69624 + 4096 - 16 = 73704`
zero. -/
theorem footer_not_sixteen_below_end :
    GET_SIZE fresh_setup.mem 65544 = 4080 ∧
      GET_FTR fresh_setup.mem (PAYLOAD 65544) = 69616 ∧
      GET_FTR fresh_setup.mem (PAYLOAD 65544) ≠ 65544 + 4080 - 16 ∧
      GET_SIZE (allocate fresh_setup 65544 32 10).1.mem 65544 = 32 ∧
      GET_FTR (allocate fresh_setup 65544 32 10).1.mem (PAYLOAD 65544) = 65568 ∧
      get_block_size (allocate fresh_setup 65544 32 10).1.mem 65568 = 33 ∧
      get_id (allocate fresh_setup 65544 32 10).1.mem 65568 = FOOTER_MAGIC ∧
      load64 (allocate fresh_setup 65544 32 10).1.mem (65544 + 32 - 16) = 0 ∧
      GET_SIZE (extend_heap_format (ics_inc_brk fresh_setup).1 69632).mem 69624 = 4096 ∧
      GET_FTR (extend_heap_format (ics_inc_brk fresh_setup).1 69632).mem (PAYLOAD 69624) =
        73712 ∧
      get_block_size (extend_heap_format (ics_inc_brk fresh_setup).1 69632).mem 73712 = 4096 ∧
      get_id (extend_heap_format (ics_inc_brk fresh_setup).1 69632).mem 73712 = FOOTER_MAGIC ∧
      load64 (extend_heap_format (ics_inc_brk fresh_setup).1 69632).mem (69624 + 4096 - 16) =
        0 := by
  refine ⟨by decide, by decide, by decide, by decide, by decide, by decide, by decide, by decide,
    by decide, by decide, by decide, by decide, by decide⟩

/-- C21 (amended): the footer of a block is its last word, `h + s - 8`.  For a
header at `h` with masked size `s = GET_SIZE`, `GET_FTR` of the payload pointer
is `h + s - 8`; `allocate` writes the footer of the block it places at
`bk + asize - 8` (and the footer of a split remainder at the end of the old
block), or at `bk + b - 8` when it does not split, and that is the address
`GET_FTR` derives afterwards; and a round of `extend_heap` writes the footer of
the new page-sized block with header `B - 8` at `B - 8 + 4096 - 8`, again the
address `GET_FTR` derives. -/
theorem footer_at_last_word (m : Mem) (h : Nat) (s : State) (bk b asize req : Nat)
    (s1 : State) (B : Nat)
    (hs : 16 ≤ GET_SIZE m h) (hW : h + 8 + GET_SIZE m h < W64)
    (hb : get_block_size s.mem bk = b) (hw : bk + b + 8 < W64) (hb8 : b % 8 = 0)
    (ha16 : asize % 16 = 0) (ha32 : 32 ≤ asize) (hab : asize ≤ b)
    (hP : get_prev s.mem bk = NULL ∨ get_prev s.mem bk + 32 ≤ bk ∨ bk + b ≤ get_prev s.mem bk)
    (hN : get_next s.mem bk = NULL ∨ get_next s.mem bk + 32 ≤ bk ∨ bk + b ≤ get_next s.mem bk)
    (hB : 16 ≤ B) (hBW : B + 4096 + 8 < W64) (hbrk : s1.brk = B + 4096) :
    GET_FTR m (PAYLOAD h) = h + GET_SIZE m h - 8 ∧
    (32 ≤ b - asize →
      GET_SIZE (allocate s bk asize req).1.mem bk = asize ∧
      GET_FTR (allocate s bk asize req).1.mem (PAYLOAD bk) = bk + asize - 8 ∧
      get_block_size (allocate s bk asize req).1.mem (bk + asize - 8) = asize + 1 ∧
      get_id (allocate s bk asize req).1.mem (bk + asize - 8) = FOOTER_MAGIC ∧
      GET_SIZE (allocate s bk asize req).1.mem (bk + asize) = b - asize ∧
      GET_FTR (allocate s bk asize req).1.mem (PAYLOAD (bk + asize)) =
        bk + asize + (b - asize) - 8 ∧
      get_block_size (allocate s bk asize req).1.mem (bk + asize + (b - asize) - 8) =
        b - asize ∧
      get_id (allocate s bk asize req).1.mem (bk + asize + (b - asize) - 8) = FOOTER_MAGIC) ∧
    (b - asize < 32 →
      GET_SIZE (allocate s bk asize req).1.mem bk = b ∧
      GET_FTR (allocate s bk asize req).1.mem (PAYLOAD bk) = bk + b - 8 ∧
      get_block_size (allocate s bk asize req).1.mem (bk + b - 8) = b + 1 ∧
      get_requested_size (allocate s bk asize req).1.mem (bk + b - 8) = req % 65536) ∧
    GET_SIZE (extend_heap_format s1 B).mem (B - 8) = 4096 ∧
    GET_FTR (extend_heap_format s1 B).mem (PAYLOAD (B - 8)) = B - 8 + 4096 - 8 ∧
    get_block_size (extend_heap_format s1 B).mem (B - 8 + 4096 - 8) = 4096 ∧
    get_id (extend_heap_format s1 B).mem (B - 8 + 4096 - 8) = FOOTER_MAGIC := by
  have hb16 : b < 65536 := by rw [← hb]; exact get_block_size_lt _ _
  have e3 : psub b asize = b - asize := psub_eq _ _ hab (by unfold W64; omega)
  have eB : B - 8 + 4096 - 8 = B + 4080 := by omega
  have e9 : bk + asize + (b - asize) - 8 = bk + b - 8 := by omega
  refine ⟨GET_FTR_last_word m h hs hW, ?_, ?_, ?_⟩
  · intro hsp
    have hal : allocate s bk asize req = (allocate_split s bk asize req b, bk) := by
      unfold allocate
      rw [hb, if_pos (by rw [e3]; exact hsp)]
    have T := allocate_split_tags s bk asize req b (by omega) ha32 (by omega) (by omega) hb16
      hP hN
    rw [hal, allocate_split_mem_eq, e9]
    have g1 : GET_SIZE (allocate_split_mem s bk asize req b) bk = asize := by
      unfold GET_SIZE
      rw [T.1]
      omega
    have g2 : GET_SIZE (allocate_split_mem s bk asize req b) (bk + asize) = b - asize := by
      unfold GET_SIZE
      rw [T.2.2.2.2.2.2.1]
      omega
    have f1 := GET_FTR_last_word (allocate_split_mem s bk asize req b) bk (by rw [g1]; omega)
      (by rw [g1]; omega)
    have f2 := GET_FTR_last_word (allocate_split_mem s bk asize req b) (bk + asize)
      (by rw [g2]; omega) (by rw [g2]; omega)
    rw [g1] at f1
    rw [g2, e9] at f2
    exact ⟨g1, f1, T.2.2.2.1, T.2.2.2.2.2.1, g2, f2, T.2.2.2.2.2.2.2.2.2.1,
      T.2.2.2.2.2.2.2.2.2.2.2⟩
  · intro hns
    have hal : allocate s bk asize req = (allocate_nosplit s bk req b, bk) := by
      unfold allocate
      rw [hb, if_neg (by rw [e3]; unfold MIN_BLOCK_SIZE; omega)]
    have T := allocate_nosplit_tags s bk req b (by omega) (by omega) (by omega) hb16 hP hN
    rw [hal, allocate_nosplit_mem_eq]
    have g1 : GET_SIZE (allocate_nosplit_mem s bk req b) bk = b := by
      unfold GET_SIZE
      rw [T.1]
      omega
    have f1 := GET_FTR_last_word (allocate_nosplit_mem s bk req b) bk (by rw [g1]; omega)
      (by rw [g1]; omega)
    rw [g1] at f1
    exact ⟨g1, f1, T.2.2.2.1, T.2.2.2.2.1⟩
  · have T := extend_heap_format_tags s1 B hB (by omega) hbrk
    have I := extend_heap_format_footer_id s1 B hB (by omega) hbrk
    have g1 : GET_SIZE (extend_heap_format s1 B).mem (B - 8) = 4096 := by
      unfold GET_SIZE
      rw [T.1]
    have f1 := GET_FTR_last_word (extend_heap_format s1 B).mem (B - 8) (by rw [g1]; omega)
      (by rw [g1]; omega)
    rw [g1] at f1
    rw [eB]
    rw [eB] at f1
    exact ⟨g1, f1, T.2.1, I⟩

set_option maxRecDepth 100000 in
/-- C21 (witness): the amended statement at the block of 4080 bytes with header
65544 right after the first-malloc setup, for `allocate` of 32 bytes there and
for the first page that `extend_heap` adds at 69632. -/
theorem footer_at_last_word_witness :
    GET_FTR fresh_setup.mem (PAYLOAD 65544) = 65544 + GET_SIZE fresh_setup.mem 65544 - 8 ∧
      GET_FTR (allocate fresh_setup 65544 32 10).1.mem (PAYLOAD 65544) = 65544 + 32 - 8 ∧
      GET_FTR (extend_heap_format (ics_inc_brk fresh_setup).1 69632).mem (PAYLOAD (69632 - 8)) =
        69632 - 8 + 4096 - 8 :=
  have H := footer_at_last_word fresh_setup.mem 65544 fresh_setup 65544 4080 32 10
    (ics_inc_brk fresh_setup).1 69632 (by decide) (by decide) (by decide) (by decide)
    (by decide) (by decide) (by decide) (by decide) (by decide) (by decide) (by decide)
    (by decide) (by decide)
  ⟨H.1, (H.2.1 (by decide)).2.1, H.2.2.2.2.1⟩

end Icsmm
